import Mathlib

/-!
# Spacecraft motion simulation: the staged flight physics engine

A shallow embedding of `src/physics/ShuttlePhysics.js` together with the
constants of `src/constants/PhysicsConstants.js` and the stage enumeration of
`src/constants/ShuttleStages.js`.

Modelling conventions.

* JavaScript numbers are exact rationals (`ℚ`).  There is no NaN and no
  infinity among the rationals, so the `isNaN` / `isFinite` guards of the source
  are kept in place but never fire (`isNaN` is constantly `false`, `isFinite`
  constantly `true`).  Every division of the source is guarded against a zero
  divisor on the path that reaches it.
* `Math.sqrt` and `Math.exp` have no exact rational counterpart; they are the
  two fields of `JsMath`, a parameter of every function that reaches them.
  Theorems that need a property of `Math.sqrt` state it as a hypothesis.
* The object is a record; each method is a function from the record (and the
  arguments) to the record after the call.
* `console.log` / `console.warn` / `console.error` have no effect on the state
  and are dropped.
* Exact addition never absorbs a positive summand, double addition does.  The
  assignment `this.time += deltaTime` is therefore also given in double
  arithmetic (`timeAfterUpdateDouble`, over `roundDouble`), and the property of
  `time` is stated for both readings.
-/

namespace Shuttle

/-- The two transcendental library functions the engine calls. -/
structure JsMath where
  /-- Stands for `Math.sqrt`. -/
  sqrt : ℚ → ℚ
  /-- Stands for `Math.exp`. -/
  exp : ℚ → ℚ

/-- The global `isNaN`: no rational is NaN. -/
@[simp] def isNaN (_ : ℚ) : Bool := false

/-- The global `isFinite`: every rational is finite. -/
@[simp] def isFinite (_ : ℚ) : Bool := true

/-- Exactness of `Math.sqrt` on squares: the square root of `x * x` is `x` for `x ≥ 0`. -/
def SqrtExact (M : JsMath) : Prop := ∀ x : ℚ, 0 ≤ x → M.sqrt (x * x) = x

/-- A computable square root on the rationals: the integer square root of
`num * den` over `den`.  It is exact on squares. -/
def sqrtQ (q : ℚ) : ℚ := (Nat.sqrt (q.num.toNat * q.den) : ℚ) / q.den

/-- A computable stand-in for the exponential: its Taylor polynomial of degree 3.  No theorem
depends on its values. -/
def expQ (x : ℚ) : ℚ := 1 + x + x ^ 2 / 2 + x ^ 3 / 6

/-- A concrete pair of library functions, used to instantiate the theorems. -/
def refMath : JsMath := ⟨sqrtQ, expQ⟩

/-! ## `PhysicsConstants.js` -/

namespace PhysicsConstants

def EARTH_RADIUS : ℚ := 6371000
def EARTH_MASS : ℚ := 5.972e24
def GRAVITY_CONSTANT : ℚ := 6.67430e-11
def GRAVITY : ℚ := 9.81
def ATMOSPHERE_HEIGHT : ℚ := 100000
def AIR_DENSITY_SEA_LEVEL : ℚ := 1.225
def AIR_DENSITY_DECAY_RATE : ℚ := 1 / 8500
def SHUTTLE_MASS : ℚ := 110000
def FUEL_TANK_MASS : ℚ := 760000
def ROCKET_MASS : ℚ := 590000
def THRUST_MAIN_ENGINES : ℚ := 3 * 1.75e6
def THRUST_SOLID_ROCKETS : ℚ := 2 * 14.7e6
def THRUST_ENGINE_STARTUP : ℚ := (110000 + 760000 + 2 * 590000) * 9.81 * 1.005
def DRAG_COEFFICIENT : ℚ := 0.2
def CROSS_SECTIONAL_AREA : ℚ := 200
def FUEL_CONSUMPTION_RATE : ℚ := 460
def LOW_EARTH_ORBIT_ALTITUDE : ℚ := 200000
def GEOSTATIONARY_ORBIT_ALTITUDE : ℚ := 35786000
def ORBITAL_VELOCITY_LEO : ℚ := 7800
def ORBITAL_VELOCITY_GEO : ℚ := 3070
def ORBITAL_VELOCITY_TOLERANCE : ℚ := 50
def SRB_DETACH_ALTITUDE : ℚ := 11000
def SRB_DETACH_TIME : ℚ := 60
def FUEL_TANK_DETACH_ALTITUDE : ℚ := 15000
def FUEL_TANK_DETACH_TIME : ℚ := 60
def FUEL_TANK_DETACH_FUEL_PERCENT : ℚ := 5
def ENGINE_STARTUP_DURATION : ℚ := 3

end PhysicsConstants

/-! ## `ShuttleStages.js` -/

/-- The eight flight stages, in the order of the source object. -/
inductive ShuttleStages where
  | IDLE
  | ENGINE_STARTUP
  | LIFTOFF
  | ATMOSPHERIC_ASCENT
  | ORBITAL_INSERTION
  | ORBITAL_STABILIZATION
  | FREE_SPACE_MOTION
  | ORBITAL_MANEUVERING
  deriving DecidableEq, Repr

/-! ## `THREE.Vector3` (the methods the engine calls) -/

/-- A three-component vector of numbers. -/
structure Vector3 where
  x : ℚ
  y : ℚ
  z : ℚ
  deriving DecidableEq, Repr

namespace Vector3

/-- The value of `new THREE.Vector3()`. -/
def zero : Vector3 := ⟨0, 0, 0⟩

/-- The method `set(x, y, z)`. -/
def set (_ : Vector3) (x y z : ℚ) : Vector3 := ⟨x, y, z⟩

/-- The method `setY(y)`. -/
def setY (v : Vector3) (y : ℚ) : Vector3 := { v with y := y }

/-- The method `add(w)`. -/
def add (v w : Vector3) : Vector3 := ⟨v.x + w.x, v.y + w.y, v.z + w.z⟩

/-- The method `multiplyScalar(s)`. -/
def multiplyScalar (v : Vector3) (s : ℚ) : Vector3 := ⟨v.x * s, v.y * s, v.z * s⟩

/-- The method `divideScalar(s)`, which three.js defines as `multiplyScalar(1 / s)`. -/
def divideScalar (v : Vector3) (s : ℚ) : Vector3 := v.multiplyScalar (1 / s)

/-- The method `addScaledVector(w, s)`. -/
def addScaledVector (v w : Vector3) (s : ℚ) : Vector3 :=
  ⟨v.x + w.x * s, v.y + w.y * s, v.z + w.z * s⟩

/-- The method `lengthSq()`. -/
def lengthSq (v : Vector3) : ℚ := v.x * v.x + v.y * v.y + v.z * v.z

/-- The method `length()`: `Math.sqrt` of the squared length. -/
def length (M : JsMath) (v : Vector3) : ℚ := M.sqrt (v.x * v.x + v.y * v.y + v.z * v.z)

/-- The method `normalize()`, which three.js defines as `divideScalar(length() || 1)`. -/
def normalize (M : JsMath) (v : Vector3) : Vector3 :=
  v.divideScalar (if v.length M = 0 then 1 else v.length M)

end Vector3

/-! ## `LaunchPad.js` (what the engine touches) -/

/-- The launch pad as the engine sees it: whether a tower model is loaded, the
tilt request last made, and a ghost counter of `tiltTower` calls. -/
structure LaunchPad where
  /-- Whether `towerModel` is non-null. -/
  towerModel : Bool
  /-- The field `isTilting`. -/
  isTilting : Bool
  /-- The angle, in degrees, of the last `tiltTower` request. -/
  targetAngleDegrees : ℚ
  /-- Ghost field: how many times `tiltTower` has been called. -/
  tiltTowerCalls : Nat
  deriving DecidableEq, Repr

/-- The method `LaunchPad.tiltTower(targetAngleDegrees)`; `towerGroup` is created in the
constructor and is always present. -/
def LaunchPad.tiltTower (p : LaunchPad) (targetAngleDegrees : ℚ) : LaunchPad :=
  { p with targetAngleDegrees := targetAngleDegrees, isTilting := true,
           tiltTowerCalls := p.tiltTowerCalls + 1 }

/-! ## `ShuttlePhysics.js` -/

/-- The mutable fields of a `ShuttlePhysics` object. -/
structure ShuttlePhysics where
  stage : ShuttleStages
  time : ℚ
  engineStartupTimer : ℚ
  position : Vector3
  velocity : Vector3
  acceleration : Vector3
  force : Vector3
  isFuelTankAttached : Bool
  isRocket1Attached : Bool
  isRocket2Attached : Bool
  fuelPercentage : ℚ
  srbDetached : Bool
  etDetached : Bool
  launchPad : Option LaunchPad
  towerTilted : Bool
  deriving DecidableEq, Repr

namespace ShuttlePhysics

open PhysicsConstants ShuttleStages

/-- The field `shuttleDryMass`: assigned once in the constructor, never written again. -/
def shuttleDryMass : ℚ := SHUTTLE_MASS

/-- The field `externalTankInitialTotalMass`: assigned once in the constructor. -/
def externalTankInitialTotalMass : ℚ := FUEL_TANK_MASS

/-- The field `srbInitialTotalMass`: assigned once in the constructor. -/
def srbInitialTotalMass : ℚ := ROCKET_MASS

/-- The state built by `new ShuttlePhysics()` (lines 9-39). -/
def new : ShuttlePhysics where
  stage := IDLE
  time := 0
  engineStartupTimer := 0
  position := ⟨0, EARTH_RADIUS, 0⟩
  velocity := Vector3.zero
  acceleration := Vector3.zero
  force := Vector3.zero
  isFuelTankAttached := true
  isRocket1Attached := true
  isRocket2Attached := true
  fuelPercentage := 100
  srbDetached := false
  etDetached := false
  launchPad := none
  towerTilted := false

/-- The method `setLaunchPad` (lines 42-44). -/
def setLaunchPad (s : ShuttlePhysics) (launchPad : Option LaunchPad) : ShuttlePhysics :=
  { s with launchPad := launchPad }

/-- The method `calculateTotalMass` (lines 46-74). -/
def calculateTotalMass (s : ShuttlePhysics) : ℚ :=
  let totalMass := shuttleDryMass
  let totalMass :=
    if s.isFuelTankAttached then
      totalMass + externalTankInitialTotalMass * (s.fuelPercentage / 100)
    else totalMass
  let totalMass := if s.isRocket1Attached then totalMass + srbInitialTotalMass else totalMass
  let totalMass := if s.isRocket2Attached then totalMass + srbInitialTotalMass else totalMass
  if isNaN totalMass then 1
  else if !isFinite totalMass then 1
  else if totalMass ≤ 0 then 1
  else totalMass

/-- The method `calculateGravityForce` (lines 76-94). -/
def calculateGravityForce (M : JsMath) (s : ShuttlePhysics) (position : Vector3) : Vector3 :=
  let distance := position.length M
  if distance < 1 ∨ isNaN distance ∨ !isFinite distance then Vector3.zero
  else
    let gravityMagnitude :=
      GRAVITY_CONSTANT * EARTH_MASS * s.calculateTotalMass / (distance * distance)
    if isNaN gravityMagnitude ∨ !isFinite gravityMagnitude then Vector3.zero
    else (position.normalize M).multiplyScalar (-gravityMagnitude)

/-- The method `calculateNormalForce` (lines 96-100). -/
def calculateNormalForce (s : ShuttlePhysics) : Vector3 :=
  let totalMass := s.calculateTotalMass
  let weightMagnitude := GRAVITY * totalMass
  ⟨0, weightMagnitude, 0⟩

/-- The method `calculateAirResistance` (lines 102-129). -/
def calculateAirResistance (M : JsMath) (velocity : Vector3) (altitude : ℚ) : Vector3 :=
  if altitude > ATMOSPHERE_HEIGHT then Vector3.zero
  else
    let airDensity := AIR_DENSITY_SEA_LEVEL * M.exp (-altitude * AIR_DENSITY_DECAY_RATE)
    if airDensity < 0 ∨ isNaN airDensity ∨ !isFinite airDensity then Vector3.zero
    else
      let dragCoefficient := DRAG_COEFFICIENT
      let crossSectionalArea := CROSS_SECTIONAL_AREA
      let velocityMagnitudeSq := velocity.lengthSq
      if velocityMagnitudeSq = 0 ∨ isNaN velocityMagnitudeSq ∨ !isFinite velocityMagnitudeSq then
        Vector3.zero
      else
        let dragForceMagnitude :=
          0.5 * airDensity * dragCoefficient * crossSectionalArea * velocityMagnitudeSq
        if isNaN dragForceMagnitude ∨ !isFinite dragForceMagnitude then Vector3.zero
        else (velocity.normalize M).multiplyScalar (-dragForceMagnitude)

/-- The scalar `currentThrustMagnitude` selected by the `switch` of `calculateThrust`
(lines 133-168). -/
def currentThrustMagnitude (s : ShuttlePhysics) : ℚ :=
  match s.stage with
  | IDLE => 0
  | ENGINE_STARTUP => THRUST_ENGINE_STARTUP
  | LIFTOFF =>
    let m : ℚ := 0
    let m := if s.fuelPercentage > 0 then m + THRUST_MAIN_ENGINES else m
    let m := if s.isRocket1Attached then m + THRUST_SOLID_ROCKETS / 2 else m
    let m := if s.isRocket2Attached then m + THRUST_SOLID_ROCKETS / 2 else m
    m
  | ATMOSPHERIC_ASCENT =>
    let m : ℚ := 0
    if s.fuelPercentage > 0 then m + THRUST_MAIN_ENGINES else m
  | ORBITAL_INSERTION =>
    let m : ℚ := 0
    if s.fuelPercentage > 0 then m + THRUST_MAIN_ENGINES * 0.5 else m
  | ORBITAL_MANEUVERING =>
    let m : ℚ := 0
    m + THRUST_MAIN_ENGINES * 0.001
  | _ => 0

/-- The method `calculateThrust` (lines 131-177). -/
def calculateThrust (s : ShuttlePhysics) : Vector3 :=
  let thrust := Vector3.zero
  let currentThrustMagnitude := s.currentThrustMagnitude
  if isNaN currentThrustMagnitude ∨ !isFinite currentThrustMagnitude then Vector3.zero
  else { thrust with y := currentThrustMagnitude }

/-- The method `detachComponent` (lines 418-432). -/
def detachComponent (s : ShuttlePhysics) (component : String) : ShuttlePhysics :=
  if component = "fuelTank" then { s with isFuelTankAttached := false }
  else if component = "rocket1" then { s with isRocket1Attached := false }
  else if component = "rocket2" then { s with isRocket2Attached := false }
  else s

/-- The method `handleComponentDetachment` (lines 383-405). -/
def handleComponentDetachment (s : ShuttlePhysics) (altitude currentTime currentVelocity : ℚ) :
    ShuttlePhysics :=
  let s :=
    if !s.srbDetached ∧ s.isRocket1Attached ∧
        currentTime ≥ SRB_DETACH_TIME ∧
        altitude ≥ SRB_DETACH_ALTITUDE then
      let s := s.detachComponent "rocket1"
      let s := s.detachComponent "rocket2"
      { s with srbDetached := true }
    else s
  if !s.etDetached ∧ s.isFuelTankAttached ∧
      currentTime ≥ FUEL_TANK_DETACH_TIME ∧
      altitude ≥ FUEL_TANK_DETACH_ALTITUDE ∧
      currentVelocity ≥ ORBITAL_VELOCITY_LEO * 0.95 ∧
      s.fuelPercentage ≤ FUEL_TANK_DETACH_FUEL_PERCENT then
    let s := s.detachComponent "fuelTank"
    let s := { s with fuelPercentage := 0 }
    { s with etDetached := true }
  else s

/-- The method `setStage` (lines 407-416). -/
def setStage (s : ShuttlePhysics) (stage : ShuttleStages) : ShuttlePhysics :=
  let s := { s with stage := stage }
  if stage = ENGINE_STARTUP then
    { s with engineStartupTimer := 0, towerTilted := false }
  else if stage = IDLE then
    { s with towerTilted := false }
  else s

/-- The method `updateStage` (lines 319-381). -/
def updateStage (M : JsMath) (s : ShuttlePhysics) (currentAltitude _deltaTime : ℚ) :
    ShuttlePhysics :=
  let velocityMagnitude := s.velocity.length M
  match s.stage with
  | IDLE => s
  | ENGINE_STARTUP =>
    let s :=
      if s.engineStartupTimer ≥ ENGINE_STARTUP_DURATION - 2 ∧ !s.towerTilted then
        match s.launchPad with
        | some launchPad =>
          if launchPad.towerModel then
            { s with launchPad := some (launchPad.tiltTower 90), towerTilted := true }
          else s
        | none => s
      else s
    if s.engineStartupTimer ≥ ENGINE_STARTUP_DURATION then { s with stage := LIFTOFF } else s
  | LIFTOFF =>
    if currentAltitude > SRB_DETACH_ALTITUDE ∧ s.srbDetached then
      { s with stage := ATMOSPHERIC_ASCENT }
    else s
  | ATMOSPHERIC_ASCENT =>
    if currentAltitude > ATMOSPHERE_HEIGHT ∧ s.etDetached then
      { s with stage := ORBITAL_INSERTION }
    else s
  | ORBITAL_INSERTION =>
    let targetAltitudeLEO := LOW_EARTH_ORBIT_ALTITUDE
    let targetVelocityLEO := ORBITAL_VELOCITY_LEO
    if currentAltitude ≥ targetAltitudeLEO - 10000 ∧
        currentAltitude ≤ targetAltitudeLEO + 10000 ∧
        |velocityMagnitude - targetVelocityLEO| < ORBITAL_VELOCITY_TOLERANCE then
      { s with stage := ORBITAL_STABILIZATION }
    else s
  | ORBITAL_STABILIZATION =>
    if s.acceleration.lengthSq < 0.1 ∧ velocityMagnitude > ORBITAL_VELOCITY_LEO * 0.9 then
      { s with stage := FREE_SPACE_MOTION }
    else s
  | FREE_SPACE_MOTION =>
    if s.calculateThrust.lengthSq > 0.1 then { s with stage := ORBITAL_MANEUVERING } else s
  | ORBITAL_MANEUVERING =>
    if s.calculateThrust.lengthSq < 0.1 then { s with stage := FREE_SPACE_MOTION } else s

/-- The clamp of `deltaTime` at the top of `update` (lines 180-184). -/
def clampDeltaTime (deltaTime : ℚ) : ℚ :=
  let maxDeltaTime : ℚ := 0.0166
  if deltaTime > maxDeltaTime then maxDeltaTime else deltaTime

/-- Of `update`, lines 189-212: reset the force, add gravity, then the stage-dependent
ground handling and drag. -/
def updateForces (M : JsMath) (s : ShuttlePhysics) : ShuttlePhysics :=
  let s := { s with force := s.force.set 0 0 0 }
  let altitudeAtStartOfStep := s.position.y - EARTH_RADIUS
  let s := { s with force := s.force.add (s.calculateGravityForce M s.position) }
  if s.stage = IDLE then
    if altitudeAtStartOfStep ≤ 0 then
      let s := { s with position := s.position.setY EARTH_RADIUS }
      let s := { s with velocity := s.velocity.set 0 0 0 }
      let s := { s with acceleration := s.acceleration.set 0 0 0 }
      { s with force := s.force.add s.calculateNormalForce }
    else s
  else
    let s :=
      if altitudeAtStartOfStep > 0 ∧ altitudeAtStartOfStep < ATMOSPHERE_HEIGHT then
        { s with force := s.force.add (calculateAirResistance M s.velocity altitudeAtStartOfStep) }
      else s
    if s.stage = ENGINE_STARTUP ∧ altitudeAtStartOfStep ≤ 0 then
      let s := { s with position := s.position.setY EARTH_RADIUS }
      let s := { s with velocity := { s.velocity with y := max 0 s.velocity.y } }
      { s with acceleration := { s.acceleration with y := max 0 s.acceleration.y } }
    else s

/-- Of `update`, lines 215-226: add the thrust, divide by the mass, integrate velocity and
then position. -/
def updateIntegrate (s : ShuttlePhysics) (currentThrustVector : Vector3) (deltaTime : ℚ) :
    ShuttlePhysics :=
  let s := { s with force := s.force.add currentThrustVector }
  let currentTotalMass := s.calculateTotalMass
  let s :=
    if currentTotalMass > 0 ∧ !isNaN currentTotalMass ∧ isFinite currentTotalMass then
      { s with acceleration := s.force.divideScalar currentTotalMass }
    else { s with acceleration := s.acceleration.set 0 0 0 }
  let s := { s with velocity := s.velocity.addScaledVector s.acceleration deltaTime }
  { s with position := s.position.addScaledVector s.velocity deltaTime }

/-- Of `update`, lines 230-241: the snap back to the ground. -/
def updateGroundClamp (s : ShuttlePhysics) (currentAltitude : ℚ) : ShuttlePhysics :=
  if s.stage ≠ IDLE then
    if currentAltitude < -1 then
      let s := { s with position := s.position.setY EARTH_RADIUS }
      let s := if s.velocity.y < 0 then { s with velocity := { s.velocity with y := 0 } } else s
      if s.acceleration.y < 0 then { s with acceleration := { s.acceleration with y := 0 } }
      else s
    else s
  else s

/-- Of `update`, lines 243-265: the three resets on a non-finite component. -/
def updateSanity (s : ShuttlePhysics) : ShuttlePhysics :=
  let s :=
    if isNaN s.position.x ∨ !isFinite s.position.x ∨
        isNaN s.position.y ∨ !isFinite s.position.y ∨
        isNaN s.position.z ∨ !isFinite s.position.z then
      { s with position := s.position.set 0 EARTH_RADIUS 0,
               velocity := s.velocity.set 0 0 0,
               acceleration := s.acceleration.set 0 0 0 }
    else s
  let s :=
    if isNaN s.velocity.x ∨ !isFinite s.velocity.x ∨
        isNaN s.velocity.y ∨ !isFinite s.velocity.y ∨
        isNaN s.velocity.z ∨ !isFinite s.velocity.z then
      { s with velocity := s.velocity.set 0 0 0, acceleration := s.acceleration.set 0 0 0 }
    else s
  if isNaN s.acceleration.x ∨ !isFinite s.acceleration.x ∨
      isNaN s.acceleration.y ∨ !isFinite s.acceleration.y ∨
      isNaN s.acceleration.z ∨ !isFinite s.acceleration.z then
    { s with acceleration := s.acceleration.set 0 0 0 }
  else s

/-- Of `update`, lines 267-291: the fuel depletion. -/
def updateFuel (s : ShuttlePhysics) (currentThrustVector : Vector3) (deltaTime : ℚ) :
    ShuttlePhysics :=
  let mainEngineFuelBurnRate := FUEL_CONSUMPTION_RATE
  if s.fuelPercentage > 0 ∧ currentThrustVector.lengthSq > 0.1 then
    let actualBurnRate : ℚ := 0
    if s.stage = LIFTOFF ∨ s.stage = ATMOSPHERIC_ASCENT ∨
        s.stage = ORBITAL_INSERTION ∨ s.stage = ORBITAL_MANEUVERING then
      let actualBurnRate :=
        if currentThrustVector.y > 0 then mainEngineFuelBurnRate else actualBurnRate
      let fuelMassInTank := externalTankInitialTotalMass * (s.fuelPercentage / 100)
      let actualBurnRate := min actualBurnRate (fuelMassInTank / deltaTime)
      let fuelPercentageConsumed :=
        (actualBurnRate * deltaTime / externalTankInitialTotalMass) * 100
      let s := { s with fuelPercentage := max 0 (s.fuelPercentage - fuelPercentageConsumed) }
      if isNaN s.fuelPercentage ∨ !isFinite s.fuelPercentage then { s with fuelPercentage := 0 }
      else s
    else s
  else s

/-- Of `update`, lines 293-300: the simulation clock and the startup timer. -/
def updateClocks (s : ShuttlePhysics) (deltaTime : ℚ) : ShuttlePhysics :=
  let s := { s with time := s.time + deltaTime }
  if s.stage = ENGINE_STARTUP then
    { s with engineStartupTimer := s.engineStartupTimer + deltaTime }
  else { s with engineStartupTimer := 0 }

/-- The method `update` (lines 179-317). -/
def update (M : JsMath) (s : ShuttlePhysics) (deltaTime : ℚ) : ShuttlePhysics :=
  let deltaTime := clampDeltaTime deltaTime
  if deltaTime ≤ 0 then s
  else
    let s := s.updateForces M
    let currentThrustVector := s.calculateThrust
    let s := s.updateIntegrate currentThrustVector deltaTime
    let currentAltitude := s.position.y - EARTH_RADIUS
    let s := s.updateGroundClamp currentAltitude
    let s := s.updateSanity
    let s := s.updateFuel currentThrustVector deltaTime
    let s := s.updateClocks deltaTime
    let s := s.updateStage M currentAltitude deltaTime
    s.handleComponentDetachment currentAltitude s.time (s.velocity.length M)

/-! ## Vocabulary of the properties -/

/-- The transition table of the stage machine: the stage each stage may advance to.
`IDLE` has no successor. -/
def stageSuccessor : ShuttleStages → Option ShuttleStages
  | IDLE => none
  | ENGINE_STARTUP => some LIFTOFF
  | LIFTOFF => some ATMOSPHERIC_ASCENT
  | ATMOSPHERIC_ASCENT => some ORBITAL_INSERTION
  | ORBITAL_INSERTION => some ORBITAL_STABILIZATION
  | ORBITAL_STABILIZATION => some FREE_SPACE_MOTION
  | FREE_SPACE_MOTION => some ORBITAL_MANEUVERING
  | ORBITAL_MANEUVERING => some FREE_SPACE_MOTION

/-- One call of a state-changing method of the engine. -/
inductive Op where
  | update (deltaTime : ℚ)
  | setStage (stage : ShuttleStages)
  | detachComponent (component : String)
  | handleComponentDetachment (altitude currentTime currentVelocity : ℚ)

/-- The state after one call. -/
def Op.apply (M : JsMath) (s : ShuttlePhysics) : Op → ShuttlePhysics
  | .update deltaTime => s.update M deltaTime
  | .setStage stage => s.setStage stage
  | .detachComponent component => s.detachComponent component
  | .handleComponentDetachment altitude currentTime currentVelocity =>
    s.handleComponentDetachment altitude currentTime currentVelocity

/-- The state after a sequence of calls, made from left to right. -/
def runOps (M : JsMath) (s : ShuttlePhysics) (ops : List Op) : ShuttlePhysics :=
  ops.foldl (Op.apply M) s

/-- The states reachable from the constructor by `update` and `setStage` calls. -/
inductive Reachable (M : JsMath) : ShuttlePhysics → Prop where
  | new : Reachable M ShuttlePhysics.new
  | update {s : ShuttlePhysics} (deltaTime : ℚ) : Reachable M s → Reachable M (s.update M deltaTime)
  | setStage {s : ShuttlePhysics} (stage : ShuttleStages) :
    Reachable M s → Reachable M (s.setStage stage)

/-- The sum `calculateTotalMass` forms before its guards: dry mass, plus the tank mass
scaled by the fuel percentage if the tank is attached, plus the booster mass for each attached
booster. -/
def massSum (s : ShuttlePhysics) : ℚ :=
  SHUTTLE_MASS
    + (if s.isFuelTankAttached then FUEL_TANK_MASS * s.fuelPercentage / 100 else 0)
    + (if s.isRocket1Attached then ROCKET_MASS else 0)
    + (if s.isRocket2Attached then ROCKET_MASS else 0)

/-- The altitude `position.y - EARTH_RADIUS` (`getAltitude` of the callers). -/
def altitude (s : ShuttlePhysics) : ℚ := s.position.y - EARTH_RADIUS

/-- The state after a sequence of `update` calls, one per step length of the list. -/
def runUpdates (M : JsMath) (s : ShuttlePhysics) (dts : List ℚ) : ShuttlePhysics :=
  dts.foldl (update M) s

/-- The ghost count of `tiltTower` calls received by the launch pad of the engine (zero when no
launch pad is set). -/
def tiltTowerCalls (s : ShuttlePhysics) : Nat :=
  match s.launchPad with
  | some launchPad => launchPad.tiltTowerCalls
  | none => 0

/-- Of `update` with a positive clamped step: the state after the integration step
(lines 189-226). -/
def integrateStep (M : JsMath) (s : ShuttlePhysics) (deltaTime : ℚ) : ShuttlePhysics :=
  (s.updateForces M).updateIntegrate (s.updateForces M).calculateThrust (clampDeltaTime deltaTime)

/-- The constant `currentAltitude` of `update` (line 228): the altitude computed right after
the integration step. -/
def currentAltitude (M : JsMath) (s : ShuttlePhysics) (deltaTime : ℚ) : ℚ :=
  (integrateStep M s deltaTime).position.y - EARTH_RADIUS

/-- Of `update` with a positive clamped step: the state on which `updateStage` is called
(line 303). -/
def beforeStage (M : JsMath) (s : ShuttlePhysics) (deltaTime : ℚ) : ShuttlePhysics :=
  ((((integrateStep M s deltaTime).updateGroundClamp
    (currentAltitude M s deltaTime)).updateSanity.updateFuel
      (s.updateForces M).calculateThrust (clampDeltaTime deltaTime)).updateClocks
        (clampDeltaTime deltaTime))

/-- The thrust magnitude as the stage table gives it: nothing in `IDLE`, the startup thrust in
`ENGINE_STARTUP`; in `LIFTOFF` the main engines if fuel remains plus half the booster thrust for
each attached booster; the main engines in `ATMOSPHERIC_ASCENT` and half of them in
`ORBITAL_INSERTION`, both only if fuel remains; a thousandth of the main engines in
`ORBITAL_MANEUVERING`; nothing in `ORBITAL_STABILIZATION` and `FREE_SPACE_MOTION`. -/
def thrustMagnitudeByStage (s : ShuttlePhysics) : ℚ :=
  match s.stage with
  | IDLE => 0
  | ENGINE_STARTUP => THRUST_ENGINE_STARTUP
  | LIFTOFF =>
    (if s.fuelPercentage > 0 then THRUST_MAIN_ENGINES else 0)
      + (if s.isRocket1Attached then THRUST_SOLID_ROCKETS / 2 else 0)
      + (if s.isRocket2Attached then THRUST_SOLID_ROCKETS / 2 else 0)
  | ATMOSPHERIC_ASCENT => if s.fuelPercentage > 0 then THRUST_MAIN_ENGINES else 0
  | ORBITAL_INSERTION => if s.fuelPercentage > 0 then 0.5 * THRUST_MAIN_ENGINES else 0
  | ORBITAL_STABILIZATION => 0
  | FREE_SPACE_MOTION => 0
  | ORBITAL_MANEUVERING => 0.001 * THRUST_MAIN_ENGINES

/-- The net force on an airborne vehicle outside `IDLE`: gravity, plus drag while below the
atmosphere height, plus thrust. -/
def airborneNetForce (M : JsMath) (s : ShuttlePhysics) : Vector3 :=
  ((s.calculateGravityForce M s.position).add
    (if s.altitude < ATMOSPHERE_HEIGHT then calculateAirResistance M s.velocity s.altitude
      else Vector3.zero)).add s.calculateThrust

/-- The net force over the total mass, component by component. -/
def airborneAcceleration (M : JsMath) (s : ShuttlePhysics) : Vector3 :=
  ⟨(airborneNetForce M s).x / s.calculateTotalMass,
    (airborneNetForce M s).y / s.calculateTotalMass,
    (airborneNetForce M s).z / s.calculateTotalMass⟩

/-- The tower-tilt bookkeeping of a run started by `setStage(ENGINE_STARTUP)` with a launch pad
that has a tower and had received `c0` tilt calls: either the engine is still in
`ENGINE_STARTUP` below the tilt time with the latch clear and no new call, or the tilt time has
been reached (or the stage left) with exactly one new call, the latch being set while the stage
is `ENGINE_STARTUP`. -/
def TiltInvariant (c0 : Nat) (t : ShuttlePhysics) : Prop :=
  ∃ launchPad : LaunchPad, t.launchPad = some launchPad ∧ launchPad.towerModel = true ∧
    ((t.stage = ENGINE_STARTUP ∧ t.engineStartupTimer < ENGINE_STARTUP_DURATION - 2 ∧
        t.towerTilted = false ∧ launchPad.tiltTowerCalls = c0) ∨
      ((t.stage ≠ ENGINE_STARTUP ∨ ENGINE_STARTUP_DURATION - 2 ≤ t.engineStartupTimer) ∧
        (t.stage = ENGINE_STARTUP → t.towerTilted = true) ∧
        launchPad.tiltTowerCalls = c0 + 1))

/-- An example state: coasting in `ATMOSPHERIC_ASCENT` with an empty tank, at rest 200 km above
the surface. -/
def coastingState : ShuttlePhysics :=
  { ShuttlePhysics.new with
    stage := ATMOSPHERIC_ASCENT, fuelPercentage := 0, position := ⟨0, EARTH_RADIUS + 200000, 0⟩ }

/-- An example state: the constructed engine given a launch pad whose tower model is loaded. -/
def padState : ShuttlePhysics :=
  ShuttlePhysics.new.setLaunchPad (some ⟨true, false, 0, 0⟩)

/-- The booster-detachment trigger as the specification words it: not yet detached, booster 1
still attached, at least 60 s elapsed and at least 11000 m of altitude. -/
def srbDetachCondition (s : ShuttlePhysics) (altitude currentTime : ℚ) : Prop :=
  s.srbDetached = false ∧ s.isRocket1Attached = true ∧ currentTime ≥ 60 ∧ altitude ≥ 11000

/-- The tank-detachment trigger as the specification words it: not yet detached, tank still
attached, at least 60 s elapsed, at least 15000 m of altitude, a speed of at least 7410 m/s
and at most 5 percent of fuel left. -/
def etDetachCondition (s : ShuttlePhysics) (altitude currentTime currentVelocity : ℚ) : Prop :=
  s.etDetached = false ∧ s.isFuelTankAttached = true ∧ currentTime ≥ 60 ∧ altitude ≥ 15000 ∧
    currentVelocity ≥ 7410 ∧ s.fuelPercentage ≤ 5

/-- The stages in which the main engines burn fuel from the external tank. -/
def burnsFuel : ShuttleStages → Bool
  | LIFTOFF => true
  | ATMOSPHERIC_ASCENT => true
  | ORBITAL_INSERTION => true
  | ORBITAL_MANEUVERING => true
  | _ => false

/-- The net upward acceleration of the fully loaded vehicle standing on the surface under the
startup thrust: thrust minus surface gravity force, over the mass of 2050000 kg. -/
def startupAcceleration : ℚ :=
  (THRUST_ENGINE_STARTUP - GRAVITY_CONSTANT * EARTH_MASS * 2050000 /
    (EARTH_RADIUS * EARTH_RADIUS)) / 2050000

/-! ## Double arithmetic for the simulation clock -/

/-- Rounding of a rational to the nearest integer, ties to the even one. -/
def roundHalfEven (q : ℚ) : ℤ :=
  if q - ⌊q⌋ < 1 / 2 then ⌊q⌋
  else if q - ⌊q⌋ > 1 / 2 then ⌊q⌋ + 1
  else if ⌊q⌋ % 2 = 0 then ⌊q⌋
  else ⌊q⌋ + 1

/-- Rounding of a positive rational to 53 significant bits: with `e` the exponent of `x`
(`2 ^ e ≤ x < 2 ^ (e + 1)`), the nearest multiple of `2 ^ (e - 52)`, ties to even. -/
def roundDoublePos (x : ℚ) : ℚ :=
  roundHalfEven (x / 2 ^ (Int.log 2 x - 52)) * 2 ^ (Int.log 2 x - 52)

/-- Rounding of a rational to the nearest IEEE 754 binary64 number (round to nearest, ties to
even), the exponent range taken as unbounded: no overflow and no subnormals. -/
def roundDouble (x : ℚ) : ℚ :=
  if 0 < x then roundDoublePos x
  else if x < 0 then -roundDoublePos (-x)
  else 0

/-- The field `time` after `update(deltaTime)` in the double arithmetic of the program
(lines 180-187 and 293): the literal `0.0166` is the double nearest to it, the comparisons are
exact, and the sum `time + deltaTime` is rounded to the nearest double.  Meant for a `time` and
a `deltaTime` that are doubles themselves. -/
def timeAfterUpdateDouble (s : ShuttlePhysics) (deltaTime : ℚ) : ℚ :=
  let maxDeltaTime := roundDouble 0.0166
  let deltaTime := if deltaTime > maxDeltaTime then maxDeltaTime else deltaTime
  if deltaTime ≤ 0 then s.time
  else roundDouble (s.time + deltaTime)

/-! ## Frame lemmas: the fields each step of `update` leaves alone -/

@[simp] theorem detachComponent_fuelTank (s : ShuttlePhysics) :
    s.detachComponent "fuelTank" = { s with isFuelTankAttached := false } := by
  simp [detachComponent]

@[simp] theorem detachComponent_rocket1 (s : ShuttlePhysics) :
    s.detachComponent "rocket1" = { s with isRocket1Attached := false } := by
  simp [detachComponent]

@[simp] theorem detachComponent_rocket2 (s : ShuttlePhysics) :
    s.detachComponent "rocket2" = { s with isRocket2Attached := false } := by
  simp [detachComponent]

@[simp] theorem updateSanity_eq (s : ShuttlePhysics) : s.updateSanity = s := by
  simp [updateSanity]

@[simp] theorem updateForces_frame (M : JsMath) (s : ShuttlePhysics) :
    (s.updateForces M).stage = s.stage ∧ (s.updateForces M).time = s.time ∧
      (s.updateForces M).engineStartupTimer = s.engineStartupTimer ∧
      (s.updateForces M).isFuelTankAttached = s.isFuelTankAttached ∧
      (s.updateForces M).isRocket1Attached = s.isRocket1Attached ∧
      (s.updateForces M).isRocket2Attached = s.isRocket2Attached ∧
      (s.updateForces M).fuelPercentage = s.fuelPercentage ∧
      (s.updateForces M).srbDetached = s.srbDetached ∧
      (s.updateForces M).etDetached = s.etDetached ∧
      (s.updateForces M).launchPad = s.launchPad ∧
      (s.updateForces M).towerTilted = s.towerTilted := by
  unfold updateForces; dsimp only; split_ifs <;>
    exact ⟨rfl, rfl, rfl, rfl, rfl, rfl, rfl, rfl, rfl, rfl, rfl⟩

@[simp] theorem updateIntegrate_frame (s : ShuttlePhysics) (t : Vector3) (dt : ℚ) :
    (s.updateIntegrate t dt).stage = s.stage ∧ (s.updateIntegrate t dt).time = s.time ∧
      (s.updateIntegrate t dt).engineStartupTimer = s.engineStartupTimer ∧
      (s.updateIntegrate t dt).isFuelTankAttached = s.isFuelTankAttached ∧
      (s.updateIntegrate t dt).isRocket1Attached = s.isRocket1Attached ∧
      (s.updateIntegrate t dt).isRocket2Attached = s.isRocket2Attached ∧
      (s.updateIntegrate t dt).fuelPercentage = s.fuelPercentage ∧
      (s.updateIntegrate t dt).srbDetached = s.srbDetached ∧
      (s.updateIntegrate t dt).etDetached = s.etDetached ∧
      (s.updateIntegrate t dt).launchPad = s.launchPad ∧
      (s.updateIntegrate t dt).towerTilted = s.towerTilted := by
  unfold updateIntegrate; dsimp only; split_ifs <;>
    exact ⟨rfl, rfl, rfl, rfl, rfl, rfl, rfl, rfl, rfl, rfl, rfl⟩

@[simp] theorem updateGroundClamp_frame (s : ShuttlePhysics) (a : ℚ) :
    (s.updateGroundClamp a).stage = s.stage ∧ (s.updateGroundClamp a).time = s.time ∧
      (s.updateGroundClamp a).engineStartupTimer = s.engineStartupTimer ∧
      (s.updateGroundClamp a).force = s.force ∧
      (s.updateGroundClamp a).isFuelTankAttached = s.isFuelTankAttached ∧
      (s.updateGroundClamp a).isRocket1Attached = s.isRocket1Attached ∧
      (s.updateGroundClamp a).isRocket2Attached = s.isRocket2Attached ∧
      (s.updateGroundClamp a).fuelPercentage = s.fuelPercentage ∧
      (s.updateGroundClamp a).srbDetached = s.srbDetached ∧
      (s.updateGroundClamp a).etDetached = s.etDetached ∧
      (s.updateGroundClamp a).launchPad = s.launchPad ∧
      (s.updateGroundClamp a).towerTilted = s.towerTilted := by
  unfold updateGroundClamp; dsimp only; split_ifs <;>
    exact ⟨rfl, rfl, rfl, rfl, rfl, rfl, rfl, rfl, rfl, rfl, rfl, rfl⟩

@[simp] theorem updateFuel_frame (s : ShuttlePhysics) (t : Vector3) (dt : ℚ) :
    (s.updateFuel t dt).stage = s.stage ∧ (s.updateFuel t dt).time = s.time ∧
      (s.updateFuel t dt).engineStartupTimer = s.engineStartupTimer ∧
      (s.updateFuel t dt).position = s.position ∧ (s.updateFuel t dt).velocity = s.velocity ∧
      (s.updateFuel t dt).acceleration = s.acceleration ∧ (s.updateFuel t dt).force = s.force ∧
      (s.updateFuel t dt).isFuelTankAttached = s.isFuelTankAttached ∧
      (s.updateFuel t dt).isRocket1Attached = s.isRocket1Attached ∧
      (s.updateFuel t dt).isRocket2Attached = s.isRocket2Attached ∧
      (s.updateFuel t dt).srbDetached = s.srbDetached ∧
      (s.updateFuel t dt).etDetached = s.etDetached ∧
      (s.updateFuel t dt).launchPad = s.launchPad ∧
      (s.updateFuel t dt).towerTilted = s.towerTilted := by
  unfold updateFuel; dsimp only; split_ifs <;>
    exact ⟨rfl, rfl, rfl, rfl, rfl, rfl, rfl, rfl, rfl, rfl, rfl, rfl, rfl, rfl⟩

@[simp] theorem updateClocks_frame (s : ShuttlePhysics) (dt : ℚ) :
    (s.updateClocks dt).stage = s.stage ∧ (s.updateClocks dt).position = s.position ∧
      (s.updateClocks dt).velocity = s.velocity ∧
      (s.updateClocks dt).acceleration = s.acceleration ∧ (s.updateClocks dt).force = s.force ∧
      (s.updateClocks dt).isFuelTankAttached = s.isFuelTankAttached ∧
      (s.updateClocks dt).isRocket1Attached = s.isRocket1Attached ∧
      (s.updateClocks dt).isRocket2Attached = s.isRocket2Attached ∧
      (s.updateClocks dt).fuelPercentage = s.fuelPercentage ∧
      (s.updateClocks dt).srbDetached = s.srbDetached ∧
      (s.updateClocks dt).etDetached = s.etDetached ∧
      (s.updateClocks dt).launchPad = s.launchPad ∧
      (s.updateClocks dt).towerTilted = s.towerTilted := by
  unfold updateClocks; dsimp only; split_ifs <;>
    exact ⟨rfl, rfl, rfl, rfl, rfl, rfl, rfl, rfl, rfl, rfl, rfl, rfl, rfl⟩

@[simp] theorem updateStage_frame (M : JsMath) (s : ShuttlePhysics) (a dt : ℚ) :
    (s.updateStage M a dt).time = s.time ∧
      (s.updateStage M a dt).engineStartupTimer = s.engineStartupTimer ∧
      (s.updateStage M a dt).position = s.position ∧
      (s.updateStage M a dt).velocity = s.velocity ∧
      (s.updateStage M a dt).acceleration = s.acceleration ∧
      (s.updateStage M a dt).force = s.force ∧
      (s.updateStage M a dt).isFuelTankAttached = s.isFuelTankAttached ∧
      (s.updateStage M a dt).isRocket1Attached = s.isRocket1Attached ∧
      (s.updateStage M a dt).isRocket2Attached = s.isRocket2Attached ∧
      (s.updateStage M a dt).fuelPercentage = s.fuelPercentage ∧
      (s.updateStage M a dt).srbDetached = s.srbDetached ∧
      (s.updateStage M a dt).etDetached = s.etDetached := by
  unfold updateStage; dsimp only; split <;> (repeat' split) <;>
    exact ⟨rfl, rfl, rfl, rfl, rfl, rfl, rfl, rfl, rfl, rfl, rfl, rfl⟩

@[simp] theorem handleComponentDetachment_frame (s : ShuttlePhysics) (a t v : ℚ) :
    (s.handleComponentDetachment a t v).stage = s.stage ∧
      (s.handleComponentDetachment a t v).time = s.time ∧
      (s.handleComponentDetachment a t v).engineStartupTimer = s.engineStartupTimer ∧
      (s.handleComponentDetachment a t v).position = s.position ∧
      (s.handleComponentDetachment a t v).velocity = s.velocity ∧
      (s.handleComponentDetachment a t v).acceleration = s.acceleration ∧
      (s.handleComponentDetachment a t v).force = s.force ∧
      (s.handleComponentDetachment a t v).launchPad = s.launchPad ∧
      (s.handleComponentDetachment a t v).towerTilted = s.towerTilted := by
  unfold handleComponentDetachment; simp only [detachComponent_fuelTank, detachComponent_rocket1,
    detachComponent_rocket2]; split_ifs <;>
    exact ⟨rfl, rfl, rfl, rfl, rfl, rfl, rfl, rfl, rfl⟩

@[simp] theorem setStage_frame (s : ShuttlePhysics) (st : ShuttleStages) :
    (s.setStage st).time = s.time ∧ (s.setStage st).position = s.position ∧
      (s.setStage st).velocity = s.velocity ∧ (s.setStage st).acceleration = s.acceleration ∧
      (s.setStage st).force = s.force ∧
      (s.setStage st).isFuelTankAttached = s.isFuelTankAttached ∧
      (s.setStage st).isRocket1Attached = s.isRocket1Attached ∧
      (s.setStage st).isRocket2Attached = s.isRocket2Attached ∧
      (s.setStage st).fuelPercentage = s.fuelPercentage ∧
      (s.setStage st).srbDetached = s.srbDetached ∧ (s.setStage st).etDetached = s.etDetached ∧
      (s.setStage st).launchPad = s.launchPad := by
  unfold setStage; dsimp only; split_ifs <;>
    exact ⟨rfl, rfl, rfl, rfl, rfl, rfl, rfl, rfl, rfl, rfl, rfl, rfl⟩

@[simp] theorem detachComponent_frame (s : ShuttlePhysics) (c : String) :
    (s.detachComponent c).stage = s.stage ∧ (s.detachComponent c).time = s.time ∧
      (s.detachComponent c).engineStartupTimer = s.engineStartupTimer ∧
      (s.detachComponent c).position = s.position ∧
      (s.detachComponent c).velocity = s.velocity ∧
      (s.detachComponent c).acceleration = s.acceleration ∧
      (s.detachComponent c).force = s.force ∧
      (s.detachComponent c).fuelPercentage = s.fuelPercentage ∧
      (s.detachComponent c).srbDetached = s.srbDetached ∧
      (s.detachComponent c).etDetached = s.etDetached ∧
      (s.detachComponent c).launchPad = s.launchPad ∧
      (s.detachComponent c).towerTilted = s.towerTilted := by
  unfold detachComponent; split_ifs <;>
    exact ⟨rfl, rfl, rfl, rfl, rfl, rfl, rfl, rfl, rfl, rfl, rfl, rfl⟩

theorem calculateTotalMass_congr {s t : ShuttlePhysics}
    (h1 : s.isFuelTankAttached = t.isFuelTankAttached)
    (h2 : s.isRocket1Attached = t.isRocket1Attached)
    (h3 : s.isRocket2Attached = t.isRocket2Attached)
    (h4 : s.fuelPercentage = t.fuelPercentage) :
    s.calculateTotalMass = t.calculateTotalMass := by
  unfold calculateTotalMass; rw [h1, h2, h3, h4]

theorem calculateThrust_congr {s t : ShuttlePhysics}
    (h0 : s.stage = t.stage)
    (h2 : s.isRocket1Attached = t.isRocket1Attached)
    (h3 : s.isRocket2Attached = t.isRocket2Attached)
    (h4 : s.fuelPercentage = t.fuelPercentage) :
    s.calculateThrust = t.calculateThrust := by
  unfold calculateThrust currentThrustMagnitude; rw [h0, h2, h3, h4]

/-! ## Stage machine and attachment flags -/

theorem updateStage_stage (M : JsMath) (s : ShuttlePhysics) (a dt : ℚ) :
    (s.updateStage M a dt).stage = s.stage ∨
      stageSuccessor s.stage = some (s.updateStage M a dt).stage := by
  unfold updateStage
  dsimp only
  split <;> rename_i h <;> (repeat' split) <;> simp [stageSuccessor, h]

theorem update_stage_eq (M : JsMath) (s : ShuttlePhysics) (dt : ℚ) (h : ¬ clampDeltaTime dt ≤ 0) :
    ∃ s1 : ShuttlePhysics, ∃ a : ℚ, s1.stage = s.stage ∧
      (s.update M dt).stage = (s1.updateStage M a (clampDeltaTime dt)).stage := by
  unfold update
  simp only [h, if_false]
  refine ⟨_, _, ?_, (handleComponentDetachment_frame _ _ _ _).1⟩
  simp

/-- C1. The stage after `update(dt)` is the stage before it or that stage's successor in
the transition table; `IDLE`, which has no successor, is never left. -/
theorem C1_update_stage_step (M : JsMath) (s : ShuttlePhysics) (dt : ℚ) :
    (s.update M dt).stage = s.stage ∨ stageSuccessor s.stage = some (s.update M dt).stage := by
  by_cases h : clampDeltaTime dt ≤ 0
  · left; unfold update; simp [h]
  · obtain ⟨s1, a, h1, h2⟩ := update_stage_eq M s dt h
    rw [h2, ← h1]
    exact updateStage_stage M s1 a _


theorem detachComponent_flags (s : ShuttlePhysics) (c : String) :
    ((s.detachComponent c).isFuelTankAttached = true → s.isFuelTankAttached = true) ∧
    ((s.detachComponent c).isRocket1Attached = true → s.isRocket1Attached = true) ∧
    ((s.detachComponent c).isRocket2Attached = true → s.isRocket2Attached = true) := by
  unfold detachComponent
  split_ifs <;> simp

theorem handleComponentDetachment_flags (s : ShuttlePhysics) (a t v : ℚ) :
    ((s.handleComponentDetachment a t v).isFuelTankAttached = true →
      s.isFuelTankAttached = true) ∧
    ((s.handleComponentDetachment a t v).isRocket1Attached = true →
      s.isRocket1Attached = true) ∧
    ((s.handleComponentDetachment a t v).isRocket2Attached = true →
      s.isRocket2Attached = true) := by
  unfold handleComponentDetachment
  simp only [detachComponent_fuelTank, detachComponent_rocket1, detachComponent_rocket2]
  split_ifs <;> simp

theorem update_flags (M : JsMath) (s : ShuttlePhysics) (dt : ℚ) :
    ((s.update M dt).isFuelTankAttached = true → s.isFuelTankAttached = true) ∧
    ((s.update M dt).isRocket1Attached = true → s.isRocket1Attached = true) ∧
    ((s.update M dt).isRocket2Attached = true → s.isRocket2Attached = true) := by
  unfold update
  dsimp only
  split_ifs with h
  · simp
  · refine ⟨fun h1 => ?_, fun h1 => ?_, fun h1 => ?_⟩
    · simpa using (handleComponentDetachment_flags _ _ _ _).1 h1
    · simpa using (handleComponentDetachment_flags _ _ _ _).2.1 h1
    · simpa using (handleComponentDetachment_flags _ _ _ _).2.2 h1

theorem apply_flags (M : JsMath) (s : ShuttlePhysics) (op : Op) :
    ((op.apply M s).isFuelTankAttached = true → s.isFuelTankAttached = true) ∧
    ((op.apply M s).isRocket1Attached = true → s.isRocket1Attached = true) ∧
    ((op.apply M s).isRocket2Attached = true → s.isRocket2Attached = true) := by
  cases op with
  | update dt => exact update_flags M s dt
  | setStage st => simp [Op.apply]
  | detachComponent c => exact detachComponent_flags s c
  | handleComponentDetachment a t v => exact handleComponentDetachment_flags s a t v

theorem runOps_flags (M : JsMath) (ops : List Op) : ∀ s : ShuttlePhysics,
    ((runOps M s ops).isFuelTankAttached = true → s.isFuelTankAttached = true) ∧
    ((runOps M s ops).isRocket1Attached = true → s.isRocket1Attached = true) ∧
    ((runOps M s ops).isRocket2Attached = true → s.isRocket2Attached = true) := by
  induction ops with
  | nil => intro s; simp [runOps]
  | cons op ops ih =>
    intro s
    have h1 := ih (op.apply M s)
    have h2 := apply_flags M s op
    simp only [runOps, List.foldl_cons] at h1 ⊢
    exact ⟨fun h => h2.1 (h1.1 h), fun h => h2.2.1 (h1.2.1 h), fun h => h2.2.2 (h1.2.2 h)⟩

/-- C2. A detached component stays detached: for one call of `update`, `setStage`,
`detachComponent` or `handleComponentDetachment`, and for any sequence of such calls, an
attachment flag that is false before is false after. -/
theorem C2_attachment_flags_never_revert (M : JsMath) (s : ShuttlePhysics) :
    (∀ op : Op,
      (s.isFuelTankAttached = false → (op.apply M s).isFuelTankAttached = false) ∧
      (s.isRocket1Attached = false → (op.apply M s).isRocket1Attached = false) ∧
      (s.isRocket2Attached = false → (op.apply M s).isRocket2Attached = false)) ∧
    (∀ ops : List Op,
      (s.isFuelTankAttached = false → (runOps M s ops).isFuelTankAttached = false) ∧
      (s.isRocket1Attached = false → (runOps M s ops).isRocket1Attached = false) ∧
      (s.isRocket2Attached = false → (runOps M s ops).isRocket2Attached = false)) := by
  refine ⟨fun op => ?_, fun ops => ?_⟩
  · have h := apply_flags M s op
    refine ⟨fun h0 => ?_, fun h0 => ?_, fun h0 => ?_⟩
    · cases hb : (op.apply M s).isFuelTankAttached
      · rfl
      · rw [h.1 hb] at h0; cases h0
    · cases hb : (op.apply M s).isRocket1Attached
      · rfl
      · rw [h.2.1 hb] at h0; cases h0
    · cases hb : (op.apply M s).isRocket2Attached
      · rfl
      · rw [h.2.2 hb] at h0; cases h0
  · have h := runOps_flags M ops s
    refine ⟨fun h0 => ?_, fun h0 => ?_, fun h0 => ?_⟩
    · cases hb : (runOps M s ops).isFuelTankAttached
      · rfl
      · rw [h.1 hb] at h0; cases h0
    · cases hb : (runOps M s ops).isRocket1Attached
      · rfl
      · rw [h.2.1 hb] at h0; cases h0
    · cases hb : (runOps M s ops).isRocket2Attached
      · rfl
      · rw [h.2.2 hb] at h0; cases h0

/-- C7. A call `update(dt)` with `dt ≤ 0` returns the state it was given: no field changes. -/
theorem C7_update_nonpositive_dt_noop (M : JsMath) (s : ShuttlePhysics) (dt : ℚ) (h : dt ≤ 0) :
    s.update M dt = s := by
  have hc : clampDeltaTime dt ≤ 0 := by
    unfold clampDeltaTime
    dsimp only
    split_ifs with h1
    · norm_num at h1; linarith
    · exact h
  unfold update
  simp [hc]

/-- C8. The detachment check is idempotent; on a state whose two latches are already set it
changes nothing; and a latch that is set stays set. -/
theorem C8_handleComponentDetachment_idempotent (s : ShuttlePhysics) (a t v : ℚ) :
    (s.handleComponentDetachment a t v).handleComponentDetachment a t v =
        s.handleComponentDetachment a t v ∧
      (s.srbDetached = true → s.etDetached = true → s.handleComponentDetachment a t v = s) ∧
      (s.srbDetached = true → (s.handleComponentDetachment a t v).srbDetached = true) ∧
      (s.etDetached = true → (s.handleComponentDetachment a t v).etDetached = true) := by
  refine ⟨?_, fun h1 h2 => ?_, fun h1 => ?_, fun h2 => ?_⟩
  · unfold handleComponentDetachment
    simp only [detachComponent_fuelTank, detachComponent_rocket1, detachComponent_rocket2]
    split_ifs <;> simp_all
  · unfold handleComponentDetachment
    simp [h1, h2]
  · unfold handleComponentDetachment
    simp only [detachComponent_fuelTank, detachComponent_rocket1, detachComponent_rocket2]
    split_ifs <;> simp_all
  · unfold handleComponentDetachment
    simp only [detachComponent_fuelTank, detachComponent_rocket1, detachComponent_rocket2]
    split_ifs <;> simp_all


/-! ## Fuel and mass -/

theorem updateFuel_fuel (s : ShuttlePhysics) (t : Vector3) (dt : ℚ) (hdt : 0 < dt)
    (h0 : 0 ≤ s.fuelPercentage) :
    0 ≤ (s.updateFuel t dt).fuelPercentage ∧
      (s.updateFuel t dt).fuelPercentage ≤ s.fuelPercentage := by
  unfold updateFuel
  simp only [isNaN, isFinite, Bool.not_true, Bool.false_eq_true, or_self, if_false]
  split_ifs with h1 h2 h3
  · have hc : 0 ≤ min FUEL_CONSUMPTION_RATE
        (externalTankInitialTotalMass * (s.fuelPercentage / 100) / dt) := by
      apply le_min
      · norm_num [FUEL_CONSUMPTION_RATE]
      · have : (0 : ℚ) ≤ externalTankInitialTotalMass := by
          norm_num [externalTankInitialTotalMass, FUEL_TANK_MASS]
        positivity
    have hm : (0 : ℚ) ≤ externalTankInitialTotalMass := by
      norm_num [externalTankInitialTotalMass, FUEL_TANK_MASS]
    have hcons : 0 ≤ min FUEL_CONSUMPTION_RATE
        (externalTankInitialTotalMass * (s.fuelPercentage / 100) / dt) * dt /
          externalTankInitialTotalMass * 100 := by positivity
    exact ⟨le_max_left _ _, max_le h0 (by linarith)⟩
  · have hc : 0 ≤ min (0 : ℚ)
        (externalTankInitialTotalMass * (s.fuelPercentage / 100) / dt) := by
      apply le_min le_rfl
      have : (0 : ℚ) ≤ externalTankInitialTotalMass := by
        norm_num [externalTankInitialTotalMass, FUEL_TANK_MASS]
      positivity
    have hm : (0 : ℚ) ≤ externalTankInitialTotalMass := by
      norm_num [externalTankInitialTotalMass, FUEL_TANK_MASS]
    have hcons : 0 ≤ min (0 : ℚ)
        (externalTankInitialTotalMass * (s.fuelPercentage / 100) / dt) * dt /
          externalTankInitialTotalMass * 100 := by positivity
    exact ⟨le_max_left _ _, max_le h0 (by linarith)⟩
  · exact ⟨h0, le_rfl⟩
  · exact ⟨h0, le_rfl⟩

theorem handleComponentDetachment_fuel (s : ShuttlePhysics) (a t v : ℚ) :
    (s.handleComponentDetachment a t v).fuelPercentage = s.fuelPercentage ∨
      (s.handleComponentDetachment a t v).fuelPercentage = 0 := by
  unfold handleComponentDetachment
  simp only [detachComponent_fuelTank, detachComponent_rocket1, detachComponent_rocket2]
  split_ifs <;> simp

theorem clampDeltaTime_pos {dt : ℚ} (h : ¬ clampDeltaTime dt ≤ 0) : 0 < clampDeltaTime dt :=
  lt_of_not_ge h

theorem clampDeltaTime_le (dt : ℚ) : clampDeltaTime dt ≤ 0.0166 := by
  unfold clampDeltaTime
  dsimp only
  split_ifs with h
  · exact le_rfl
  · exact le_of_not_gt h

/-- Of a call `update(dt)` with a positive clamped step: the state `s1` after the
kinematic part (lines 189-265) agrees with the entry state on every field outside
position, velocity, acceleration and force, the thrust vector is the one of the entry
state, and the rest of the call is the fuel, clock, stage and detachment steps. -/
theorem update_decompose (M : JsMath) (s : ShuttlePhysics) (dt : ℚ)
    (h : ¬ clampDeltaTime dt ≤ 0) :
    ∃ s1 : ShuttlePhysics, ∃ a : ℚ,
      (s1.stage = s.stage ∧ s1.time = s.time ∧ s1.engineStartupTimer = s.engineStartupTimer ∧
        s1.isFuelTankAttached = s.isFuelTankAttached ∧
        s1.isRocket1Attached = s.isRocket1Attached ∧
        s1.isRocket2Attached = s.isRocket2Attached ∧
        s1.fuelPercentage = s.fuelPercentage ∧ s1.srbDetached = s.srbDetached ∧
        s1.etDetached = s.etDetached ∧ s1.launchPad = s.launchPad ∧
        s1.towerTilted = s.towerTilted) ∧
      s.update M dt =
        ((((s1.updateFuel s.calculateThrust (clampDeltaTime dt)).updateClocks
          (clampDeltaTime dt)).updateStage M a (clampDeltaTime dt)).handleComponentDetachment a
            (((s1.updateFuel s.calculateThrust (clampDeltaTime dt)).updateClocks
              (clampDeltaTime dt)).updateStage M a (clampDeltaTime dt)).time
            ((((s1.updateFuel s.calculateThrust (clampDeltaTime dt)).updateClocks
              (clampDeltaTime dt)).updateStage M a (clampDeltaTime dt)).velocity.length M)) := by
  have ht : (s.updateForces M).calculateThrust = s.calculateThrust :=
    calculateThrust_congr (by simp) (by simp) (by simp) (by simp)
  unfold update
  simp only [h, if_false, ht]
  refine ⟨_, _, ?_, rfl⟩
  simp

theorem update_fuel (M : JsMath) (s : ShuttlePhysics) (dt : ℚ) (h0 : 0 ≤ s.fuelPercentage) :
    0 ≤ (s.update M dt).fuelPercentage ∧ (s.update M dt).fuelPercentage ≤ s.fuelPercentage := by
  by_cases h : clampDeltaTime dt ≤ 0
  · have : s.update M dt = s := by unfold update; simp [h]
    rw [this]
    exact ⟨h0, le_rfl⟩
  · obtain ⟨s1, a, hs, he⟩ := update_decompose M s dt h
    have h1 : s1.fuelPercentage = s.fuelPercentage := hs.2.2.2.2.2.2.1
    have hb := updateFuel_fuel s1 s.calculateThrust (clampDeltaTime dt) (clampDeltaTime_pos h)
      (by rw [h1]; exact h0)
    rw [h1] at hb
    rw [he]
    rcases handleComponentDetachment_fuel
      (((s1.updateFuel s.calculateThrust (clampDeltaTime dt)).updateClocks
          (clampDeltaTime dt)).updateStage M a (clampDeltaTime dt)) a
        (((s1.updateFuel s.calculateThrust (clampDeltaTime dt)).updateClocks
              (clampDeltaTime dt)).updateStage M a (clampDeltaTime dt)).time
        ((((s1.updateFuel s.calculateThrust (clampDeltaTime dt)).updateClocks
              (clampDeltaTime dt)).updateStage M a (clampDeltaTime dt)).velocity.length M)
      with h2 | h2
    · rw [h2]
      simpa using hb
    · rw [h2]; exact ⟨le_rfl, h0⟩


theorem calculateTotalMass_eq (s : ShuttlePhysics) :
    s.calculateTotalMass = if s.massSum ≤ 0 then 1 else s.massSum := by
  have e : externalTankInitialTotalMass * (s.fuelPercentage / 100) =
      FUEL_TANK_MASS * s.fuelPercentage / 100 := by
    unfold externalTankInitialTotalMass; ring
  unfold calculateTotalMass massSum
  simp only [isNaN, isFinite, Bool.not_true, Bool.false_eq_true, if_false, e]
  unfold shuttleDryMass srbInitialTotalMass
  cases s.isFuelTankAttached <;> cases s.isRocket1Attached <;> cases s.isRocket2Attached <;>
    simp

theorem massSum_ge (s : ShuttlePhysics) (h0 : 0 ≤ s.fuelPercentage) : 110000 ≤ s.massSum := by
  unfold massSum SHUTTLE_MASS FUEL_TANK_MASS ROCKET_MASS
  split_ifs <;> linarith

theorem massSum_le (s : ShuttlePhysics) (h1 : s.fuelPercentage ≤ 100) : s.massSum ≤ 2050000 := by
  unfold massSum SHUTTLE_MASS FUEL_TANK_MASS ROCKET_MASS
  split_ifs <;> linarith

theorem calculateTotalMass_pos (s : ShuttlePhysics) : 0 < s.calculateTotalMass := by
  rw [calculateTotalMass_eq]
  split_ifs with h
  · norm_num
  · exact lt_of_not_ge h

theorem massSum_mono {s t : ShuttlePhysics}
    (hT : t.isFuelTankAttached = true → s.isFuelTankAttached = true)
    (h1 : t.isRocket1Attached = true → s.isRocket1Attached = true)
    (h2 : t.isRocket2Attached = true → s.isRocket2Attached = true)
    (h0 : 0 ≤ t.fuelPercentage) (hle : t.fuelPercentage ≤ s.fuelPercentage) :
    t.massSum ≤ s.massSum := by
  have a : (if t.isFuelTankAttached then FUEL_TANK_MASS * t.fuelPercentage / 100 else 0) ≤
      (if s.isFuelTankAttached then FUEL_TANK_MASS * s.fuelPercentage / 100 else 0) := by
    unfold FUEL_TANK_MASS
    by_cases ht : t.isFuelTankAttached = true
    · rw [if_pos ht, if_pos (hT ht)]; linarith
    · rw [if_neg ht]; split_ifs <;> linarith
  have b : (if t.isRocket1Attached then ROCKET_MASS else 0) ≤
      (if s.isRocket1Attached then ROCKET_MASS else 0) := by
    unfold ROCKET_MASS
    by_cases ht : t.isRocket1Attached = true
    · rw [if_pos ht, if_pos (h1 ht)]
    · rw [if_neg ht]; split_ifs <;> norm_num
  have c : (if t.isRocket2Attached then ROCKET_MASS else 0) ≤
      (if s.isRocket2Attached then ROCKET_MASS else 0) := by
    unfold ROCKET_MASS
    by_cases ht : t.isRocket2Attached = true
    · rw [if_pos ht, if_pos (h2 ht)]
    · rw [if_neg ht]; split_ifs <;> norm_num
  unfold massSum
  linarith

theorem runUpdates_fuel (M : JsMath) (dts : List ℚ) : ∀ s : ShuttlePhysics,
    0 ≤ s.fuelPercentage →
      0 ≤ (runUpdates M s dts).fuelPercentage ∧
        (runUpdates M s dts).fuelPercentage ≤ s.fuelPercentage := by
  induction dts with
  | nil => intro s h; exact ⟨h, le_rfl⟩
  | cons dt dts ih =>
    intro s h
    have h1 := update_fuel M s dt h
    have h2 := ih (s.update M dt) h1.1
    exact ⟨h2.1, le_trans h2.2 h1.2⟩

/-- C3. `update` keeps `fuelPercentage` inside `[0, 100]`, and every state reachable from
the constructor by `update` and `setStage` calls has its `fuelPercentage` in `[0, 100]`. -/
theorem C3_fuel_within_bounds (M : JsMath) :
    (∀ (s : ShuttlePhysics) (dt : ℚ), 0 ≤ s.fuelPercentage → s.fuelPercentage ≤ 100 →
      0 ≤ (s.update M dt).fuelPercentage ∧ (s.update M dt).fuelPercentage ≤ 100) ∧
    (∀ s : ShuttlePhysics, Reachable M s → 0 ≤ s.fuelPercentage ∧ s.fuelPercentage ≤ 100) := by
  have step : ∀ (s : ShuttlePhysics) (dt : ℚ), 0 ≤ s.fuelPercentage → s.fuelPercentage ≤ 100 →
      0 ≤ (s.update M dt).fuelPercentage ∧ (s.update M dt).fuelPercentage ≤ 100 := by
    intro s dt h0 h1
    have h := update_fuel M s dt h0
    exact ⟨h.1, le_trans h.2 h1⟩
  refine ⟨step, fun s hs => ?_⟩
  induction hs with
  | new => norm_num [ShuttlePhysics.new]
  | update dt _ ih => exact step _ dt ih.1 ih.2
  | setStage st _ ih => simpa using ih

/-- C4. `calculateTotalMass` is strictly positive in every state: it is the mass sum when
that sum is positive and the fallback `1` otherwise; with `fuelPercentage` in `[0, 100]` it is
the mass sum itself and lies between 110000 and 2050000. -/
theorem C4_calculateTotalMass_positive (s : ShuttlePhysics) :
    0 < s.calculateTotalMass ∧
    (0 < s.massSum → s.calculateTotalMass = s.massSum) ∧
    (s.massSum ≤ 0 → s.calculateTotalMass = 1) ∧
    (0 ≤ s.fuelPercentage → s.fuelPercentage ≤ 100 →
      s.calculateTotalMass = s.massSum ∧
        110000 ≤ s.calculateTotalMass ∧ s.calculateTotalMass ≤ 2050000) := by
  refine ⟨calculateTotalMass_pos s, fun h => ?_, fun h => ?_, fun h0 h1 => ?_⟩
  · rw [calculateTotalMass_eq, if_neg (not_le.mpr h)]
  · rw [calculateTotalMass_eq, if_pos h]
  · have hg := massSum_ge s h0
    have hl := massSum_le s h1
    have he : s.calculateTotalMass = s.massSum := by
      rw [calculateTotalMass_eq, if_neg (by linarith)]
    rw [he]
    exact ⟨rfl, hg, hl⟩

/-- C9. With `fuelPercentage` in `[0, 100]`, the total mass after `update(dt)` is positive and
is at most the total mass before it. -/
theorem C9_total_mass_non_increasing (M : JsMath) (s : ShuttlePhysics) (dt : ℚ)
    (h0 : 0 ≤ s.fuelPercentage) (_h1 : s.fuelPercentage ≤ 100) :
    (s.update M dt).calculateTotalMass ≤ s.calculateTotalMass ∧
      0 < (s.update M dt).calculateTotalMass := by
  refine ⟨?_, calculateTotalMass_pos _⟩
  have hf := update_fuel M s dt h0
  have hfl := update_flags M s dt
  have hm := massSum_mono hfl.1 hfl.2.1 hfl.2.2 hf.1 hf.2
  have hg := massSum_ge s h0
  have hg2 := massSum_ge (s.update M dt) hf.1
  rw [calculateTotalMass_eq, calculateTotalMass_eq, if_neg (by linarith), if_neg (by linarith)]
  exact hm

/-- C10. With `fuelPercentage ≥ 0`, the `fuelPercentage` after `update(dt)` is at most the
one before it, and so along any sequence of `update` calls. -/
theorem C10_fuel_non_increasing (M : JsMath) (s : ShuttlePhysics) (dt : ℚ)
    (h0 : 0 ≤ s.fuelPercentage) :
    (s.update M dt).fuelPercentage ≤ s.fuelPercentage ∧
      ∀ dts : List ℚ, (runUpdates M s dts).fuelPercentage ≤ s.fuelPercentage :=
  ⟨(update_fuel M s dt h0).2, fun dts => (runUpdates_fuel M dts s h0).2⟩


/-! ## The reference library functions -/

theorem sqrtQ_mul_self (x : ℚ) (hx : 0 ≤ x) : sqrtQ (x * x) = x := by
  unfold sqrtQ
  rw [Rat.mul_self_num, Rat.mul_self_den]
  have hn : 0 ≤ x.num := Rat.num_nonneg.mpr hx
  obtain ⟨n, hn'⟩ := Int.eq_ofNat_of_zero_le hn
  have e : (x.num * x.num).toNat * (x.den * x.den) = (n * x.den) * (n * x.den) := by
    rw [hn']
    have : ((n : ℤ) * (n : ℤ)).toNat = n * n := by
      rw [← Int.natCast_mul, Int.toNat_natCast]
    rw [this]; ring
  rw [e, Nat.sqrt_eq]
  have hd : (x.den : ℚ) ≠ 0 := by exact_mod_cast x.den_nz
  have hx' : (x.num : ℚ) / x.den = x := Rat.num_div_den x
  rw [hn'] at hx'
  push_cast
  rw [mul_div_mul_right _ _ hd]
  exact_mod_cast hx'

theorem refMath_sqrtExact : SqrtExact refMath := fun x hx => sqrtQ_mul_self x hx


/-! ## The kinematic step on the ground in `IDLE` -/

theorem updateIntegrate_eq (s : ShuttlePhysics) (t : Vector3) (dt : ℚ) :
    (s.updateIntegrate t dt).acceleration = (s.force.add t).divideScalar s.calculateTotalMass ∧
    (s.updateIntegrate t dt).velocity =
      s.velocity.addScaledVector ((s.force.add t).divideScalar s.calculateTotalMass) dt ∧
    (s.updateIntegrate t dt).position =
      s.position.addScaledVector
        (s.velocity.addScaledVector ((s.force.add t).divideScalar s.calculateTotalMass) dt) dt := by
  have hm : ({ s with force := s.force.add t } : ShuttlePhysics).calculateTotalMass =
      s.calculateTotalMass := rfl
  have hp := calculateTotalMass_pos s
  unfold updateIntegrate
  simp only [hm, hp, isNaN, isFinite, Bool.not_false, and_self, if_true, gt_iff_lt]

theorem updateGroundClamp_idle (s : ShuttlePhysics) (a : ℚ) (h : s.stage = IDLE) :
    s.updateGroundClamp a = s := by
  unfold updateGroundClamp
  simp [h]

theorem updateForces_idle_grounded (M : JsMath) (s : ShuttlePhysics) (h : s.stage = IDLE)
    (ha : s.position.y - EARTH_RADIUS ≤ 0) :
    (s.updateForces M).position = s.position.setY EARTH_RADIUS ∧
    (s.updateForces M).velocity = ⟨0, 0, 0⟩ ∧
    (s.updateForces M).force =
      ((Vector3.mk 0 0 0).add (s.calculateGravityForce M s.position)).add
        s.calculateNormalForce := by
  refine ⟨?_, ?_, ?_⟩ <;> unfold updateForces <;> simp only [h, ha, if_true] <;> rfl

theorem calculateThrust_idle (s : ShuttlePhysics) (h : s.stage = IDLE) :
    s.calculateThrust = ⟨0, 0, 0⟩ := by
  unfold calculateThrust currentThrustMagnitude
  simp [h, Vector3.zero]

theorem update_idle (M : JsMath) (s : ShuttlePhysics) (dt : ℚ) (h : s.stage = IDLE)
    (hdt : ¬ clampDeltaTime dt ≤ 0) :
    (s.update M dt).stage = IDLE ∧
    (s.update M dt).position =
      ((s.updateForces M).updateIntegrate ⟨0, 0, 0⟩ (clampDeltaTime dt)).position ∧
    (s.update M dt).velocity =
      ((s.updateForces M).updateIntegrate ⟨0, 0, 0⟩ (clampDeltaTime dt)).velocity := by
  have ht : (s.updateForces M).calculateThrust = ⟨0, 0, 0⟩ :=
    calculateThrust_idle _ (by simp [h])
  have hg : ∀ a, (((s.updateForces M).updateIntegrate ⟨0, 0, 0⟩
      (clampDeltaTime dt)).updateGroundClamp a) =
        ((s.updateForces M).updateIntegrate ⟨0, 0, 0⟩ (clampDeltaTime dt)) :=
    fun a => updateGroundClamp_idle _ a (by simp [h])
  unfold update
  simp only [hdt, if_false, ht, hg, updateSanity_eq, handleComponentDetachment_frame,
    updateStage_frame, updateClocks_frame, updateFuel_frame, and_self, and_true]
  have h1 : (((((s.updateForces M).updateIntegrate ⟨0, 0, 0⟩ (clampDeltaTime dt)).updateFuel
      ⟨0, 0, 0⟩ (clampDeltaTime dt)).updateClocks (clampDeltaTime dt))).stage = IDLE := by
    simp [h]
  unfold updateStage
  simp [h1, h]

/-- The net upward acceleration of a vehicle held on the ground in `IDLE` at distance `y`
from the centre: the normal-force term minus the gravity term. -/
theorem update_idle_grounded (M : JsMath) (hM : SqrtExact M) (s : ShuttlePhysics) (dt : ℚ)
    (h : s.stage = IDLE) (hx : s.position.x = 0) (hz : s.position.z = 0)
    (hy1 : 1 ≤ s.position.y) (hy2 : s.position.y ≤ EARTH_RADIUS)
    (hdt : ¬ clampDeltaTime dt ≤ 0) :
    (s.update M dt).stage = IDLE ∧
    (s.update M dt).position =
      ⟨0, EARTH_RADIUS + (GRAVITY - GRAVITY_CONSTANT * EARTH_MASS /
        (s.position.y * s.position.y)) * clampDeltaTime dt * clampDeltaTime dt, 0⟩ ∧
    (s.update M dt).velocity =
      ⟨0, (GRAVITY - GRAVITY_CONSTANT * EARTH_MASS /
        (s.position.y * s.position.y)) * clampDeltaTime dt, 0⟩ := by
  obtain ⟨h1, h2, h3⟩ := update_idle M s dt h hdt
  obtain ⟨i1, i2, i3⟩ := updateIntegrate_eq (s.updateForces M) ⟨0, 0, 0⟩ (clampDeltaTime dt)
  obtain ⟨f1, f2, f3⟩ := updateForces_idle_grounded M s h (by linarith)
  have hmass : (s.updateForces M).calculateTotalMass = s.calculateTotalMass :=
    calculateTotalMass_congr (by simp) (by simp) (by simp) (by simp)
  have hp := calculateTotalMass_pos s
  have hy0 : (0 : ℚ) < s.position.y := by linarith
  have hlen : s.position.length M = s.position.y := by
    unfold Vector3.length
    rw [hx, hz]
    simp only [mul_zero, zero_add, add_zero]
    exact hM _ hy0.le
  have hgrav : s.calculateGravityForce M s.position =
      ⟨0, -(GRAVITY_CONSTANT * EARTH_MASS * s.calculateTotalMass /
        (s.position.y * s.position.y)), 0⟩ := by
    unfold calculateGravityForce Vector3.normalize
    simp only [hlen, isNaN, isFinite, Bool.not_true, Bool.false_eq_true, or_false,
      not_lt.mpr hy1, if_false, hy0.ne', or_self]
    unfold Vector3.divideScalar Vector3.multiplyScalar
    simp only [hx, hz, zero_mul, Vector3.mk.injEq, true_and, and_true]
    field_simp
  refine ⟨h1, ?_, ?_⟩
  · rw [h2, i3, f1, f2, f3, hmass, hgrav]
    unfold calculateNormalForce Vector3.add Vector3.divideScalar Vector3.multiplyScalar
      Vector3.addScaledVector Vector3.setY
    simp only [hx, hz, zero_mul, add_zero, zero_add, Vector3.mk.injEq, true_and, and_true]
    field_simp
    ring
  · rw [h3, i2, f2, f3, hmass, hgrav]
    unfold calculateNormalForce Vector3.add Vector3.divideScalar Vector3.multiplyScalar
      Vector3.addScaledVector
    simp only [zero_mul, add_zero, zero_add, Vector3.mk.injEq, true_and, and_true]
    field_simp
    ring


theorem clampDeltaTime_sixtieth : clampDeltaTime (1 / 60) = 0.0166 := by
  unfold clampDeltaTime
  norm_num

theorem idle_drift_bounds (y c : ℚ) (hy1 : EARTH_RADIUS - 1 / 100000 ≤ y) (hy2 : y ≤ EARTH_RADIUS)
    (hc0 : 0 < c) (hc1 : c ≤ 0.0166) :
    -(1 / 100000) ≤ (GRAVITY - GRAVITY_CONSTANT * EARTH_MASS / (y * y)) * c * c ∧
      (GRAVITY - GRAVITY_CONSTANT * EARTH_MASS / (y * y)) * c * c ≤ 0 := by
  unfold EARTH_RADIUS at hy1 hy2
  have hy0 : (6370999 : ℚ) ≤ y := by linarith
  have hyy : 0 < y * y := by nlinarith
  have h1 : GRAVITY ≤ GRAVITY_CONSTANT * EARTH_MASS / (y * y) := by
    rw [le_div_iff₀ hyy]
    unfold GRAVITY GRAVITY_CONSTANT EARTH_MASS
    norm_num
    nlinarith
  have h2 : GRAVITY_CONSTANT * EARTH_MASS / (y * y) ≤ GRAVITY + 0.02 := by
    rw [div_le_iff₀ hyy]
    unfold GRAVITY GRAVITY_CONSTANT EARTH_MASS
    norm_num
    nlinarith
  have hcc0 : 0 ≤ c * c := by positivity
  have hcc1 : c * c ≤ 0.0166 * 0.0166 := by nlinarith
  constructor
  · have : -(0.02 : ℚ) * (c * c) ≤
        (GRAVITY - GRAVITY_CONSTANT * EARTH_MASS / (y * y)) * (c * c) :=
      mul_le_mul_of_nonneg_right (by linarith) hcc0
    norm_num at hcc1 this ⊢
    linarith
  · have : (GRAVITY - GRAVITY_CONSTANT * EARTH_MASS / (y * y)) * (c * c) ≤ 0 :=
      mul_nonpos_of_nonpos_of_nonneg (by linarith) hcc0
    linarith

theorem update_grounded_idle_invariant (M : JsMath) (hM : SqrtExact M) (s : ShuttlePhysics)
    (dt : ℚ)
    (h : s.stage = IDLE ∧ s.position.x = 0 ∧ s.position.z = 0 ∧
      EARTH_RADIUS - 1 / 100000 ≤ s.position.y ∧ s.position.y ≤ EARTH_RADIUS) :
    (s.update M dt).stage = IDLE ∧ (s.update M dt).position.x = 0 ∧
      (s.update M dt).position.z = 0 ∧
      EARTH_RADIUS - 1 / 100000 ≤ (s.update M dt).position.y ∧
      (s.update M dt).position.y ≤ EARTH_RADIUS := by
  obtain ⟨hst, hx, hz, hy1, hy2⟩ := h
  by_cases hdt : clampDeltaTime dt ≤ 0
  · have : s.update M dt = s := by unfold update; simp [hdt]
    rw [this]
    exact ⟨hst, hx, hz, hy1, hy2⟩
  · have hy : 1 ≤ s.position.y := by
      unfold EARTH_RADIUS at hy1
      linarith
    obtain ⟨u1, u2, _⟩ := update_idle_grounded M hM s dt hst hx hz hy hy2 hdt
    obtain ⟨b1, b2⟩ := idle_drift_bounds s.position.y (clampDeltaTime dt) hy1 hy2
      (clampDeltaTime_pos hdt) (clampDeltaTime_le dt)
    rw [u2]
    refine ⟨u1, rfl, rfl, ?_, ?_⟩
    · show EARTH_RADIUS - 1 / 100000 ≤ EARTH_RADIUS + _
      linarith
    · show EARTH_RADIUS + _ ≤ EARTH_RADIUS
      linarith

theorem runUpdates_grounded_idle_invariant (M : JsMath) (hM : SqrtExact M) (dts : List ℚ) :
    ∀ s : ShuttlePhysics,
      (s.stage = IDLE ∧ s.position.x = 0 ∧ s.position.z = 0 ∧
        EARTH_RADIUS - 1 / 100000 ≤ s.position.y ∧ s.position.y ≤ EARTH_RADIUS) →
      ((runUpdates M s dts).stage = IDLE ∧ (runUpdates M s dts).position.x = 0 ∧
        (runUpdates M s dts).position.z = 0 ∧
        EARTH_RADIUS - 1 / 100000 ≤ (runUpdates M s dts).position.y ∧
        (runUpdates M s dts).position.y ≤ EARTH_RADIUS) := by
  induction dts with
  | nil => intro s h; exact h
  | cons dt dts ih =>
    intro s h
    exact ih (s.update M dt) (update_grounded_idle_invariant M hM s dt h)

/-- C5. What the first `update(1/60)` of a freshly constructed engine does: the normal force
`GRAVITY * m` does not balance the gravity force `G * M * m / R²`, so the call leaves a
downward velocity `(GRAVITY - G * M / R²) * 0.0166` and a position below the surface; neither
the velocity nor the position keeps its initial value. -/
theorem C5_first_idle_update_moves (M : JsMath) (hM : SqrtExact M) :
    (ShuttlePhysics.new.update M (1 / 60)).velocity.y =
        (GRAVITY - GRAVITY_CONSTANT * EARTH_MASS / (EARTH_RADIUS * EARTH_RADIUS)) * 0.0166 ∧
      (ShuttlePhysics.new.update M (1 / 60)).velocity.y < 0 ∧
      (ShuttlePhysics.new.update M (1 / 60)).position.y < ShuttlePhysics.new.position.y ∧
      (ShuttlePhysics.new.update M (1 / 60)).velocity ≠ ShuttlePhysics.new.velocity ∧
      (ShuttlePhysics.new.update M (1 / 60)).position ≠ ShuttlePhysics.new.position := by
  have hdt : ¬ clampDeltaTime (1 / 60) ≤ 0 := by
    rw [clampDeltaTime_sixtieth]; norm_num
  obtain ⟨_, u2, u3⟩ := update_idle_grounded M hM ShuttlePhysics.new (1 / 60) rfl rfl rfl
    (by norm_num [ShuttlePhysics.new, EARTH_RADIUS]) (le_refl _) hdt
  rw [clampDeltaTime_sixtieth] at u2 u3
  have hv : (ShuttlePhysics.new.update M (1 / 60)).velocity.y =
      (GRAVITY - GRAVITY_CONSTANT * EARTH_MASS / (EARTH_RADIUS * EARTH_RADIUS)) * 0.0166 := by
    rw [u3]; rfl
  have hp : (ShuttlePhysics.new.update M (1 / 60)).position.y =
      EARTH_RADIUS + (GRAVITY - GRAVITY_CONSTANT * EARTH_MASS /
        (EARTH_RADIUS * EARTH_RADIUS)) * 0.0166 * 0.0166 := by
    rw [u2]; rfl
  have hneg : (GRAVITY - GRAVITY_CONSTANT * EARTH_MASS / (EARTH_RADIUS * EARTH_RADIUS)) < 0 := by
    norm_num [GRAVITY, GRAVITY_CONSTANT, EARTH_MASS, EARTH_RADIUS]
  have hvneg : (ShuttlePhysics.new.update M (1 / 60)).velocity.y < 0 := by
    rw [hv]; exact mul_neg_of_neg_of_pos hneg (by norm_num)
  have hplt : (ShuttlePhysics.new.update M (1 / 60)).position.y <
      ShuttlePhysics.new.position.y := by
    rw [hp]
    show _ < EARTH_RADIUS
    have : (GRAVITY - GRAVITY_CONSTANT * EARTH_MASS / (EARTH_RADIUS * EARTH_RADIUS))
        * 0.0166 * 0.0166 < 0 := by
      have := mul_neg_of_neg_of_pos hneg (show (0 : ℚ) < 0.0166 * 0.0166 by norm_num)
      linarith
    linarith
  refine ⟨hv, hvneg, hplt, fun e => ?_, fun e => ?_⟩
  · rw [e] at hvneg
    exact absurd hvneg (by norm_num [ShuttlePhysics.new, Vector3.zero])
  · rw [e] at hplt
    exact lt_irrefl _ hplt

/-- C6. Starting from the freshly constructed engine, after any sequence of `update` calls
with arbitrary step lengths the altitude `position.y - EARTH_RADIUS` is at least `-1e-5` m. -/
theorem C6_altitude_never_below_epsilon (M : JsMath) (hM : SqrtExact M) (dts : List ℚ) :
    -(1 / 100000) ≤ (runUpdates M ShuttlePhysics.new dts).altitude := by
  have h := runUpdates_grounded_idle_invariant M hM dts ShuttlePhysics.new
    ⟨rfl, rfl, rfl, by norm_num [ShuttlePhysics.new, EARTH_RADIUS],
      by norm_num [ShuttlePhysics.new]⟩
  unfold altitude
  linarith [h.2.2.2.1]


/-! ## `setStage` -/

/-- C11. After `setStage(IDLE)` the detachment latches `srbDetached` and `etDetached` have the
values they had before (only the tower-tilt latch is cleared), and the attachment flags and
the position are unchanged. -/
theorem C11_setStage_idle_keeps_latches (s : ShuttlePhysics) :
    (s.setStage IDLE).srbDetached = s.srbDetached ∧
    (s.setStage IDLE).etDetached = s.etDetached ∧
    (s.setStage IDLE).towerTilted = false ∧
    (s.setStage IDLE).isFuelTankAttached = s.isFuelTankAttached ∧
    (s.setStage IDLE).isRocket1Attached = s.isRocket1Attached ∧
    (s.setStage IDLE).isRocket2Attached = s.isRocket2Attached ∧
    (s.setStage IDLE).position = s.position := by
  refine ⟨?_, ?_, ?_, ?_, ?_, ?_, ?_⟩ <;> simp [setStage]

/-- C11, as stated, fails: on a state whose two detachment latches are set, `setStage(IDLE)`
leaves them set. -/
theorem C11_setStage_idle_latches_counterexample :
    (({ ShuttlePhysics.new with srbDetached := true, etDetached := true } :
        ShuttlePhysics).setStage IDLE).srbDetached = true ∧
    (({ ShuttlePhysics.new with srbDetached := true, etDetached := true } :
        ShuttlePhysics).setStage IDLE).etDetached = true := by
  constructor <;> rfl

/-- C12. `setStage(ENGINE_STARTUP)` sets the stage, zeroes the startup timer and clears the
tower-tilt latch; `setStage(IDLE)` sets the stage and clears the tower-tilt latch, and leaves
the startup timer as it was. -/
theorem C12_setStage_startup_or_idle (s : ShuttlePhysics) :
    ((s.setStage ENGINE_STARTUP).stage = ENGINE_STARTUP ∧
      (s.setStage ENGINE_STARTUP).engineStartupTimer = 0 ∧
      (s.setStage ENGINE_STARTUP).towerTilted = false) ∧
    ((s.setStage IDLE).stage = IDLE ∧
      (s.setStage IDLE).towerTilted = false ∧
      (s.setStage IDLE).engineStartupTimer = s.engineStartupTimer) := by
  refine ⟨⟨?_, ?_, ?_⟩, ⟨?_, ?_, ?_⟩⟩ <;> simp [setStage]

/-- C12, as stated, fails: `setStage(IDLE)` on a state whose startup timer stands at 2 s
leaves the timer at 2 s. -/
theorem C12_setStage_idle_timer_counterexample :
    (({ ShuttlePhysics.new with stage := ENGINE_STARTUP, engineStartupTimer := 2 } :
        ShuttlePhysics).setStage IDLE).engineStartupTimer = 2 ∧
      (({ ShuttlePhysics.new with stage := ENGINE_STARTUP, engineStartupTimer := 2 } :
        ShuttlePhysics).setStage IDLE).engineStartupTimer ≠ 0 := by
  constructor
  · rfl
  · show (2 : ℚ) ≠ 0
    norm_num

/-- C13. `setStage(st)` sets the stage to `st` and changes no field other than the stage, the
startup timer and the tower-tilt latch. -/
theorem C13_setStage_frame (s : ShuttlePhysics) (st : ShuttleStages) :
    (s.setStage st).stage = st ∧
    (s.setStage st).position = s.position ∧
    (s.setStage st).velocity = s.velocity ∧
    (s.setStage st).acceleration = s.acceleration ∧
    (s.setStage st).force = s.force ∧
    (s.setStage st).time = s.time ∧
    (s.setStage st).fuelPercentage = s.fuelPercentage ∧
    (s.setStage st).isFuelTankAttached = s.isFuelTankAttached ∧
    (s.setStage st).isRocket1Attached = s.isRocket1Attached ∧
    (s.setStage st).isRocket2Attached = s.isRocket2Attached ∧
    (s.setStage st).srbDetached = s.srbDetached ∧
    (s.setStage st).etDetached = s.etDetached ∧
    (s.setStage st).launchPad = s.launchPad := by
  refine ⟨?_, by simp, by simp, by simp, by simp, by simp, by simp, by simp, by simp, by simp,
    by simp, by simp, by simp⟩
  unfold setStage
  dsimp only
  split_ifs <;> rfl

/-! ## Thrust -/

theorem calculateThrust_eq_byStage (s : ShuttlePhysics) :
    s.calculateThrust = ⟨0, s.thrustMagnitudeByStage, 0⟩ := by
  unfold calculateThrust currentThrustMagnitude thrustMagnitudeByStage
  simp only [isNaN, isFinite, Bool.not_true, Bool.false_eq_true, or_self, if_false,
    Vector3.zero, Vector3.mk.injEq, true_and, and_true]
  cases s.stage <;> simp only [] <;> (try split_ifs) <;> ring

/-- C17. `calculateThrust` returns `(0, m, 0)` with `m ≥ 0` the magnitude of the stage table;
with no fuel left (`fuelPercentage ≤ 0`) the thrust is zero in `ATMOSPHERIC_ASCENT` and
`ORBITAL_INSERTION`, and in `LIFTOFF` only the attached boosters contribute. -/
theorem C17_calculateThrust_by_stage (s : ShuttlePhysics) :
    s.calculateThrust = ⟨0, s.thrustMagnitudeByStage, 0⟩ ∧
    0 ≤ s.thrustMagnitudeByStage ∧
    (s.fuelPercentage ≤ 0 →
      (s.stage = ATMOSPHERIC_ASCENT → s.calculateThrust = ⟨0, 0, 0⟩) ∧
      (s.stage = ORBITAL_INSERTION → s.calculateThrust = ⟨0, 0, 0⟩) ∧
      (s.stage = LIFTOFF → s.calculateThrust =
        ⟨0, (if s.isRocket1Attached then THRUST_SOLID_ROCKETS / 2 else 0)
          + (if s.isRocket2Attached then THRUST_SOLID_ROCKETS / 2 else 0), 0⟩)) := by
  have h1 := calculateThrust_eq_byStage s
  refine ⟨h1, ?_, fun hf => ⟨fun hs => ?_, fun hs => ?_, fun hs => ?_⟩⟩
  · unfold thrustMagnitudeByStage
    cases s.stage <;> simp only [] <;> (try split_ifs) <;>
      norm_num [THRUST_ENGINE_STARTUP, THRUST_MAIN_ENGINES, THRUST_SOLID_ROCKETS]
  · rw [h1]
    unfold thrustMagnitudeByStage
    simp [hs, not_lt.mpr hf]
  · rw [h1]
    unfold thrustMagnitudeByStage
    simp [hs, not_lt.mpr hf]
  · rw [h1]
    unfold thrustMagnitudeByStage
    simp [hs, not_lt.mpr hf]

/-! ## The shape of one `update` call -/

theorem clampDeltaTime_of_pos {dt : ℚ} (h : 0 < dt) :
    clampDeltaTime dt = min dt 0.0166 ∧ ¬ clampDeltaTime dt ≤ 0 := by
  unfold clampDeltaTime
  dsimp only
  split_ifs with h1
  · exact ⟨(min_eq_right (le_of_lt h1)).symm, by norm_num⟩
  · exact ⟨(min_eq_left (le_of_not_gt h1)).symm, not_le.mpr h⟩

theorem update_of_nonpos (M : JsMath) (s : ShuttlePhysics) (dt : ℚ) (h : dt ≤ 0) :
    s.update M dt = s := by
  have hc : clampDeltaTime dt ≤ 0 := by
    unfold clampDeltaTime
    dsimp only
    split_ifs with h1
    · norm_num at h1; linarith
    · exact h
  unfold update
  simp [hc]

theorem update_eq (M : JsMath) (s : ShuttlePhysics) (dt : ℚ) (h : ¬ clampDeltaTime dt ≤ 0) :
    s.update M dt =
      ((beforeStage M s dt).updateStage M (currentAltitude M s dt)
        (clampDeltaTime dt)).handleComponentDetachment (currentAltitude M s dt)
          ((beforeStage M s dt).updateStage M (currentAltitude M s dt) (clampDeltaTime dt)).time
          (((beforeStage M s dt).updateStage M (currentAltitude M s dt)
            (clampDeltaTime dt)).velocity.length M) := by
  unfold update
  simp only [h, if_false]
  rfl

@[simp] theorem integrateStep_frame (M : JsMath) (s : ShuttlePhysics) (dt : ℚ) :
    (integrateStep M s dt).stage = s.stage ∧ (integrateStep M s dt).time = s.time ∧
      (integrateStep M s dt).engineStartupTimer = s.engineStartupTimer ∧
      (integrateStep M s dt).isFuelTankAttached = s.isFuelTankAttached ∧
      (integrateStep M s dt).isRocket1Attached = s.isRocket1Attached ∧
      (integrateStep M s dt).isRocket2Attached = s.isRocket2Attached ∧
      (integrateStep M s dt).fuelPercentage = s.fuelPercentage ∧
      (integrateStep M s dt).srbDetached = s.srbDetached ∧
      (integrateStep M s dt).etDetached = s.etDetached ∧
      (integrateStep M s dt).launchPad = s.launchPad ∧
      (integrateStep M s dt).towerTilted = s.towerTilted := by
  unfold integrateStep
  simp

@[simp] theorem beforeStage_frame (M : JsMath) (s : ShuttlePhysics) (dt : ℚ) :
    (beforeStage M s dt).stage = s.stage ∧
      (beforeStage M s dt).isFuelTankAttached = s.isFuelTankAttached ∧
      (beforeStage M s dt).isRocket1Attached = s.isRocket1Attached ∧
      (beforeStage M s dt).isRocket2Attached = s.isRocket2Attached ∧
      (beforeStage M s dt).srbDetached = s.srbDetached ∧
      (beforeStage M s dt).etDetached = s.etDetached ∧
      (beforeStage M s dt).launchPad = s.launchPad ∧
      (beforeStage M s dt).towerTilted = s.towerTilted := by
  unfold beforeStage
  simp

theorem updateClocks_time (s : ShuttlePhysics) (dt : ℚ) :
    (s.updateClocks dt).time = s.time + dt ∧
      (s.updateClocks dt).engineStartupTimer =
        if s.stage = ENGINE_STARTUP then s.engineStartupTimer + dt else 0 := by
  unfold updateClocks
  dsimp only
  split_ifs <;> exact ⟨rfl, rfl⟩

theorem beforeStage_clocks (M : JsMath) (s : ShuttlePhysics) (dt : ℚ) :
    (beforeStage M s dt).time = s.time + clampDeltaTime dt ∧
      (beforeStage M s dt).engineStartupTimer =
        if s.stage = ENGINE_STARTUP then s.engineStartupTimer + clampDeltaTime dt else 0 := by
  unfold beforeStage
  constructor
  · rw [(updateClocks_time _ _).1]
    simp
  · rw [(updateClocks_time _ _).2]
    simp

theorem beforeStage_kinematics (M : JsMath) (s : ShuttlePhysics) (dt : ℚ) :
    (beforeStage M s dt).position =
        ((integrateStep M s dt).updateGroundClamp (currentAltitude M s dt)).position ∧
      (beforeStage M s dt).velocity =
        ((integrateStep M s dt).updateGroundClamp (currentAltitude M s dt)).velocity ∧
      (beforeStage M s dt).acceleration =
        ((integrateStep M s dt).updateGroundClamp (currentAltitude M s dt)).acceleration := by
  unfold beforeStage
  simp

theorem update_kinematics (M : JsMath) (s : ShuttlePhysics) (dt : ℚ)
    (h : ¬ clampDeltaTime dt ≤ 0) :
    (s.update M dt).position =
        ((integrateStep M s dt).updateGroundClamp (currentAltitude M s dt)).position ∧
      (s.update M dt).velocity =
        ((integrateStep M s dt).updateGroundClamp (currentAltitude M s dt)).velocity ∧
      (s.update M dt).acceleration =
        ((integrateStep M s dt).updateGroundClamp (currentAltitude M s dt)).acceleration := by
  obtain ⟨k1, k2, k3⟩ := beforeStage_kinematics M s dt
  rw [update_eq M s dt h]
  simp only [handleComponentDetachment_frame, updateStage_frame]
  exact ⟨k1, k2, k3⟩

theorem update_clocks (M : JsMath) (s : ShuttlePhysics) (dt : ℚ) (h : ¬ clampDeltaTime dt ≤ 0) :
    (s.update M dt).time = s.time + clampDeltaTime dt ∧
      (s.update M dt).engineStartupTimer =
        if s.stage = ENGINE_STARTUP then s.engineStartupTimer + clampDeltaTime dt else 0 := by
  obtain ⟨c1, c2⟩ := beforeStage_clocks M s dt
  rw [update_eq M s dt h]
  simp only [handleComponentDetachment_frame, updateStage_frame]
  exact ⟨c1, c2⟩

theorem update_stage_of_pos (M : JsMath) (s : ShuttlePhysics) (dt : ℚ)
    (h : ¬ clampDeltaTime dt ≤ 0) :
    (s.update M dt).stage =
      ((beforeStage M s dt).updateStage M (currentAltitude M s dt) (clampDeltaTime dt)).stage ∧
    (s.update M dt).launchPad =
      ((beforeStage M s dt).updateStage M (currentAltitude M s dt)
        (clampDeltaTime dt)).launchPad ∧
    (s.update M dt).towerTilted =
      ((beforeStage M s dt).updateStage M (currentAltitude M s dt)
        (clampDeltaTime dt)).towerTilted := by
  rw [update_eq M s dt h]
  simp only [handleComponentDetachment_frame, and_self]

theorem updateStage_startup (M : JsMath) (s : ShuttlePhysics) (a dt : ℚ)
    (h : s.stage = ENGINE_STARTUP) :
    (s.updateStage M a dt).stage =
      if s.engineStartupTimer ≥ ENGINE_STARTUP_DURATION then LIFTOFF else ENGINE_STARTUP := by
  unfold updateStage
  simp only [h]
  repeat' split
  all_goals simp_all

theorem updateStage_liftoff (M : JsMath) (s : ShuttlePhysics) (a dt : ℚ)
    (h : s.stage = LIFTOFF) :
    (s.updateStage M a dt).stage =
      if a > SRB_DETACH_ALTITUDE ∧ s.srbDetached = true then ATMOSPHERIC_ASCENT else LIFTOFF := by
  unfold updateStage
  simp only [h]
  split_ifs <;> simp_all

/-! ## The simulation clock in double arithmetic -/

theorem floor_le_roundHalfEven (q : ℚ) : ⌊q⌋ ≤ roundHalfEven q := by
  unfold roundHalfEven
  split_ifs <;> omega

theorem roundHalfEven_eq (q : ℚ) (n : ℤ) (h : |q - n| < 1 / 2) : roundHalfEven q = n := by
  rw [abs_lt] at h
  obtain ⟨h1, h2⟩ := h
  by_cases hq : (n : ℚ) ≤ q
  · have hf : ⌊q⌋ = n := by
      rw [Int.floor_eq_iff]
      constructor
      · exact hq
      · linarith
    unfold roundHalfEven
    rw [hf, if_pos (by linarith)]
  · have hf : ⌊q⌋ = n - 1 := by
      rw [Int.floor_eq_iff]
      push_cast
      constructor
      · linarith
      · linarith
    unfold roundHalfEven
    rw [hf]
    push_cast
    rw [if_neg (by linarith), if_pos (by linarith)]
    ring

theorem log_two_eq (x : ℚ) (e : ℤ) (h1 : (2 : ℚ) ^ e ≤ x) (h2 : x < (2 : ℚ) ^ (e + 1)) :
    Int.log 2 x = e := by
  have hx : 0 < x := lt_of_lt_of_le (by positivity) h1
  apply le_antisymm
  · have := (Int.lt_zpow_iff_log_lt (b := 2) (by norm_num) hx (x := e + 1)).mp
      (by exact_mod_cast h2)
    omega
  · exact (Int.zpow_le_iff_le_log (b := 2) (by norm_num) hx).mp (by exact_mod_cast h1)

theorem roundDoublePos_eq (x : ℚ) (e n : ℤ) (h1 : (2 : ℚ) ^ e ≤ x) (h2 : x < (2 : ℚ) ^ (e + 1))
    (h3 : |x / 2 ^ (e - 52) - n| < 1 / 2) : roundDoublePos x = n * 2 ^ (e - 52) := by
  unfold roundDoublePos
  rw [log_two_eq x e h1 h2, roundHalfEven_eq _ n h3]


theorem roundDouble_literal_max : roundDouble 0.0166 = 4784624244118415 / 2 ^ 58 := by
  unfold roundDouble
  rw [if_pos (by norm_num)]
  rw [roundDoublePos_eq 0.0166 (-6) 4784624244118415 (by norm_num) (by norm_num)
    (by rw [abs_lt]; constructor <;> norm_num)]
  norm_num

theorem roundDouble_time_example :
    roundDouble (4784624244118415 / 2 ^ 58) = 4784624244118415 / 2 ^ 58 := by
  unfold roundDouble
  rw [if_pos (by norm_num)]
  rw [roundDoublePos_eq _ (-6) 4784624244118415 (by norm_num) (by norm_num)
    (by rw [abs_lt]; constructor <;> norm_num)]
  norm_num

theorem roundDouble_literal_step : roundDouble 1e-20 = 6646139978924579 / 2 ^ 119 := by
  unfold roundDouble
  rw [if_pos (by norm_num)]
  rw [roundDoublePos_eq 1e-20 (-67) 6646139978924579 (by norm_num) (by norm_num)
    (by rw [abs_lt]; constructor <;> norm_num)]
  norm_num

theorem roundDouble_step_example :
    roundDouble (6646139978924579 / 2 ^ 119) = 6646139978924579 / 2 ^ 119 := by
  unfold roundDouble
  rw [if_pos (by norm_num)]
  rw [roundDoublePos_eq _ (-67) 6646139978924579 (by norm_num) (by norm_num)
    (by rw [abs_lt]; constructor <;> norm_num)]
  norm_num

theorem roundDouble_sum_example :
    roundDouble (4784624244118415 / 2 ^ 58 + 6646139978924579 / 2 ^ 119) =
      4784624244118415 / 2 ^ 58 := by
  unfold roundDouble
  rw [if_pos (by norm_num)]
  rw [roundDoublePos_eq _ (-6) 4784624244118415 (by norm_num) (by norm_num)
    (by rw [abs_lt]; constructor <;> norm_num)]
  norm_num

theorem roundDoublePos_nonneg (x : ℚ) (hx : 0 < x) : 0 ≤ roundDoublePos x := by
  unfold roundDoublePos
  have h1 : (0 : ℚ) < 2 ^ (Int.log 2 x - 52) := by positivity
  have h2 : (0 : ℤ) ≤ roundHalfEven (x / 2 ^ (Int.log 2 x - 52)) :=
    le_trans (Int.floor_nonneg.mpr (by positivity)) (floor_le_roundHalfEven _)
  have h3 : (0 : ℚ) ≤ (roundHalfEven (x / 2 ^ (Int.log 2 x - 52)) : ℚ) := by exact_mod_cast h2
  positivity

theorem two_pow_split (k : ℤ) : (4503599627370496 : ℚ) * 2 ^ (k - 52) = 2 ^ k := by
  rw [zpow_sub₀ (by norm_num : (2 : ℚ) ≠ 0)]
  norm_num
  field_simp

theorem le_roundDoublePos_of_le (t y : ℚ) (ht : 0 < t) (hrep : roundDoublePos t = t)
    (hy : t ≤ y) : t ≤ roundDoublePos y := by
  have hy0 : 0 < y := lt_of_lt_of_le ht hy
  have hlog : Int.log 2 t ≤ Int.log 2 y := Int.log_mono_right ht hy
  have hu : (0 : ℚ) < 2 ^ (Int.log 2 y - 52) := by positivity
  rcases eq_or_lt_of_le hlog with he | hlt
  · -- same binade: `t` is a multiple of the unit of `y`
    have hn : t / 2 ^ (Int.log 2 y - 52) =
        (roundHalfEven (t / 2 ^ (Int.log 2 y - 52)) : ℚ) := by
      have h := hrep
      unfold roundDoublePos at h
      rw [he] at h
      rw [div_eq_iff hu.ne']
      exact h.symm
    have h1 : (roundHalfEven (t / 2 ^ (Int.log 2 y - 52)) : ℚ) ≤ y / 2 ^ (Int.log 2 y - 52) := by
      rw [← hn]
      exact div_le_div_of_nonneg_right hy hu.le
    have h2 : roundHalfEven (t / 2 ^ (Int.log 2 y - 52)) ≤
        roundHalfEven (y / 2 ^ (Int.log 2 y - 52)) :=
      le_trans (Int.le_floor.mpr h1) (floor_le_roundHalfEven _)
    have h3 : (roundHalfEven (t / 2 ^ (Int.log 2 y - 52)) : ℚ) ≤
        (roundHalfEven (y / 2 ^ (Int.log 2 y - 52)) : ℚ) := by exact_mod_cast h2
    unfold roundDoublePos
    calc t = t / 2 ^ (Int.log 2 y - 52) * 2 ^ (Int.log 2 y - 52) := by field_simp
      _ = (roundHalfEven (t / 2 ^ (Int.log 2 y - 52)) : ℚ) * 2 ^ (Int.log 2 y - 52) := by
          rw [← hn]
      _ ≤ _ := mul_le_mul_of_nonneg_right h3 hu.le
  · -- `y` lies in a higher binade: its rounding is at least the power of two below it
    have ht2 : t < (2 : ℚ) ^ (Int.log 2 t + 1) := by
      exact_mod_cast Int.lt_zpow_succ_log_self (b := 2) (by norm_num) t
    have hpow : (2 : ℚ) ^ (Int.log 2 t + 1) ≤ 2 ^ Int.log 2 y :=
      zpow_le_zpow_right₀ (by norm_num) (by omega)
    have hy2 : (2 : ℚ) ^ Int.log 2 y ≤ y := by
      exact_mod_cast Int.zpow_log_le_self (b := 2) (by norm_num) hy0
    have hq : ((4503599627370496 : ℤ) : ℚ) ≤ y / 2 ^ (Int.log 2 y - 52) := by
      rw [le_div_iff₀ hu]
      push_cast
      rw [two_pow_split]
      exact hy2
    have h2 : (4503599627370496 : ℤ) ≤ roundHalfEven (y / 2 ^ (Int.log 2 y - 52)) :=
      le_trans (Int.le_floor.mpr hq) (floor_le_roundHalfEven _)
    have h3 : (4503599627370496 : ℚ) ≤ (roundHalfEven (y / 2 ^ (Int.log 2 y - 52)) : ℚ) := by
      exact_mod_cast h2
    unfold roundDoublePos
    calc t ≤ (2 : ℚ) ^ Int.log 2 y := le_trans ht2.le hpow
      _ = (4503599627370496 : ℚ) * 2 ^ (Int.log 2 y - 52) := (two_pow_split _).symm
      _ ≤ _ := mul_le_mul_of_nonneg_right h3 hu.le

theorem le_roundDouble_add (t c : ℚ) (ht : 0 ≤ t) (hrep : roundDouble t = t) (hc : 0 ≤ c) :
    t ≤ roundDouble (t + c) := by
  rcases eq_or_lt_of_le ht with h0 | hpos
  · rw [← h0, zero_add]
    unfold roundDouble
    split_ifs with h1 h2
    · exact roundDoublePos_nonneg c h1
    · exact absurd h2 (not_lt.mpr hc)
    · exact le_refl _
  · have hy : 0 < t + c := by linarith
    have hrep' : roundDoublePos t = t := by
      unfold roundDouble at hrep
      rwa [if_pos hpos] at hrep
    unfold roundDouble
    rw [if_pos hy]
    exact le_roundDoublePos_of_le t (t + c) hpos hrep' (by linarith)

theorem timeAfterUpdateDouble_ge (s : ShuttlePhysics) (dt : ℚ) (hdt : 0 < dt)
    (h0 : 0 ≤ s.time) (hrep : roundDouble s.time = s.time) :
    s.time ≤ timeAfterUpdateDouble s dt := by
  have hmax : (0 : ℚ) < roundDouble 0.0166 := by
    rw [roundDouble_literal_max]; norm_num
  unfold timeAfterUpdateDouble
  dsimp only
  split_ifs with h1 h2 h3
  · exact le_refl _
  · exact le_roundDouble_add _ _ h0 hrep hmax.le
  · exact le_refl _
  · exact le_roundDouble_add _ _ h0 hrep hdt.le

/-! ## Clocks and the first two stage transitions -/

/-- C16. For `dt > 0`, `update(dt)` sets `time` to the old `time` plus `min(dt, 0.0166)`, in
every stage, so `time` does not decrease; and in double arithmetic, where the sum is rounded,
the new `time` is still not below the old one (for an old `time` that is a non-negative
double). -/
theorem C16_update_advances_time (M : JsMath) (s : ShuttlePhysics) (dt : ℚ) (hdt : 0 < dt) :
    (s.update M dt).time = s.time + min dt 0.0166 ∧ s.time ≤ (s.update M dt).time ∧
    (0 ≤ s.time → roundDouble s.time = s.time → s.time ≤ timeAfterUpdateDouble s dt) := by
  obtain ⟨e, hpos⟩ := clampDeltaTime_of_pos hdt
  have ht := (update_clocks M s dt hpos).1
  rw [e] at ht
  refine ⟨ht, ?_, fun h0 hrep => timeAfterUpdateDouble_ge s dt hdt h0 hrep⟩
  rw [ht]
  have : (0 : ℚ) < min dt 0.0166 := lt_min hdt (by norm_num)
  linarith

/-- C16, as stated, fails in the double arithmetic of the program: at `time = 0.0166` (the
double nearest to it, `4784624244118415 / 2 ^ 58`) the call `update(1e-20)` (the double
`6646139978924579 / 2 ^ 119`, which is positive) leaves `time` unchanged, so `time` does not
strictly increase. -/
theorem C16_small_step_absorbed_counterexample :
    roundDouble 0.0166 = 4784624244118415 / 2 ^ 58 ∧
    roundDouble 1e-20 = 6646139978924579 / 2 ^ 119 ∧
    roundDouble (4784624244118415 / 2 ^ 58) = 4784624244118415 / 2 ^ 58 ∧
    roundDouble (6646139978924579 / 2 ^ 119) = 6646139978924579 / 2 ^ 119 ∧
    (0 : ℚ) < 6646139978924579 / 2 ^ 119 ∧
    timeAfterUpdateDouble { ShuttlePhysics.new with time := 4784624244118415 / 2 ^ 58 }
        (6646139978924579 / 2 ^ 119) = 4784624244118415 / 2 ^ 58 ∧
    ¬ (({ ShuttlePhysics.new with time := 4784624244118415 / 2 ^ 58 } : ShuttlePhysics).time <
      timeAfterUpdateDouble { ShuttlePhysics.new with time := 4784624244118415 / 2 ^ 58 }
        (6646139978924579 / 2 ^ 119)) := by
  have hval : timeAfterUpdateDouble
      { ShuttlePhysics.new with time := 4784624244118415 / 2 ^ 58 }
      (6646139978924579 / 2 ^ 119) = 4784624244118415 / 2 ^ 58 := by
    unfold timeAfterUpdateDouble
    simp only [roundDouble_literal_max]
    rw [if_neg (by norm_num), if_neg (by norm_num)]
    exact roundDouble_sum_example
  refine ⟨roundDouble_literal_max, roundDouble_literal_step, roundDouble_time_example,
    roundDouble_step_example, by norm_num, hval, ?_⟩
  rw [hval]
  exact lt_irrefl _

/-- C18. For `dt > 0`: an update entered in `ENGINE_STARTUP` adds `min(dt, 0.0166)` to the
startup timer and ends in `LIFTOFF` exactly when the new timer is at least
`ENGINE_STARTUP_DURATION`, and otherwise stays in `ENGINE_STARTUP`; an update entered in any
other stage leaves the startup timer at 0. -/
theorem C18_startup_timer (M : JsMath) (s : ShuttlePhysics) (dt : ℚ) (hdt : 0 < dt) :
    (s.stage = ENGINE_STARTUP →
      (s.update M dt).engineStartupTimer = s.engineStartupTimer + min dt 0.0166 ∧
      ((s.update M dt).stage = LIFTOFF ↔
        s.engineStartupTimer + min dt 0.0166 ≥ ENGINE_STARTUP_DURATION) ∧
      (¬ s.engineStartupTimer + min dt 0.0166 ≥ ENGINE_STARTUP_DURATION →
        (s.update M dt).stage = ENGINE_STARTUP)) ∧
    (s.stage ≠ ENGINE_STARTUP → (s.update M dt).engineStartupTimer = 0) := by
  obtain ⟨e, hpos⟩ := clampDeltaTime_of_pos hdt
  have hc := (update_clocks M s dt hpos).2
  have hs := (update_stage_of_pos M s dt hpos).1
  constructor
  · intro hst
    have hb : (beforeStage M s dt).stage = ENGINE_STARTUP := by simp [hst]
    have hbt := (beforeStage_clocks M s dt).2
    rw [if_pos hst, e] at hc hbt
    rw [updateStage_startup M _ _ _ hb, hbt] at hs
    refine ⟨hc, ?_, ?_⟩
    · rw [hs]
      split_ifs with h3
      · simp [h3]
      · simp [h3]
    · intro h3
      rw [hs, if_neg h3]
  · intro hst
    rw [if_neg hst] at hc
    exact hc

/-- C15. An update entered in `LIFTOFF` with `srbDetached` false ends in `LIFTOFF`, and if it
sets `srbDetached` it clears both booster flags in the same call; an update entered in
`LIFTOFF` with `srbDetached` true ends in `ATMOSPHERIC_ASCENT` exactly when it runs an
integration step (`dt > 0`) and the altitude computed after that step exceeds
`SRB_DETACH_ALTITUDE`, and in `LIFTOFF` otherwise. -/
theorem C15_liftoff_transition (M : JsMath) (s : ShuttlePhysics) (dt : ℚ)
    (hst : s.stage = LIFTOFF) :
    (s.srbDetached = false →
      (s.update M dt).stage = LIFTOFF ∧
      ((s.update M dt).srbDetached = true →
        (s.update M dt).isRocket1Attached = false ∧
          (s.update M dt).isRocket2Attached = false)) ∧
    (s.srbDetached = true →
      ((s.update M dt).stage = ATMOSPHERIC_ASCENT ↔
        (0 < dt ∧ currentAltitude M s dt > SRB_DETACH_ALTITUDE)) ∧
      (¬ (0 < dt ∧ currentAltitude M s dt > SRB_DETACH_ALTITUDE) →
        (s.update M dt).stage = LIFTOFF)) := by
  constructor
  · intro hsrb
    by_cases h : clampDeltaTime dt ≤ 0
    · have : s.update M dt = s := by unfold update; simp [h]
      rw [this]
      exact ⟨hst, fun h1 => by rw [hsrb] at h1; cases h1⟩
    · have hs := (update_stage_of_pos M s dt h).1
      have hb : (beforeStage M s dt).stage = LIFTOFF := by simp [hst]
      have hbs : (beforeStage M s dt).srbDetached = false := by simp [hsrb]
      rw [updateStage_liftoff M _ _ _ hb, hbs] at hs
      refine ⟨by simpa using hs, ?_⟩
      have hsrb2 : ((beforeStage M s dt).updateStage M (currentAltitude M s dt)
          (clampDeltaTime dt)).srbDetached = false := by simp [hsrb]
      rw [update_eq M s dt h]
      generalize ((beforeStage M s dt).updateStage M (currentAltitude M s dt)
          (clampDeltaTime dt)) = y at hsrb2 ⊢
      unfold handleComponentDetachment
      simp only [detachComponent_fuelTank, detachComponent_rocket1, detachComponent_rocket2]
      split_ifs <;> simp_all
  · intro hsrb
    by_cases hdt : 0 < dt
    · obtain ⟨_, hpos⟩ := clampDeltaTime_of_pos hdt
      have hs := (update_stage_of_pos M s dt hpos).1
      have hb : (beforeStage M s dt).stage = LIFTOFF := by simp [hst]
      have hbs : (beforeStage M s dt).srbDetached = true := by simp [hsrb]
      rw [updateStage_liftoff M _ _ _ hb, hbs] at hs
      rw [hs]
      constructor
      · split_ifs with h1
        · simp [h1.1, hdt]
        · have : ¬ currentAltitude M s dt > SRB_DETACH_ALTITUDE := fun h2 => h1 ⟨h2, rfl⟩
          simp [this]
      · intro h1
        rw [if_neg (fun h2 => h1 ⟨hdt, h2.1⟩)]
    · have : s.update M dt = s := update_of_nonpos M s dt (le_of_not_gt hdt)
      rw [this, hst]
      simp [hdt]

/-! ## The integration step off the ground -/

theorem updateForces_airborne (M : JsMath) (s : ShuttlePhysics) (hst : s.stage ≠ IDLE)
    (ha : 0 < s.altitude) :
    (s.updateForces M).position = s.position ∧
    (s.updateForces M).velocity = s.velocity ∧
    (s.updateForces M).force =
      (s.calculateGravityForce M s.position).add
        (if s.altitude < ATMOSPHERE_HEIGHT then calculateAirResistance M s.velocity s.altitude
          else Vector3.zero) := by
  unfold altitude at ha ⊢
  have hn : ¬ s.position.y - EARTH_RADIUS ≤ 0 := not_le.mpr ha
  have hg : ({ s with force := s.force.set 0 0 0 } : ShuttlePhysics).calculateGravityForce M
      s.position = s.calculateGravityForce M s.position := rfl
  unfold updateForces
  simp only [hst, hn, ha, if_false, and_false, true_and, gt_iff_lt, hg]
  split_ifs
  · refine ⟨rfl, rfl, ?_⟩
    simp [Vector3.add, Vector3.set]
  · refine ⟨rfl, rfl, ?_⟩
    simp [Vector3.add, Vector3.set, Vector3.zero]

theorem integrateStep_airborne (M : JsMath) (s : ShuttlePhysics) (dt : ℚ)
    (hst : s.stage ≠ IDLE) (ha : 0 < s.altitude) :
    (integrateStep M s dt).acceleration = airborneAcceleration M s ∧
    (integrateStep M s dt).velocity =
      s.velocity.addScaledVector (airborneAcceleration M s) (clampDeltaTime dt) ∧
    (integrateStep M s dt).position =
      s.position.addScaledVector
        (s.velocity.addScaledVector (airborneAcceleration M s) (clampDeltaTime dt))
        (clampDeltaTime dt) := by
  obtain ⟨f1, f2, f3⟩ := updateForces_airborne M s hst ha
  obtain ⟨i1, i2, i3⟩ := updateIntegrate_eq (s.updateForces M) (s.updateForces M).calculateThrust
    (clampDeltaTime dt)
  have ht : (s.updateForces M).calculateThrust = s.calculateThrust :=
    calculateThrust_congr (by simp) (by simp) (by simp) (by simp)
  have hm : (s.updateForces M).calculateTotalMass = s.calculateTotalMass :=
    calculateTotalMass_congr (by simp) (by simp) (by simp) (by simp)
  have ha' : ((s.updateForces M).force.add (s.updateForces M).calculateThrust).divideScalar
      (s.updateForces M).calculateTotalMass = airborneAcceleration M s := by
    rw [f3, ht, hm]
    unfold airborneAcceleration airborneNetForce Vector3.divideScalar Vector3.multiplyScalar
    simp only [mul_one_div]
  unfold integrateStep
  rw [i1, i2, i3, ha', f1, f2]
  exact ⟨rfl, rfl, rfl⟩

theorem updateGroundClamp_no_snap (s : ShuttlePhysics) (a : ℚ) (h : ¬ a < -1) :
    s.updateGroundClamp a = s := by
  unfold updateGroundClamp
  simp [h]

theorem updateGroundClamp_snap (s : ShuttlePhysics) (a : ℚ) (hst : s.stage ≠ IDLE)
    (h : a < -1) :
    (s.updateGroundClamp a).position.y = EARTH_RADIUS ∧
      0 ≤ (s.updateGroundClamp a).velocity.y ∧ 0 ≤ (s.updateGroundClamp a).acceleration.y := by
  unfold updateGroundClamp
  simp only [hst, h, ne_eq, not_false_eq_true, if_true, Vector3.setY]
  split_ifs with h1 h2 h2
  · exact ⟨rfl, le_refl _, le_refl _⟩
  · exact ⟨rfl, le_refl _, le_of_not_gt h2⟩
  · exact ⟨rfl, le_of_not_gt h1, le_refl _⟩
  · exact ⟨rfl, le_of_not_gt h1, le_of_not_gt h2⟩

/-- C19. For `dt > 0`, an update entered outside `IDLE` at a positive altitude, on which the
ground snap does not trigger, leaves the acceleration `(gravity + drag + thrust) / totalMass`
(drag only below the atmosphere height), the velocity `velocity + a * dt'` and the position
`position + velocity' * dt'` with `dt' = min(dt, 0.0166)`; in `ATMOSPHERIC_ASCENT` with no fuel
the thrust term is the zero vector. -/
theorem C19_airborne_integration (M : JsMath) (s : ShuttlePhysics) (dt : ℚ) (hdt : 0 < dt)
    (hst : s.stage ≠ IDLE) (hh : 0 < s.altitude) (hsnap : ¬ currentAltitude M s dt < -1) :
    (s.update M dt).acceleration = airborneAcceleration M s ∧
    (s.update M dt).velocity =
      s.velocity.addScaledVector (airborneAcceleration M s) (min dt 0.0166) ∧
    (s.update M dt).position =
      s.position.addScaledVector
        (s.velocity.addScaledVector (airborneAcceleration M s) (min dt 0.0166))
        (min dt 0.0166) ∧
    (s.stage = ATMOSPHERIC_ASCENT → s.fuelPercentage = 0 →
      s.calculateThrust = ⟨0, 0, 0⟩ ∧
      airborneNetForce M s =
        (s.calculateGravityForce M s.position).add
          (if s.altitude < ATMOSPHERE_HEIGHT then
            calculateAirResistance M s.velocity s.altitude else Vector3.zero)) := by
  obtain ⟨e, hpos⟩ := clampDeltaTime_of_pos hdt
  obtain ⟨k1, k2, k3⟩ := update_kinematics M s dt hpos
  obtain ⟨a1, a2, a3⟩ := integrateStep_airborne M s dt hst hh
  rw [updateGroundClamp_no_snap _ _ hsnap] at k1 k2 k3
  rw [e] at a2 a3
  refine ⟨k3.trans a1, k2.trans a2, k1.trans a3, fun hs hf => ?_⟩
  have ht : s.calculateThrust = ⟨0, 0, 0⟩ := by
    rw [calculateThrust_eq_byStage s]
    unfold thrustMagnitudeByStage
    simp [hs, hf]
  refine ⟨ht, ?_⟩
  unfold airborneNetForce
  rw [ht]
  simp [Vector3.add]

/-- C20. For `dt > 0`, an update entered outside `IDLE` ends at an altitude of at least
`-1` m; and when the altitude computed right after the integration step is below `-1` m it
ends with `position.y = EARTH_RADIUS`, `velocity.y ≥ 0` and `acceleration.y ≥ 0`. -/
theorem C20_ground_clamp (M : JsMath) (s : ShuttlePhysics) (dt : ℚ) (hdt : 0 < dt)
    (hst : s.stage ≠ IDLE) :
    -1 ≤ (s.update M dt).altitude ∧
    (currentAltitude M s dt < -1 →
      (s.update M dt).position.y = EARTH_RADIUS ∧ 0 ≤ (s.update M dt).velocity.y ∧
        0 ≤ (s.update M dt).acceleration.y) := by
  obtain ⟨_, hpos⟩ := clampDeltaTime_of_pos hdt
  obtain ⟨k1, k2, k3⟩ := update_kinematics M s dt hpos
  have hk : (integrateStep M s dt).stage ≠ IDLE := by simpa using hst
  have hsnap : currentAltitude M s dt < -1 →
      (s.update M dt).position.y = EARTH_RADIUS ∧ 0 ≤ (s.update M dt).velocity.y ∧
        0 ≤ (s.update M dt).acceleration.y := by
    intro h
    rw [k1, k2, k3]
    exact updateGroundClamp_snap _ _ hk h
  refine ⟨?_, hsnap⟩
  unfold altitude
  by_cases h : currentAltitude M s dt < -1
  · rw [(hsnap h).1]
    norm_num
  · rw [k1, updateGroundClamp_no_snap _ _ h]
    have := le_of_not_gt h
    unfold currentAltitude at this
    exact this

/-! ## The tower-tilt notification -/

theorem updateStage_startup_pad (M : JsMath) (s : ShuttlePhysics) (a dt : ℚ)
    (launchPad : LaunchPad) (h : s.stage = ENGINE_STARTUP) (hp : s.launchPad = some launchPad)
    (ht : launchPad.towerModel = true) :
    (s.updateStage M a dt).launchPad =
        some (if s.engineStartupTimer ≥ ENGINE_STARTUP_DURATION - 2 ∧ s.towerTilted = false
          then launchPad.tiltTower 90 else launchPad) ∧
      (s.updateStage M a dt).towerTilted =
        (if s.engineStartupTimer ≥ ENGINE_STARTUP_DURATION - 2 then true else s.towerTilted) := by
  unfold updateStage
  simp only [h, hp, ht, if_true]
  cases htt : s.towerTilted <;> split_ifs <;> simp_all

theorem updateStage_not_startup (M : JsMath) (s : ShuttlePhysics) (a dt : ℚ)
    (h : s.stage ≠ ENGINE_STARTUP) :
    (s.updateStage M a dt).launchPad = s.launchPad ∧
      (s.updateStage M a dt).towerTilted = s.towerTilted ∧
      (s.updateStage M a dt).stage ≠ ENGINE_STARTUP := by
  unfold updateStage
  dsimp only
  split <;> rename_i hs
  · exact ⟨rfl, rfl, h⟩
  · exact absurd hs h
  all_goals (split_ifs <;> simp_all)

theorem update_tiltInvariant (M : JsMath) (c0 : Nat) (s : ShuttlePhysics) (dt : ℚ)
    (h : TiltInvariant c0 s) : TiltInvariant c0 (s.update M dt) := by
  by_cases hc : clampDeltaTime dt ≤ 0
  · have : s.update M dt = s := by unfold update; simp [hc]
    rw [this]; exact h
  · obtain ⟨u1, u2, u3⟩ := update_stage_of_pos M s dt hc
    have ut := (update_clocks M s dt hc).2
    have hpos := clampDeltaTime_pos hc
    have hle := clampDeltaTime_le dt
    obtain ⟨lp, hp, htw, hcase⟩ := h
    by_cases hst : s.stage = ENGINE_STARTUP
    · have hb : (beforeStage M s dt).stage = ENGINE_STARTUP := by simp [hst]
      have hbp : (beforeStage M s dt).launchPad = some lp := by simp [hp]
      have hbt := (beforeStage_clocks M s dt).2
      rw [if_pos hst] at hbt ut
      obtain ⟨p1, p2⟩ := updateStage_startup_pad M _ (currentAltitude M s dt)
        (clampDeltaTime dt) lp hb hbp htw
      have p3 := updateStage_startup M (beforeStage M s dt) (currentAltitude M s dt)
        (clampDeltaTime dt) hb
      rw [hbt] at p1 p2 p3
      simp only [beforeStage_frame] at p1 p2
      rw [p1] at u2
      rw [p2] at u3
      rw [p3] at u1
      rcases hcase with ⟨_, hlt, htl, hcalls⟩ | ⟨hge, htl, hcalls⟩
      · by_cases hT : s.engineStartupTimer + clampDeltaTime dt ≥ ENGINE_STARTUP_DURATION - 2
        · refine ⟨lp.tiltTower 90, ?_, htw, Or.inr ⟨Or.inr ?_, ?_, ?_⟩⟩
          · rw [u2, if_pos ⟨hT, htl⟩]
          · rw [ut]; exact hT
          · intro _; rw [u3, if_pos hT]
          · simp [LaunchPad.tiltTower, hcalls]
        · refine ⟨lp, ?_, htw, Or.inl ⟨?_, ?_, ?_, hcalls⟩⟩
          · rw [u2, if_neg (fun hh => hT hh.1)]
          · rw [u1]
            have : ¬ s.engineStartupTimer + clampDeltaTime dt ≥ ENGINE_STARTUP_DURATION := by
              unfold ENGINE_STARTUP_DURATION at hT ⊢
              intro h3; apply hT; linarith
            rw [if_neg this]
          · rw [ut]; exact lt_of_not_ge hT
          · rw [u3, if_neg hT]; exact htl
      · have h1 : ENGINE_STARTUP_DURATION - 2 ≤ s.engineStartupTimer := by
          rcases hge with hge | hge
          · exact absurd hst hge
          · exact hge
        have hT : s.engineStartupTimer + clampDeltaTime dt ≥ ENGINE_STARTUP_DURATION - 2 := by
          show _ ≤ _
          linarith
        have htt := htl hst
        refine ⟨lp, ?_, htw, Or.inr ⟨Or.inr ?_, ?_, hcalls⟩⟩
        · rw [u2, if_neg (fun hh => by rw [htt] at hh; exact Bool.noConfusion hh.2)]
        · rw [ut]; exact hT
        · intro _; rw [u3, if_pos hT]
    · have hb : (beforeStage M s dt).stage ≠ ENGINE_STARTUP := by simpa using hst
      obtain ⟨q1, q2, q3⟩ := updateStage_not_startup M (beforeStage M s dt)
        (currentAltitude M s dt) (clampDeltaTime dt) hb
      simp only [beforeStage_frame] at q1 q2
      rw [q1] at u2
      have hstage' : (s.update M dt).stage ≠ ENGINE_STARTUP := by rw [u1]; exact q3
      rcases hcase with ⟨hs, _⟩ | ⟨_, _, hcalls⟩
      · exact absurd hs hst
      · exact ⟨lp, by rw [u2, hp], htw, Or.inr ⟨Or.inl hstage', fun hh => absurd hh hstage',
          hcalls⟩⟩

theorem runUpdates_tiltInvariant (M : JsMath) (c0 : Nat) (dts : List ℚ) :
    ∀ s : ShuttlePhysics, TiltInvariant c0 s → TiltInvariant c0 (runUpdates M s dts) := by
  induction dts with
  | nil => intro s h; exact h
  | cons dt dts ih => intro s h; exact ih (s.update M dt) (update_tiltInvariant M c0 s dt h)

theorem tiltInvariant_calls (c0 : Nat) (s : ShuttlePhysics) (h : TiltInvariant c0 s) :
    s.tiltTowerCalls = c0 +
      (if s.stage = ENGINE_STARTUP ∧ s.engineStartupTimer < ENGINE_STARTUP_DURATION - 2
        then 0 else 1) := by
  obtain ⟨lp, hp, _, hcase⟩ := h
  unfold tiltTowerCalls
  rw [hp]
  rcases hcase with ⟨hs, hlt, _, hcalls⟩ | ⟨hge, _, hcalls⟩
  · rw [if_pos ⟨hs, hlt⟩]; simpa using hcalls
  · have : ¬ (s.stage = ENGINE_STARTUP ∧
        s.engineStartupTimer < ENGINE_STARTUP_DURATION - 2) := by
      rintro ⟨hs, hlt⟩
      rcases hge with hge | hge
      · exact hge hs
      · exact absurd hlt (not_lt.mpr hge)
    rw [if_neg this]; simpa using hcalls

theorem setStage_startup_tiltInvariant (s : ShuttlePhysics) (launchPad : LaunchPad)
    (hp : s.launchPad = some launchPad) (ht : launchPad.towerModel = true) :
    TiltInvariant launchPad.tiltTowerCalls (s.setStage ENGINE_STARTUP) := by
  refine ⟨launchPad, by simpa using hp, ht, Or.inl ⟨?_, ?_, ?_, rfl⟩⟩
  · simp [setStage]
  · norm_num [setStage, ENGINE_STARTUP_DURATION]
  · simp [setStage]

/-- C14. With a launch pad that has a tower, in a run `setStage(ENGINE_STARTUP)` followed
by any sequence of `update` calls: the pad has received no tilt call while the engine is in
`ENGINE_STARTUP` with the timer below `ENGINE_STARTUP_DURATION - 2`, and exactly one from then
on; so at most one in any run, exactly one in a run that has reached `LIFTOFF`, and a further
update makes the call exactly when it is entered in `ENGINE_STARTUP` with the timer below
`ENGINE_STARTUP_DURATION - 2` and leaves the timer at or above it. -/
theorem C14_tower_tilt_once (M : JsMath) (s : ShuttlePhysics) (launchPad : LaunchPad)
    (hp : s.launchPad = some launchPad) (ht : launchPad.towerModel = true) (dts : List ℚ) :
    (runUpdates M (s.setStage ENGINE_STARTUP) dts).tiltTowerCalls =
      launchPad.tiltTowerCalls +
        (if (runUpdates M (s.setStage ENGINE_STARTUP) dts).stage = ENGINE_STARTUP ∧
            (runUpdates M (s.setStage ENGINE_STARTUP) dts).engineStartupTimer <
              ENGINE_STARTUP_DURATION - 2
          then 0 else 1) ∧
    (runUpdates M (s.setStage ENGINE_STARTUP) dts).tiltTowerCalls ≤
      launchPad.tiltTowerCalls + 1 ∧
    ((runUpdates M (s.setStage ENGINE_STARTUP) dts).stage = LIFTOFF →
      (runUpdates M (s.setStage ENGINE_STARTUP) dts).tiltTowerCalls =
        launchPad.tiltTowerCalls + 1) ∧
    (∀ dt : ℚ,
      ((runUpdates M (s.setStage ENGINE_STARTUP) dts).update M dt).tiltTowerCalls =
          (runUpdates M (s.setStage ENGINE_STARTUP) dts).tiltTowerCalls + 1 ↔
        ((runUpdates M (s.setStage ENGINE_STARTUP) dts).stage = ENGINE_STARTUP ∧
          (runUpdates M (s.setStage ENGINE_STARTUP) dts).engineStartupTimer <
            ENGINE_STARTUP_DURATION - 2 ∧
          ENGINE_STARTUP_DURATION - 2 ≤
            ((runUpdates M (s.setStage ENGINE_STARTUP) dts).update M dt).engineStartupTimer)) := by
  have hinv := runUpdates_tiltInvariant M launchPad.tiltTowerCalls dts _
    (setStage_startup_tiltInvariant s launchPad hp ht)
  generalize runUpdates M (s.setStage ENGINE_STARTUP) dts = r at hinv ⊢
  have hr := tiltInvariant_calls _ r hinv
  refine ⟨hr, ?_, ?_, ?_⟩
  · rw [hr]; split_ifs <;> simp
  · intro hl
    rw [hr, if_neg (fun hh => by rw [hl] at hh; exact ShuttleStages.noConfusion hh.1)]
  · intro dt
    have hr' := tiltInvariant_calls _ (r.update M dt) (update_tiltInvariant M _ r dt hinv)
    rw [hr', hr]
    by_cases hA : r.stage = ENGINE_STARTUP ∧ r.engineStartupTimer < ENGINE_STARTUP_DURATION - 2
    · rw [if_pos hA]
      by_cases hB : (r.update M dt).stage = ENGINE_STARTUP ∧
          (r.update M dt).engineStartupTimer < ENGINE_STARTUP_DURATION - 2
      · rw [if_pos hB]
        constructor
        · intro h; omega
        · intro h; exact absurd hB.2 (not_lt.mpr h.2.2)
      · rw [if_neg hB]
        refine ⟨fun _ => ⟨hA.1, hA.2, ?_⟩, fun _ => rfl⟩
        by_cases hs : (r.update M dt).stage = ENGINE_STARTUP
        · exact le_of_not_gt (fun hlt => hB ⟨hs, hlt⟩)
        · by_cases hc : clampDeltaTime dt ≤ 0
          · have : r.update M dt = r := by unfold update; simp [hc]
            rw [this] at hs
            exact absurd hA.1 hs
          · have u1 := (update_stage_of_pos M r dt hc).1
            have ut := (update_clocks M r dt hc).2
            have hb : (beforeStage M r dt).stage = ENGINE_STARTUP := by simp [hA.1]
            have hbt := (beforeStage_clocks M r dt).2
            rw [if_pos hA.1] at hbt ut
            rw [updateStage_startup M _ _ _ hb, hbt] at u1
            by_cases h3 : r.engineStartupTimer + clampDeltaTime dt ≥ ENGINE_STARTUP_DURATION
            · rw [ut]
              have h3' : ENGINE_STARTUP_DURATION ≤ r.engineStartupTimer + clampDeltaTime dt := h3
              unfold ENGINE_STARTUP_DURATION at h3' ⊢
              linarith
            · rw [if_neg h3] at u1
              exact absurd u1 hs
    · rw [if_neg hA]
      constructor
      · intro h
        split_ifs at h <;> omega
      · intro h
        exact absurd ⟨h.1, h.2.1⟩ hA

/-! ## An airborne example -/

theorem calculateGravityForce_vertical (M : JsMath) (hM : SqrtExact M) (s : ShuttlePhysics)
    (p : Vector3) (hx : p.x = 0) (hz : p.z = 0) (hy : 1 ≤ p.y) :
    s.calculateGravityForce M p =
      ⟨0, -(GRAVITY_CONSTANT * EARTH_MASS * s.calculateTotalMass / (p.y * p.y)), 0⟩ := by
  have hy0 : (0 : ℚ) < p.y := by linarith
  have hlen : p.length M = p.y := by
    unfold Vector3.length
    rw [hx, hz]
    simp only [mul_zero, zero_add, add_zero]
    exact hM _ hy0.le
  unfold calculateGravityForce Vector3.normalize
  simp only [hlen, isNaN, isFinite, Bool.not_true, Bool.false_eq_true, or_false,
    not_lt.mpr hy, if_false, hy0.ne', or_self]
  unfold Vector3.divideScalar Vector3.multiplyScalar
  simp only [hx, hz, zero_mul, Vector3.mk.injEq, true_and, and_true]
  field_simp

theorem coastingState_no_snap : ¬ currentAltitude refMath coastingState (1 / 60) < -1 := by
  have hst : coastingState.stage ≠ IDLE := by simp [coastingState]
  have hh : 0 < coastingState.altitude := by
    norm_num [coastingState, altitude, EARTH_RADIUS]
  obtain ⟨_, _, a3⟩ := integrateStep_airborne refMath coastingState (1 / 60) hst hh
  have hg := calculateGravityForce_vertical refMath refMath_sqrtExact coastingState
    coastingState.position rfl rfl (by norm_num [coastingState, EARTH_RADIUS])
  have ht : coastingState.calculateThrust = ⟨0, 0, 0⟩ := by
    rw [calculateThrust_eq_byStage]
    simp [thrustMagnitudeByStage, coastingState]
  have hm : coastingState.calculateTotalMass = 1290000 := by
    norm_num [calculateTotalMass, coastingState, ShuttlePhysics.new, shuttleDryMass,
      externalTankInitialTotalMass, srbInitialTotalMass, SHUTTLE_MASS, FUEL_TANK_MASS,
      ROCKET_MASS]
  have halt : ¬ coastingState.altitude < ATMOSPHERE_HEIGHT := by
    norm_num [coastingState, altitude, ATMOSPHERE_HEIGHT]
  unfold currentAltitude
  rw [a3, clampDeltaTime_sixtieth]
  unfold airborneAcceleration airborneNetForce
  rw [hg, ht, if_neg halt, hm]
  norm_num [coastingState, ShuttlePhysics.new, Vector3.addScaledVector, Vector3.add,
    Vector3.zero, EARTH_RADIUS, GRAVITY_CONSTANT, EARTH_MASS]

/-! ## The detachment triggers -/

theorem handleComponentDetachment_srb (s : ShuttlePhysics) (a t v : ℚ) :
    (srbDetachCondition s a t →
      (s.handleComponentDetachment a t v).isRocket1Attached = false ∧
      (s.handleComponentDetachment a t v).isRocket2Attached = false ∧
      (s.handleComponentDetachment a t v).srbDetached = true) ∧
    (¬ srbDetachCondition s a t →
      (s.handleComponentDetachment a t v).isRocket1Attached = s.isRocket1Attached ∧
      (s.handleComponentDetachment a t v).isRocket2Attached = s.isRocket2Attached ∧
      (s.handleComponentDetachment a t v).srbDetached = s.srbDetached) := by
  unfold srbDetachCondition handleComponentDetachment SRB_DETACH_TIME SRB_DETACH_ALTITUDE
  simp only [detachComponent_fuelTank, detachComponent_rocket1, detachComponent_rocket2]
  constructor
  · intro h
    split_ifs <;> simp_all
  · intro h
    split_ifs <;> simp_all

theorem handleComponentDetachment_et (s : ShuttlePhysics) (a t v : ℚ) :
    (etDetachCondition s a t v →
      (s.handleComponentDetachment a t v).isFuelTankAttached = false ∧
      (s.handleComponentDetachment a t v).fuelPercentage = 0 ∧
      (s.handleComponentDetachment a t v).etDetached = true) ∧
    (¬ etDetachCondition s a t v →
      (s.handleComponentDetachment a t v).isFuelTankAttached = s.isFuelTankAttached ∧
      (s.handleComponentDetachment a t v).fuelPercentage = s.fuelPercentage ∧
      (s.handleComponentDetachment a t v).etDetached = s.etDetached) := by
  have hv : ORBITAL_VELOCITY_LEO * 0.95 = 7410 := by norm_num [ORBITAL_VELOCITY_LEO]
  unfold etDetachCondition handleComponentDetachment FUEL_TANK_DETACH_TIME
    FUEL_TANK_DETACH_ALTITUDE FUEL_TANK_DETACH_FUEL_PERCENT
  simp only [detachComponent_fuelTank, detachComponent_rocket1, detachComponent_rocket2, hv]
  constructor
  · intro h
    split_ifs <;> simp_all
  · intro h
    split_ifs <;> simp_all

/-- C21. `handleComponentDetachment` detaches the boosters exactly when `srbDetached` is false,
booster 1 is attached, the time is at least 60 s and the altitude at least 11000 m; it then
clears both booster flags and sets `srbDetached`, and otherwise leaves the three unchanged. -/
theorem C21_srb_detachment (s : ShuttlePhysics) (a t v : ℚ) :
    ((s.isRocket1Attached = true ∧ (s.handleComponentDetachment a t v).isRocket1Attached = false)
      ↔ srbDetachCondition s a t) ∧
    (srbDetachCondition s a t →
      (s.handleComponentDetachment a t v).isRocket1Attached = false ∧
      (s.handleComponentDetachment a t v).isRocket2Attached = false ∧
      (s.handleComponentDetachment a t v).srbDetached = true) ∧
    (¬ srbDetachCondition s a t →
      (s.handleComponentDetachment a t v).isRocket1Attached = s.isRocket1Attached ∧
      (s.handleComponentDetachment a t v).isRocket2Attached = s.isRocket2Attached ∧
      (s.handleComponentDetachment a t v).srbDetached = s.srbDetached) := by
  obtain ⟨h1, h2⟩ := handleComponentDetachment_srb s a t v
  refine ⟨⟨fun h => ?_, fun h => ⟨h.2.1, (h1 h).1⟩⟩, h1, h2⟩
  by_contra hc
  have := (h2 hc).1
  rw [h.1, h.2] at this
  cases this

/-- C22. `handleComponentDetachment` detaches the external tank exactly when `etDetached` is
false, the tank is attached, the time is at least 60 s, the altitude at least 15000 m, the
speed at least 7410 m/s and the fuel at most 5 percent; it then clears the tank flag, forces
the fuel to 0 and sets `etDetached`, and otherwise leaves the three unchanged. -/
theorem C22_tank_detachment (s : ShuttlePhysics) (a t v : ℚ) :
    ((s.isFuelTankAttached = true ∧
        (s.handleComponentDetachment a t v).isFuelTankAttached = false)
      ↔ etDetachCondition s a t v) ∧
    (etDetachCondition s a t v →
      (s.handleComponentDetachment a t v).isFuelTankAttached = false ∧
      (s.handleComponentDetachment a t v).fuelPercentage = 0 ∧
      (s.handleComponentDetachment a t v).etDetached = true) ∧
    (¬ etDetachCondition s a t v →
      (s.handleComponentDetachment a t v).isFuelTankAttached = s.isFuelTankAttached ∧
      (s.handleComponentDetachment a t v).fuelPercentage = s.fuelPercentage ∧
      (s.handleComponentDetachment a t v).etDetached = s.etDetached) := by
  obtain ⟨h1, h2⟩ := handleComponentDetachment_et s a t v
  refine ⟨⟨fun h => ?_, fun h => ⟨h.2.1, (h1 h).1⟩⟩, h1, h2⟩
  by_contra hc
  have := (h2 hc).1
  rw [h.1, h.2] at this
  cases this

/-- C30. On a state with booster 1 detached and `srbDetached` false, every
`handleComponentDetachment` call and every `update` call leaves `srbDetached` false and
`isRocket2Attached` unchanged, and an update entered in `LIFTOFF` ends in `LIFTOFF`. -/
theorem C30_detachment_gated_on_rocket1 (M : JsMath) (s : ShuttlePhysics)
    (h1 : s.isRocket1Attached = false) (h2 : s.srbDetached = false) :
    (∀ a t v : ℚ, (s.handleComponentDetachment a t v).srbDetached = false ∧
      (s.handleComponentDetachment a t v).isRocket2Attached = s.isRocket2Attached) ∧
    (∀ dt : ℚ, (s.update M dt).srbDetached = false ∧
      (s.update M dt).isRocket2Attached = s.isRocket2Attached ∧
      (s.stage = LIFTOFF → (s.update M dt).stage = LIFTOFF)) := by
  have hh : ∀ (y : ShuttlePhysics), y.isRocket1Attached = false → y.srbDetached = false →
      ∀ a t v : ℚ, (y.handleComponentDetachment a t v).srbDetached = false ∧
        (y.handleComponentDetachment a t v).isRocket2Attached = y.isRocket2Attached := by
    intro y y1 y2 a t v
    have hn : ¬ srbDetachCondition y a t := by
      unfold srbDetachCondition
      rw [y1]
      simp
    obtain ⟨_, q2, q3⟩ := (handleComponentDetachment_srb y a t v).2 hn
    exact ⟨q3.trans y2, q2⟩
  refine ⟨hh s h1 h2, fun dt => ?_⟩
  by_cases hc : clampDeltaTime dt ≤ 0
  · have : s.update M dt = s := by unfold update; simp [hc]
    rw [this]
    exact ⟨h2, rfl, fun h => h⟩
  · have hy := hh ((beforeStage M s dt).updateStage M (currentAltitude M s dt)
      (clampDeltaTime dt)) (by simp [h1]) (by simp [h2])
    have hs := (update_stage_of_pos M s dt hc).1
    rw [update_eq M s dt hc]
    refine ⟨(hy _ _ _).1, ?_, fun hst => ?_⟩
    · rw [(hy _ _ _).2]
      simp
    · rw [update_eq M s dt hc] at hs
      rw [hs, updateStage_liftoff M _ _ _ (by simp [hst])]
      simp [h2]

/-! ## The two orbital end stages -/

theorem updateStage_free_space (M : JsMath) (s : ShuttlePhysics) (a dt : ℚ)
    (h : s.stage = FREE_SPACE_MOTION) : (s.updateStage M a dt).stage = FREE_SPACE_MOTION := by
  have ht : s.calculateThrust = ⟨0, 0, 0⟩ := by
    rw [calculateThrust_eq_byStage]
    simp [thrustMagnitudeByStage, h]
  unfold updateStage
  simp only [h, ht, Vector3.lengthSq]
  norm_num
  exact h

theorem updateStage_maneuvering (M : JsMath) (s : ShuttlePhysics) (a dt : ℚ)
    (h : s.stage = ORBITAL_MANEUVERING) :
    (s.updateStage M a dt).stage = ORBITAL_MANEUVERING := by
  have ht : s.calculateThrust = ⟨0, 0.001 * THRUST_MAIN_ENGINES, 0⟩ := by
    rw [calculateThrust_eq_byStage]
    simp [thrustMagnitudeByStage, h]
  unfold updateStage
  simp only [h, ht, Vector3.lengthSq, THRUST_MAIN_ENGINES]
  norm_num
  exact h

/-- C26. `FREE_SPACE_MOTION` and `ORBITAL_MANEUVERING` are both absorbing under `update`:
the thrust is the zero vector in the first and has squared length
`(0.001 * THRUST_MAIN_ENGINES)² > 0.1` in the second, whatever the fuel. -/
theorem C26_orbital_stages_absorbing (M : JsMath) (s : ShuttlePhysics) (dt : ℚ) :
    (s.stage = FREE_SPACE_MOTION →
      (s.update M dt).stage = FREE_SPACE_MOTION ∧ s.calculateThrust = ⟨0, 0, 0⟩) ∧
    (s.stage = ORBITAL_MANEUVERING →
      (s.update M dt).stage = ORBITAL_MANEUVERING ∧
      s.calculateThrust.lengthSq = (0.001 * THRUST_MAIN_ENGINES) ^ 2 ∧
      (0.001 * THRUST_MAIN_ENGINES) ^ 2 > 0.1) := by
  constructor
  · intro h
    have ht : s.calculateThrust = ⟨0, 0, 0⟩ := by
      rw [calculateThrust_eq_byStage]
      simp [thrustMagnitudeByStage, h]
    refine ⟨?_, ht⟩
    by_cases hc : clampDeltaTime dt ≤ 0
    · have : s.update M dt = s := by unfold update; simp [hc]
      rw [this]; exact h
    · rw [(update_stage_of_pos M s dt hc).1]
      exact updateStage_free_space M _ _ _ (by simp [h])
  · intro h
    have ht : s.calculateThrust = ⟨0, 0.001 * THRUST_MAIN_ENGINES, 0⟩ := by
      rw [calculateThrust_eq_byStage]
      simp [thrustMagnitudeByStage, h]
    refine ⟨?_, ?_, ?_⟩
    · by_cases hc : clampDeltaTime dt ≤ 0
      · have : s.update M dt = s := by unfold update; simp [hc]
        rw [this]; exact h
      · rw [(update_stage_of_pos M s dt hc).1]
        exact updateStage_maneuvering M _ _ _ (by simp [h])
    · rw [ht]
      unfold Vector3.lengthSq
      ring
    · norm_num [THRUST_MAIN_ENGINES]

/-! ## The fuel-depletion step -/

theorem updateFuel_burning (s : ShuttlePhysics) (t : Vector3) (dt : ℚ) (hdt : 0 < dt)
    (hst : burnsFuel s.stage = true) (hf : 0 < s.fuelPercentage) (hl : t.lengthSq > 0.1)
    (hy : t.y > 0) :
    (s.updateFuel t dt).fuelPercentage =
      max 0 (s.fuelPercentage - 100 * FUEL_CONSUMPTION_RATE * dt / FUEL_TANK_MASS) := by
  have hstage : s.stage = LIFTOFF ∨ s.stage = ATMOSPHERIC_ASCENT ∨
      s.stage = ORBITAL_INSERTION ∨ s.stage = ORBITAL_MANEUVERING := by
    revert hst
    cases s.stage <;> simp [burnsFuel]
  have hcond : s.fuelPercentage > 0 ∧ t.lengthSq > 0.1 := ⟨hf, hl⟩
  unfold updateFuel
  simp only [isNaN, isFinite, Bool.not_true, Bool.false_eq_true, or_self, if_false, hcond,
    and_self, if_true, hstage, hy, externalTankInitialTotalMass, FUEL_CONSUMPTION_RATE,
    FUEL_TANK_MASS]
  rcases le_total (460 : ℚ) (760000 * (s.fuelPercentage / 100) / dt) with h | h
  · rw [min_eq_left h]
    congr 1
    ring
  · rw [min_eq_right h]
    have e : 760000 * (s.fuelPercentage / 100) / dt * dt / 760000 * 100 = s.fuelPercentage := by
      field_simp
      ring
    rw [e, sub_self]
    have h' : 760000 * (s.fuelPercentage / 100) ≤ 460 * dt := by
      rwa [div_le_iff₀ hdt] at h
    have : s.fuelPercentage - 100 * 460 * dt / 760000 ≤ 0 := by linarith
    rw [max_eq_left this, max_self]

theorem updateFuel_not_burning (s : ShuttlePhysics) (t : Vector3) (dt : ℚ)
    (hst : burnsFuel s.stage = false) :
    (s.updateFuel t dt).fuelPercentage = s.fuelPercentage := by
  have hstage : ¬ (s.stage = LIFTOFF ∨ s.stage = ATMOSPHERIC_ASCENT ∨
      s.stage = ORBITAL_INSERTION ∨ s.stage = ORBITAL_MANEUVERING) := by
    revert hst
    cases s.stage <;> simp [burnsFuel]
  unfold updateFuel
  simp only [hstage, if_false]
  split_ifs <;> rfl

theorem beforeStage_fuel (M : JsMath) (s : ShuttlePhysics) (dt : ℚ) :
    ∃ s1 : ShuttlePhysics, s1.stage = s.stage ∧ s1.fuelPercentage = s.fuelPercentage ∧
      (beforeStage M s dt).fuelPercentage =
        (s1.updateFuel s.calculateThrust (clampDeltaTime dt)).fuelPercentage := by
  have ht : (s.updateForces M).calculateThrust = s.calculateThrust :=
    calculateThrust_congr (by simp) (by simp) (by simp) (by simp)
  refine ⟨((integrateStep M s dt).updateGroundClamp (currentAltitude M s dt)).updateSanity,
    by simp, by simp, ?_⟩
  unfold beforeStage
  rw [ht]
  simp

theorem thrust_of_burning (s : ShuttlePhysics) (hst : burnsFuel s.stage = true)
    (hf : 0 < s.fuelPercentage) :
    s.calculateThrust.lengthSq > 0.1 ∧ s.calculateThrust.y > 0 := by
  have hm : 5250 ≤ s.thrustMagnitudeByStage := by
    unfold thrustMagnitudeByStage
    revert hst
    cases s.stage <;> simp [burnsFuel, hf] <;> (try split_ifs) <;>
      norm_num [THRUST_MAIN_ENGINES, THRUST_SOLID_ROCKETS]
  rw [calculateThrust_eq_byStage]
  unfold Vector3.lengthSq
  constructor
  · show (0.1 : ℚ) < 0 * 0 + s.thrustMagnitudeByStage * s.thrustMagnitudeByStage + 0 * 0
    nlinarith
  · show (0 : ℚ) < s.thrustMagnitudeByStage
    linarith

/-- C23. For `dt > 0` and `dt' = min(dt, 0.0166)`: entered in a fuel-burning stage with
`0 < fuelPercentage ≤ 100`, the depletion step leaves
`max(0, fuelPercentage - 100 * FUEL_CONSUMPTION_RATE * dt' / FUEL_TANK_MASS)`; entered in any
other stage it leaves `fuelPercentage` unchanged; and the value after the whole update is the
value after the depletion step, unless the tank detaches in that update, when it is 0. -/
theorem C23_fuel_depletion (M : JsMath) (s : ShuttlePhysics) (dt : ℚ) (hdt : 0 < dt) :
    (burnsFuel s.stage = true → 0 < s.fuelPercentage → s.fuelPercentage ≤ 100 →
      (beforeStage M s dt).fuelPercentage =
        max 0 (s.fuelPercentage -
          100 * FUEL_CONSUMPTION_RATE * min dt 0.0166 / FUEL_TANK_MASS)) ∧
    (burnsFuel s.stage = false → (beforeStage M s dt).fuelPercentage = s.fuelPercentage) ∧
    ((s.etDetached = false ∧ (s.update M dt).etDetached = true) →
      (s.update M dt).fuelPercentage = 0) ∧
    (¬ (s.etDetached = false ∧ (s.update M dt).etDetached = true) →
      (s.update M dt).fuelPercentage = (beforeStage M s dt).fuelPercentage) := by
  obtain ⟨e, hpos⟩ := clampDeltaTime_of_pos hdt
  obtain ⟨s1, q1, q2, q3⟩ := beforeStage_fuel M s dt
  have hfire : (s.etDetached = false ∧ (s.update M dt).etDetached = true) ↔
      etDetachCondition ((beforeStage M s dt).updateStage M (currentAltitude M s dt)
        (clampDeltaTime dt)) (currentAltitude M s dt)
        ((beforeStage M s dt).updateStage M (currentAltitude M s dt) (clampDeltaTime dt)).time
        (((beforeStage M s dt).updateStage M (currentAltitude M s dt)
            (clampDeltaTime dt)).velocity.length M) := by
    rw [update_eq M s dt hpos]
    constructor
    · intro h
      by_contra hc
      have h3 := ((handleComponentDetachment_et _ _ _ _).2 hc).2.2
      rw [h.2] at h3
      simp only [updateStage_frame, beforeStage_frame] at h3
      rw [h.1] at h3
      cases h3
    · intro h
      refine ⟨?_, ((handleComponentDetachment_et _ _ _ _).1 h).2.2⟩
      have := h.1
      simpa using this
  refine ⟨fun hb hf _ => ?_, fun hb => ?_, fun h => ?_, fun h => ?_⟩
  · obtain ⟨t1, t2⟩ := thrust_of_burning s hb hf
    rw [q3, updateFuel_burning s1 _ _ (clampDeltaTime_pos hpos) (by rw [q1]; exact hb)
      (by rw [q2]; exact hf) t1 t2, q2, e]
  · rw [q3, updateFuel_not_burning s1 _ _ (by rw [q1]; exact hb), q2]
  · have hc := hfire.mp h
    rw [update_eq M s dt hpos]
    exact ((handleComponentDetachment_et _ _ _ _).1 hc).2.1
  · have hc : ¬ _ := fun hh => h (hfire.mpr hh)
    rw [update_eq M s dt hpos, ((handleComponentDetachment_et _ _ _ _).2 hc).2.1]
    simp

/-! ## Gravity and the startup thrust -/

/-- C24. For a position `p` with `|p| ≥ 1`, `calculateGravityForce(p)` is
`-(G * M * totalMass / |p|²) * (p / |p|)`, whose squared length is `(G * M * totalMass / |p|²)²`
when `|p|² ` is the squared length of `p`; for `|p| < 1` it is the zero vector.  Here `|p|` is
`p.length()`. -/
theorem C24_gravity_force (M : JsMath) (s : ShuttlePhysics) (p : Vector3) :
    (1 ≤ p.length M →
      s.calculateGravityForce M p =
        ⟨-(GRAVITY_CONSTANT * EARTH_MASS * s.calculateTotalMass / (p.length M) ^ 2) *
            (p.x / p.length M),
          -(GRAVITY_CONSTANT * EARTH_MASS * s.calculateTotalMass / (p.length M) ^ 2) *
            (p.y / p.length M),
          -(GRAVITY_CONSTANT * EARTH_MASS * s.calculateTotalMass / (p.length M) ^ 2) *
            (p.z / p.length M)⟩ ∧
      ((p.length M) ^ 2 = p.lengthSq →
        (s.calculateGravityForce M p).lengthSq =
          (GRAVITY_CONSTANT * EARTH_MASS * s.calculateTotalMass / (p.length M) ^ 2) ^ 2)) ∧
    (p.length M < 1 → s.calculateGravityForce M p = Vector3.zero) := by
  constructor
  · intro h
    have hd : (0 : ℚ) < p.length M := by linarith
    have e : s.calculateGravityForce M p =
        ⟨-(GRAVITY_CONSTANT * EARTH_MASS * s.calculateTotalMass / (p.length M) ^ 2) *
            (p.x / p.length M),
          -(GRAVITY_CONSTANT * EARTH_MASS * s.calculateTotalMass / (p.length M) ^ 2) *
            (p.y / p.length M),
          -(GRAVITY_CONSTANT * EARTH_MASS * s.calculateTotalMass / (p.length M) ^ 2) *
            (p.z / p.length M)⟩ := by
      unfold calculateGravityForce Vector3.normalize
      simp only [isNaN, isFinite, Bool.not_true, Bool.false_eq_true, or_false, not_lt.mpr h,
        if_false, hd.ne', or_self]
      unfold Vector3.divideScalar Vector3.multiplyScalar
      simp only [Vector3.mk.injEq]
      refine ⟨?_, ?_, ?_⟩ <;> (field_simp; ring)
    refine ⟨e, fun hsq => ?_⟩
    rw [e]
    unfold Vector3.lengthSq at hsq ⊢
    simp only []
    have hd2 : (p.length M) ^ 2 ≠ 0 := pow_ne_zero 2 hd.ne'
    generalize GRAVITY_CONSTANT * EARTH_MASS * s.calculateTotalMass / (p.length M) ^ 2 = g
    have : p.x / p.length M * (p.x / p.length M) + p.y / p.length M * (p.y / p.length M)
        + p.z / p.length M * (p.z / p.length M) = 1 := by
      field_simp
      nlinarith [hsq]
    linear_combination g ^ 2 * this
  · intro h
    unfold calculateGravityForce
    simp [h]

theorem updateForces_startup_grounded (M : JsMath) (s : ShuttlePhysics)
    (h : s.stage = ENGINE_STARTUP) (ha : s.position.y - EARTH_RADIUS ≤ 0) :
    (s.updateForces M).position = s.position.setY EARTH_RADIUS ∧
    (s.updateForces M).velocity = { s.velocity with y := max 0 s.velocity.y } ∧
    (s.updateForces M).force =
      (Vector3.mk 0 0 0).add (s.calculateGravityForce M s.position) := by
  have hn : ¬ (s.position.y - EARTH_RADIUS > 0 ∧
      s.position.y - EARTH_RADIUS < ATMOSPHERE_HEIGHT) := fun hh => absurd hh.1 (not_lt.mpr ha)
  refine ⟨?_, ?_, ?_⟩
  all_goals
    unfold updateForces
    simp only [h, ha, hn, if_false, if_true, and_self, reduceCtorEq]
    try rfl

theorem startupAcceleration_nonneg : 0 ≤ startupAcceleration := by
  unfold startupAcceleration
  norm_num [THRUST_ENGINE_STARTUP, GRAVITY_CONSTANT, EARTH_MASS, EARTH_RADIUS]

theorem startup_first_step (M : JsMath) (hM : SqrtExact M) (dt : ℚ) :
    (integrateStep M (ShuttlePhysics.new.setStage ENGINE_STARTUP) dt).acceleration =
        ⟨0, startupAcceleration, 0⟩ ∧
    (integrateStep M (ShuttlePhysics.new.setStage ENGINE_STARTUP) dt).velocity =
        ⟨0, startupAcceleration * clampDeltaTime dt, 0⟩ ∧
    (integrateStep M (ShuttlePhysics.new.setStage ENGINE_STARTUP) dt).position =
        ⟨0, EARTH_RADIUS + startupAcceleration * clampDeltaTime dt * clampDeltaTime dt, 0⟩ := by
  have hst : (ShuttlePhysics.new.setStage ENGINE_STARTUP).stage = ENGINE_STARTUP := rfl
  have hpos : (ShuttlePhysics.new.setStage ENGINE_STARTUP).position = ⟨0, EARTH_RADIUS, 0⟩ := rfl
  have hvel : (ShuttlePhysics.new.setStage ENGINE_STARTUP).velocity = ⟨0, 0, 0⟩ := rfl
  obtain ⟨f1, f2, f3⟩ := updateForces_startup_grounded M
    (ShuttlePhysics.new.setStage ENGINE_STARTUP) hst (by rw [hpos]; norm_num)
  obtain ⟨i1, i2, i3⟩ := updateIntegrate_eq
    ((ShuttlePhysics.new.setStage ENGINE_STARTUP).updateForces M)
    ((ShuttlePhysics.new.setStage ENGINE_STARTUP).updateForces M).calculateThrust
    (clampDeltaTime dt)
  have ht : ((ShuttlePhysics.new.setStage ENGINE_STARTUP).updateForces M).calculateThrust =
      ⟨0, THRUST_ENGINE_STARTUP, 0⟩ := by
    rw [calculateThrust_eq_byStage]
    simp [thrustMagnitudeByStage, hst]
  have hm0 : (ShuttlePhysics.new.setStage ENGINE_STARTUP).calculateTotalMass = 2050000 := by
    norm_num [calculateTotalMass, setStage, ShuttlePhysics.new, shuttleDryMass,
      externalTankInitialTotalMass, srbInitialTotalMass, SHUTTLE_MASS, FUEL_TANK_MASS,
      ROCKET_MASS]
  have hm : ((ShuttlePhysics.new.setStage ENGINE_STARTUP).updateForces M).calculateTotalMass =
      2050000 := by
    rw [← hm0]
    exact calculateTotalMass_congr (by simp) (by simp) (by simp) (by simp)
  have hg := calculateGravityForce_vertical M hM (ShuttlePhysics.new.setStage ENGINE_STARTUP)
    ⟨0, EARTH_RADIUS, 0⟩ rfl rfl (by norm_num [EARTH_RADIUS])
  rw [hm0] at hg
  unfold integrateStep
  rw [i1, i2, i3, f1, f2, f3, ht, hm, hpos, hvel, hg]
  unfold startupAcceleration Vector3.add Vector3.divideScalar Vector3.multiplyScalar
    Vector3.addScaledVector Vector3.setY
  simp only [Vector3.mk.injEq, zero_mul, add_zero, zero_add, mul_zero, max_self, true_and,
    and_true]
  refine ⟨?_, ?_, ?_⟩ <;> ring

/-- C25. The startup thrust `(110000 + 760000 + 2 * 590000) * 9.81 * 1.005` is at least the
gravity force on the fully loaded vehicle (2050000 kg) at the surface position, and for the
constructed engine after `setStage(ENGINE_STARTUP)` the first `update(dt)` with `dt > 0` ends
with `acceleration.y ≥ 0`, `velocity.y ≥ 0` and an altitude `≥ 0`. -/
theorem C25_startup_thrust_holds_vehicle (M : JsMath) (hM : SqrtExact M) :
    (THRUST_ENGINE_STARTUP = (110000 + 760000 + 2 * 590000) * 9.81 * 1.005 ∧
      ShuttlePhysics.new.calculateTotalMass = 2050000 ∧
      ShuttlePhysics.new.calculateGravityForce M ⟨0, EARTH_RADIUS, 0⟩ =
        ⟨0, -(GRAVITY_CONSTANT * EARTH_MASS * 2050000 / (EARTH_RADIUS * EARTH_RADIUS)), 0⟩ ∧
      GRAVITY_CONSTANT * EARTH_MASS * 2050000 / (EARTH_RADIUS * EARTH_RADIUS) ≤
        THRUST_ENGINE_STARTUP) ∧
    (∀ dt : ℚ, 0 < dt →
      0 ≤ ((ShuttlePhysics.new.setStage ENGINE_STARTUP).update M dt).acceleration.y ∧
      0 ≤ ((ShuttlePhysics.new.setStage ENGINE_STARTUP).update M dt).velocity.y ∧
      0 ≤ ((ShuttlePhysics.new.setStage ENGINE_STARTUP).update M dt).altitude) := by
  have hm0 : ShuttlePhysics.new.calculateTotalMass = 2050000 := by
    norm_num [calculateTotalMass, ShuttlePhysics.new, shuttleDryMass,
      externalTankInitialTotalMass, srbInitialTotalMass, SHUTTLE_MASS, FUEL_TANK_MASS,
      ROCKET_MASS]
  have hg := calculateGravityForce_vertical M hM ShuttlePhysics.new
    ⟨0, EARTH_RADIUS, 0⟩ rfl rfl (by norm_num [EARTH_RADIUS])
  rw [hm0] at hg
  refine ⟨⟨rfl, hm0, hg, ?_⟩, fun dt hdt => ?_⟩
  · norm_num [THRUST_ENGINE_STARTUP, GRAVITY_CONSTANT, EARTH_MASS, EARTH_RADIUS]
  · obtain ⟨_, hpos⟩ := clampDeltaTime_of_pos hdt
    have hc := clampDeltaTime_pos hpos
    obtain ⟨k1, k2, k3⟩ := update_kinematics M (ShuttlePhysics.new.setStage ENGINE_STARTUP) dt
      hpos
    obtain ⟨a1, a2, a3⟩ := startup_first_step M hM dt
    have hA := startupAcceleration_nonneg
    have halt : ¬ currentAltitude M (ShuttlePhysics.new.setStage ENGINE_STARTUP) dt < -1 := by
      unfold currentAltitude
      rw [a3]
      show ¬ (EARTH_RADIUS + startupAcceleration * clampDeltaTime dt * clampDeltaTime dt
        - EARTH_RADIUS < -1)
      have : 0 ≤ startupAcceleration * clampDeltaTime dt * clampDeltaTime dt := by positivity
      linarith
    rw [updateGroundClamp_no_snap _ _ halt] at k1 k2 k3
    unfold altitude
    rw [k1, k2, k3, a1, a2, a3]
    refine ⟨hA, ?_, ?_⟩
    · show 0 ≤ startupAcceleration * clampDeltaTime dt
      positivity
    · show 0 ≤ EARTH_RADIUS + startupAcceleration * clampDeltaTime dt * clampDeltaTime dt
        - EARTH_RADIUS
      have : 0 ≤ startupAcceleration * clampDeltaTime dt * clampDeltaTime dt := by positivity
      linarith

/-! ## Motion along the vertical axis -/

theorem calculateGravityForce_xz (M : JsMath) (s : ShuttlePhysics) (p : Vector3)
    (hx : p.x = 0) (hz : p.z = 0) :
    (s.calculateGravityForce M p).x = 0 ∧ (s.calculateGravityForce M p).z = 0 := by
  unfold calculateGravityForce
  dsimp only
  split_ifs <;>
    simp [Vector3.zero, Vector3.normalize, Vector3.divideScalar, Vector3.multiplyScalar, hx, hz]

theorem calculateAirResistance_xz (M : JsMath) (v : Vector3) (a : ℚ)
    (hx : v.x = 0) (hz : v.z = 0) :
    (calculateAirResistance M v a).x = 0 ∧ (calculateAirResistance M v a).z = 0 := by
  unfold calculateAirResistance
  dsimp only
  split_ifs <;>
    simp [Vector3.zero, Vector3.normalize, Vector3.divideScalar, Vector3.multiplyScalar, hx, hz]

theorem updateForces_xz (M : JsMath) (s : ShuttlePhysics)
    (hpx : s.position.x = 0) (hpz : s.position.z = 0)
    (hvx : s.velocity.x = 0) (hvz : s.velocity.z = 0) :
    (s.updateForces M).position.x = 0 ∧ (s.updateForces M).position.z = 0 ∧
    (s.updateForces M).velocity.x = 0 ∧ (s.updateForces M).velocity.z = 0 ∧
    (s.updateForces M).force.x = 0 ∧ (s.updateForces M).force.z = 0 := by
  have hg : ({ s with force := s.force.set 0 0 0 } : ShuttlePhysics).calculateGravityForce M
      s.position = s.calculateGravityForce M s.position := rfl
  obtain ⟨g1, g2⟩ := calculateGravityForce_xz M s s.position hpx hpz
  obtain ⟨d1, d2⟩ := calculateAirResistance_xz M s.velocity (s.position.y - EARTH_RADIUS)
    hvx hvz
  unfold updateForces
  simp only [hg]
  split_ifs <;>
    simp [Vector3.add, Vector3.set, Vector3.setY, calculateNormalForce, hpx, hpz, hvx, hvz,
      g1, g2, d1, d2]

theorem updateGroundClamp_xz (s : ShuttlePhysics) (a : ℚ) :
    (s.updateGroundClamp a).position.x = s.position.x ∧
    (s.updateGroundClamp a).position.z = s.position.z ∧
    (s.updateGroundClamp a).velocity.x = s.velocity.x ∧
    (s.updateGroundClamp a).velocity.z = s.velocity.z ∧
    (s.updateGroundClamp a).acceleration.x = s.acceleration.x ∧
    (s.updateGroundClamp a).acceleration.z = s.acceleration.z := by
  unfold updateGroundClamp
  dsimp only
  split_ifs <;> exact ⟨rfl, rfl, rfl, rfl, rfl, rfl⟩

theorem integrateStep_xz (M : JsMath) (s : ShuttlePhysics) (dt : ℚ)
    (hpx : s.position.x = 0) (hpz : s.position.z = 0)
    (hvx : s.velocity.x = 0) (hvz : s.velocity.z = 0) :
    (integrateStep M s dt).position.x = 0 ∧ (integrateStep M s dt).position.z = 0 ∧
    (integrateStep M s dt).velocity.x = 0 ∧ (integrateStep M s dt).velocity.z = 0 ∧
    (integrateStep M s dt).acceleration.x = 0 ∧ (integrateStep M s dt).acceleration.z = 0 := by
  obtain ⟨p1, p2, v1, v2, f1, f2⟩ := updateForces_xz M s hpx hpz hvx hvz
  obtain ⟨i1, i2, i3⟩ := updateIntegrate_eq (s.updateForces M)
    (s.updateForces M).calculateThrust (clampDeltaTime dt)
  have ht := calculateThrust_eq_byStage (s.updateForces M)
  unfold integrateStep
  rw [i1, i2, i3, ht]
  simp [Vector3.add, Vector3.divideScalar, Vector3.multiplyScalar, Vector3.addScaledVector,
    p1, p2, v1, v2, f1, f2]

theorem update_xz (M : JsMath) (s : ShuttlePhysics) (dt : ℚ)
    (h : s.position.x = 0 ∧ s.position.z = 0 ∧ s.velocity.x = 0 ∧ s.velocity.z = 0 ∧
      s.acceleration.x = 0 ∧ s.acceleration.z = 0) :
    (s.update M dt).position.x = 0 ∧ (s.update M dt).position.z = 0 ∧
    (s.update M dt).velocity.x = 0 ∧ (s.update M dt).velocity.z = 0 ∧
    (s.update M dt).acceleration.x = 0 ∧ (s.update M dt).acceleration.z = 0 := by
  by_cases hc : clampDeltaTime dt ≤ 0
  · have : s.update M dt = s := by unfold update; simp [hc]
    rw [this]; exact h
  · obtain ⟨k1, k2, k3⟩ := update_kinematics M s dt hc
    obtain ⟨c1, c2, c3, c4, c5, c6⟩ := updateGroundClamp_xz (integrateStep M s dt)
      (currentAltitude M s dt)
    obtain ⟨j1, j2, j3, j4, j5, j6⟩ := integrateStep_xz M s dt h.1 h.2.1 h.2.2.1 h.2.2.2.1
    rw [k1, k2, k3, c1, c2, c3, c4, c5, c6]
    exact ⟨j1, j2, j3, j4, j5, j6⟩

theorem reachable_xz (M : JsMath) (s : ShuttlePhysics) (h : Reachable M s) :
    s.position.x = 0 ∧ s.position.z = 0 ∧ s.velocity.x = 0 ∧ s.velocity.z = 0 ∧
      s.acceleration.x = 0 ∧ s.acceleration.z = 0 := by
  induction h with
  | new => exact ⟨rfl, rfl, rfl, rfl, rfl, rfl⟩
  | update dt _ ih => exact update_xz M _ dt ih
  | setStage st _ ih => simpa using ih

/-- C27. In every state reachable from the constructor by `update` and `setStage` calls the
x and z components of position, velocity and acceleration are zero, as are those of the
gravity, drag, normal and thrust forces there; and (for a square root exact on squares) the
speed `velocity.length()` is `|velocity.y|`. -/
theorem C27_motion_along_y (M : JsMath) (s : ShuttlePhysics) (h : Reachable M s) :
    (s.position.x = 0 ∧ s.position.z = 0 ∧ s.velocity.x = 0 ∧ s.velocity.z = 0 ∧
      s.acceleration.x = 0 ∧ s.acceleration.z = 0) ∧
    ((s.calculateGravityForce M s.position).x = 0 ∧
      (s.calculateGravityForce M s.position).z = 0 ∧
      (calculateAirResistance M s.velocity s.altitude).x = 0 ∧
      (calculateAirResistance M s.velocity s.altitude).z = 0 ∧
      s.calculateNormalForce.x = 0 ∧ s.calculateNormalForce.z = 0 ∧
      s.calculateThrust.x = 0 ∧ s.calculateThrust.z = 0) ∧
    (SqrtExact M → s.velocity.length M = |s.velocity.y|) := by
  have hxz := reachable_xz M s h
  obtain ⟨px, pz, vx, vz, _, _⟩ := reachable_xz M s h
  obtain ⟨g1, g2⟩ := calculateGravityForce_xz M s s.position px pz
  obtain ⟨d1, d2⟩ := calculateAirResistance_xz M s.velocity s.altitude vx vz
  refine ⟨hxz, ⟨g1, g2, d1, d2, rfl, rfl, ?_, ?_⟩, fun hM => ?_⟩
  · rw [calculateThrust_eq_byStage]
  · rw [calculateThrust_eq_byStage]
  · unfold Vector3.length
    rw [vx, vz]
    simp only [mul_zero, zero_add, add_zero]
    rw [← abs_mul_abs_self]
    exact hM _ (abs_nonneg _)

/-! ## Latches and attachment flags -/

theorem handleComponentDetachment_latches (s : ShuttlePhysics) (a t v : ℚ)
    (h1 : s.srbDetached = true ↔ (s.isRocket1Attached = false ∧ s.isRocket2Attached = false))
    (h2 : s.isRocket1Attached = s.isRocket2Attached)
    (h3 : s.etDetached = true ↔ s.isFuelTankAttached = false)
    (h4 : s.etDetached = true → s.fuelPercentage = 0) :
    ((s.handleComponentDetachment a t v).srbDetached = true ↔
      ((s.handleComponentDetachment a t v).isRocket1Attached = false ∧
        (s.handleComponentDetachment a t v).isRocket2Attached = false)) ∧
    (s.handleComponentDetachment a t v).isRocket1Attached =
      (s.handleComponentDetachment a t v).isRocket2Attached ∧
    ((s.handleComponentDetachment a t v).etDetached = true ↔
      (s.handleComponentDetachment a t v).isFuelTankAttached = false) ∧
    ((s.handleComponentDetachment a t v).etDetached = true →
      (s.handleComponentDetachment a t v).fuelPercentage = 0) := by
  unfold handleComponentDetachment
  simp only [detachComponent_fuelTank, detachComponent_rocket1, detachComponent_rocket2]
  split_ifs <;> simp_all

theorem updateFuel_of_nonpos (s : ShuttlePhysics) (t : Vector3) (dt : ℚ)
    (h : s.fuelPercentage ≤ 0) : (s.updateFuel t dt).fuelPercentage = s.fuelPercentage := by
  unfold updateFuel
  simp [not_lt.mpr h]

theorem update_latches (M : JsMath) (s : ShuttlePhysics) (dt : ℚ)
    (h : (s.srbDetached = true ↔ (s.isRocket1Attached = false ∧ s.isRocket2Attached = false)) ∧
      s.isRocket1Attached = s.isRocket2Attached ∧
      (s.etDetached = true ↔ s.isFuelTankAttached = false) ∧
      (s.etDetached = true → s.fuelPercentage = 0)) :
    ((s.update M dt).srbDetached = true ↔
      ((s.update M dt).isRocket1Attached = false ∧ (s.update M dt).isRocket2Attached = false)) ∧
    (s.update M dt).isRocket1Attached = (s.update M dt).isRocket2Attached ∧
    ((s.update M dt).etDetached = true ↔ (s.update M dt).isFuelTankAttached = false) ∧
    ((s.update M dt).etDetached = true → (s.update M dt).fuelPercentage = 0) := by
  by_cases hc : clampDeltaTime dt ≤ 0
  · have : s.update M dt = s := by unfold update; simp [hc]
    rw [this]; exact h
  · obtain ⟨h1, h2, h3, h4⟩ := h
    rw [update_eq M s dt hc]
    apply handleComponentDetachment_latches
    · simpa using h1
    · simpa using h2
    · simpa using h3
    · intro het
      have het' : s.etDetached = true := by simpa using het
      obtain ⟨s1, _, q2, q3⟩ := beforeStage_fuel M s dt
      have hf := h4 het'
      simp only [updateStage_frame]
      rw [q3, updateFuel_of_nonpos s1 _ _ (by rw [q2, hf]), q2, hf]

/-- C28. In every state reachable from the constructor by `update` and `setStage` calls:
`srbDetached` holds exactly when both booster flags are false, the two booster flags are
equal, `etDetached` holds exactly when the tank flag is false, and `etDetached` implies
`fuelPercentage = 0`. -/
theorem C28_latches_agree_with_flags (M : JsMath) (s : ShuttlePhysics) (h : Reachable M s) :
    (s.srbDetached = true ↔ (s.isRocket1Attached = false ∧ s.isRocket2Attached = false)) ∧
    s.isRocket1Attached = s.isRocket2Attached ∧
    (s.etDetached = true ↔ s.isFuelTankAttached = false) ∧
    (s.etDetached = true → s.fuelPercentage = 0) := by
  induction h with
  | new => simp [ShuttlePhysics.new]
  | update dt _ ih => exact update_latches M _ dt ih
  | setStage st _ ih => simpa using ih

/-! ## The startup countdown at the driver's frame rate -/

theorem runUpdates_replicate_succ (M : JsMath) (s : ShuttlePhysics) (n : ℕ) (d : ℚ) :
    runUpdates M s (List.replicate (n + 1) d) =
      (runUpdates M s (List.replicate n d)).update M d := by
  unfold runUpdates
  rw [List.replicate_succ', List.foldl_append]
  rfl

theorem update_startup_sixtieth (M : JsMath) (s : ShuttlePhysics)
    (h : s.stage = ENGINE_STARTUP) :
    (s.update M (1 / 60)).engineStartupTimer = s.engineStartupTimer + 0.0166 ∧
    (s.update M (1 / 60)).stage =
      if s.engineStartupTimer + 0.0166 ≥ ENGINE_STARTUP_DURATION then LIFTOFF
      else ENGINE_STARTUP := by
  have hc : ¬ clampDeltaTime (1 / 60) ≤ 0 := by
    rw [clampDeltaTime_sixtieth]; norm_num
  have ut := (update_clocks M s (1 / 60) hc).2
  have us := (update_stage_of_pos M s (1 / 60) hc).1
  have hb : (beforeStage M s (1 / 60)).stage = ENGINE_STARTUP := by simp [h]
  have hbt := (beforeStage_clocks M s (1 / 60)).2
  rw [if_pos h, clampDeltaTime_sixtieth] at ut hbt
  rw [updateStage_startup M _ _ _ hb, hbt] at us
  exact ⟨ut, us⟩

theorem startup_countdown (M : JsMath) (n : ℕ) (hn : n ≤ 180) :
    (runUpdates M (ShuttlePhysics.new.setStage ENGINE_STARTUP)
        (List.replicate n (1 / 60))).stage = ENGINE_STARTUP ∧
    (runUpdates M (ShuttlePhysics.new.setStage ENGINE_STARTUP)
        (List.replicate n (1 / 60))).engineStartupTimer = n * 0.0166 := by
  induction n with
  | zero =>
    refine ⟨rfl, ?_⟩
    show (0 : ℚ) = _
    simp
  | succ k ih =>
    obtain ⟨i1, i2⟩ := ih (by omega)
    obtain ⟨u1, u2⟩ := update_startup_sixtieth M _ i1
    rw [runUpdates_replicate_succ, u1, u2, i2]
    have hk : ((k : ℚ) + 1) ≤ 180 := by exact_mod_cast hn
    constructor
    · rw [if_neg]
      unfold ENGINE_STARTUP_DURATION
      norm_num
      linarith
    · push_cast
      ring

/-- C29. From the constructed engine after `setStage(ENGINE_STARTUP)`, with `update(1/60)`
repeated, each step is clamped to 0.0166 s: the stage is `ENGINE_STARTUP` after each of the
first 180 updates and `LIFTOFF` after the 181st, since `180 * 0.0166 < 3 ≤ 181 * 0.0166`. -/
theorem C29_liftoff_on_update_181 (M : JsMath) :
    clampDeltaTime (1 / 60) = 0.0166 ∧
    (∀ n : ℕ, n ≤ 180 →
      (runUpdates M (ShuttlePhysics.new.setStage ENGINE_STARTUP)
          (List.replicate n (1 / 60))).stage = ENGINE_STARTUP) ∧
    (runUpdates M (ShuttlePhysics.new.setStage ENGINE_STARTUP)
        (List.replicate 181 (1 / 60))).stage = LIFTOFF ∧
    ((180 : ℚ) * 0.0166 < ENGINE_STARTUP_DURATION ∧
      ENGINE_STARTUP_DURATION ≤ (181 : ℚ) * 0.0166) := by
  refine ⟨clampDeltaTime_sixtieth, fun n hn => (startup_countdown M n hn).1, ?_, ?_⟩
  · obtain ⟨i1, i2⟩ := startup_countdown M 180 (le_refl _)
    obtain ⟨_, u2⟩ := update_startup_sixtieth M _ i1
    rw [runUpdates_replicate_succ, u2, i2, if_pos]
    unfold ENGINE_STARTUP_DURATION
    norm_num
  · unfold ENGINE_STARTUP_DURATION
    norm_num

theorem surface_length :
    (Vector3.mk 0 EARTH_RADIUS 0).length refMath = EARTH_RADIUS := by
  unfold Vector3.length
  simp only [mul_zero, zero_add, add_zero]
  exact refMath_sqrtExact _ (by norm_num [EARTH_RADIUS])

/-! ## Instances of the theorems at concrete states -/

theorem C2_attachment_flags_never_revert_witness :
    (ShuttlePhysics.new.detachComponent "rocket1").isRocket1Attached = false ∧
      (runOps refMath (ShuttlePhysics.new.detachComponent "rocket1")
        [Op.update (1 / 60), Op.setStage LIFTOFF,
          Op.handleComponentDetachment 12000 61 100]).isRocket1Attached = false :=
  ⟨by simp [ShuttlePhysics.new],
    ((C2_attachment_flags_never_revert refMath
      (ShuttlePhysics.new.detachComponent "rocket1")).2
        [Op.update (1 / 60), Op.setStage LIFTOFF,
          Op.handleComponentDetachment 12000 61 100]).2.1 (by simp [ShuttlePhysics.new])⟩

theorem C3_fuel_within_bounds_witness :
    (0 ≤ (ShuttlePhysics.new.setStage LIFTOFF).fuelPercentage ∧
      (ShuttlePhysics.new.setStage LIFTOFF).fuelPercentage ≤ 100) ∧
    (0 ≤ ((ShuttlePhysics.new.setStage LIFTOFF).update refMath (1 / 60)).fuelPercentage ∧
      ((ShuttlePhysics.new.setStage LIFTOFF).update refMath (1 / 60)).fuelPercentage ≤ 100) :=
  ⟨by norm_num [ShuttlePhysics.new],
    (C3_fuel_within_bounds refMath).1 (ShuttlePhysics.new.setStage LIFTOFF) (1 / 60)
      (by norm_num [ShuttlePhysics.new]) (by norm_num [ShuttlePhysics.new])⟩

theorem C4_calculateTotalMass_positive_witness :
    (0 ≤ ShuttlePhysics.new.fuelPercentage ∧ ShuttlePhysics.new.fuelPercentage ≤ 100) ∧
    (ShuttlePhysics.new.calculateTotalMass = ShuttlePhysics.new.massSum ∧
      110000 ≤ ShuttlePhysics.new.calculateTotalMass ∧
      ShuttlePhysics.new.calculateTotalMass ≤ 2050000) :=
  ⟨by norm_num [ShuttlePhysics.new],
    (C4_calculateTotalMass_positive ShuttlePhysics.new).2.2.2
      (by norm_num [ShuttlePhysics.new]) (by norm_num [ShuttlePhysics.new])⟩

theorem C5_first_idle_update_moves_witness :
    SqrtExact refMath ∧
      (ShuttlePhysics.new.update refMath (1 / 60)).velocity ≠ ShuttlePhysics.new.velocity ∧
      (ShuttlePhysics.new.update refMath (1 / 60)).position ≠ ShuttlePhysics.new.position :=
  ⟨refMath_sqrtExact, (C5_first_idle_update_moves refMath refMath_sqrtExact).2.2.2⟩

theorem C6_altitude_never_below_epsilon_witness :
    SqrtExact refMath ∧
      -(1 / 100000) ≤ (runUpdates refMath ShuttlePhysics.new [1 / 60, 1 / 60, 5, -1]).altitude :=
  ⟨refMath_sqrtExact,
    C6_altitude_never_below_epsilon refMath refMath_sqrtExact [1 / 60, 1 / 60, 5, -1]⟩

theorem C7_update_nonpositive_dt_noop_witness :
    (-1 : ℚ) ≤ 0 ∧
      (ShuttlePhysics.new.setStage LIFTOFF).update refMath (-1) =
        ShuttlePhysics.new.setStage LIFTOFF :=
  ⟨by norm_num,
    C7_update_nonpositive_dt_noop refMath (ShuttlePhysics.new.setStage LIFTOFF) (-1)
      (by norm_num)⟩

theorem C8_handleComponentDetachment_idempotent_witness :
    ({ ShuttlePhysics.new with srbDetached := true, etDetached := true } :
        ShuttlePhysics).handleComponentDetachment 20000 100 8000 =
      { ShuttlePhysics.new with srbDetached := true, etDetached := true } :=
  (C8_handleComponentDetachment_idempotent
    { ShuttlePhysics.new with srbDetached := true, etDetached := true } 20000 100 8000).2.1 rfl rfl

theorem C9_total_mass_non_increasing_witness :
    (0 ≤ (ShuttlePhysics.new.setStage LIFTOFF).fuelPercentage ∧
      (ShuttlePhysics.new.setStage LIFTOFF).fuelPercentage ≤ 100) ∧
    (((ShuttlePhysics.new.setStage LIFTOFF).update refMath (1 / 60)).calculateTotalMass ≤
        (ShuttlePhysics.new.setStage LIFTOFF).calculateTotalMass ∧
      0 < ((ShuttlePhysics.new.setStage LIFTOFF).update refMath (1 / 60)).calculateTotalMass) :=
  ⟨by norm_num [ShuttlePhysics.new],
    C9_total_mass_non_increasing refMath (ShuttlePhysics.new.setStage LIFTOFF) (1 / 60)
      (by norm_num [ShuttlePhysics.new]) (by norm_num [ShuttlePhysics.new])⟩

theorem C10_fuel_non_increasing_witness :
    0 ≤ (ShuttlePhysics.new.setStage LIFTOFF).fuelPercentage ∧
      ((ShuttlePhysics.new.setStage LIFTOFF).update refMath (1 / 60)).fuelPercentage ≤
        (ShuttlePhysics.new.setStage LIFTOFF).fuelPercentage :=
  ⟨by norm_num [ShuttlePhysics.new],
    (C10_fuel_non_increasing refMath (ShuttlePhysics.new.setStage LIFTOFF) (1 / 60)
      (by norm_num [ShuttlePhysics.new])).1⟩

theorem C14_tower_tilt_once_witness :
    padState.launchPad = some ⟨true, false, 0, 0⟩ ∧
      (runUpdates refMath (padState.setStage ENGINE_STARTUP) [1 / 60, 1 / 60]).tiltTowerCalls ≤
        0 + 1 :=
  ⟨rfl, (C14_tower_tilt_once refMath padState ⟨true, false, 0, 0⟩ rfl rfl [1 / 60, 1 / 60]).2.1⟩

theorem C15_liftoff_transition_witness :
    (ShuttlePhysics.new.setStage LIFTOFF).stage = LIFTOFF ∧
      (ShuttlePhysics.new.setStage LIFTOFF).srbDetached = false ∧
      ((ShuttlePhysics.new.setStage LIFTOFF).update refMath (1 / 60)).stage = LIFTOFF :=
  ⟨rfl, rfl,
    ((C15_liftoff_transition refMath (ShuttlePhysics.new.setStage LIFTOFF) (1 / 60) rfl).1
      rfl).1⟩

theorem C16_update_advances_time_witness :
    (0 : ℚ) < 1 / 60 ∧
      (ShuttlePhysics.new.update refMath (1 / 60)).time =
        ShuttlePhysics.new.time + min (1 / 60) 0.0166 ∧
      ShuttlePhysics.new.time ≤ (ShuttlePhysics.new.update refMath (1 / 60)).time ∧
      ShuttlePhysics.new.time ≤ timeAfterUpdateDouble ShuttlePhysics.new (1 / 60) :=
  ⟨by norm_num,
    (C16_update_advances_time refMath ShuttlePhysics.new (1 / 60) (by norm_num)).1,
    (C16_update_advances_time refMath ShuttlePhysics.new (1 / 60) (by norm_num)).2.1,
    (C16_update_advances_time refMath ShuttlePhysics.new (1 / 60) (by norm_num)).2.2
      (le_refl _) (by simp [roundDouble, ShuttlePhysics.new])⟩

theorem C17_calculateThrust_by_stage_witness :
    coastingState.fuelPercentage ≤ 0 ∧ coastingState.stage = ATMOSPHERIC_ASCENT ∧
      coastingState.calculateThrust = ⟨0, 0, 0⟩ :=
  ⟨le_refl _, rfl, ((C17_calculateThrust_by_stage coastingState).2.2 (le_refl _)).1 rfl⟩

theorem C18_startup_timer_witness :
    (0 : ℚ) < 1 / 60 ∧ (ShuttlePhysics.new.setStage ENGINE_STARTUP).stage = ENGINE_STARTUP ∧
      ((ShuttlePhysics.new.setStage ENGINE_STARTUP).update refMath (1 / 60)).engineStartupTimer =
        (ShuttlePhysics.new.setStage ENGINE_STARTUP).engineStartupTimer + min (1 / 60) 0.0166 :=
  ⟨by norm_num, rfl,
    ((C18_startup_timer refMath (ShuttlePhysics.new.setStage ENGINE_STARTUP) (1 / 60)
      (by norm_num)).1 rfl).1⟩

theorem C19_airborne_integration_witness :
    (0 : ℚ) < 1 / 60 ∧ coastingState.stage ≠ IDLE ∧ 0 < coastingState.altitude ∧
      ¬ currentAltitude refMath coastingState (1 / 60) < -1 ∧
      (coastingState.update refMath (1 / 60)).acceleration =
        airborneAcceleration refMath coastingState :=
  ⟨by norm_num, by simp [coastingState],
    by norm_num [coastingState, altitude, EARTH_RADIUS], coastingState_no_snap,
    (C19_airborne_integration refMath coastingState (1 / 60) (by norm_num)
      (by simp [coastingState]) (by norm_num [coastingState, altitude, EARTH_RADIUS])
      coastingState_no_snap).1⟩

theorem C20_ground_clamp_witness :
    (0 : ℚ) < 1 / 60 ∧ (ShuttlePhysics.new.setStage LIFTOFF).stage ≠ IDLE ∧
      -1 ≤ ((ShuttlePhysics.new.setStage LIFTOFF).update refMath (1 / 60)).altitude :=
  ⟨by norm_num, by simp [setStage],
    (C20_ground_clamp refMath (ShuttlePhysics.new.setStage LIFTOFF) (1 / 60) (by norm_num)
      (by simp [setStage])).1⟩

theorem C21_srb_detachment_witness :
    srbDetachCondition ShuttlePhysics.new 12000 61 ∧
      (ShuttlePhysics.new.handleComponentDetachment 12000 61 100).isRocket1Attached = false ∧
      (ShuttlePhysics.new.handleComponentDetachment 12000 61 100).isRocket2Attached = false ∧
      (ShuttlePhysics.new.handleComponentDetachment 12000 61 100).srbDetached = true :=
  ⟨⟨rfl, rfl, by norm_num, by norm_num⟩,
    (C21_srb_detachment ShuttlePhysics.new 12000 61 100).2.1
      ⟨rfl, rfl, by norm_num, by norm_num⟩⟩

theorem C22_tank_detachment_witness :
    etDetachCondition coastingState 120000 500 7500 ∧
      (coastingState.handleComponentDetachment 120000 500 7500).isFuelTankAttached = false ∧
      (coastingState.handleComponentDetachment 120000 500 7500).fuelPercentage = 0 ∧
      (coastingState.handleComponentDetachment 120000 500 7500).etDetached = true :=
  ⟨⟨rfl, rfl, by norm_num, by norm_num, by norm_num, by norm_num [coastingState]⟩,
    (C22_tank_detachment coastingState 120000 500 7500).2.1
      ⟨rfl, rfl, by norm_num, by norm_num, by norm_num, by norm_num [coastingState]⟩⟩

theorem C30_detachment_gated_on_rocket1_witness :
    ((ShuttlePhysics.new.detachComponent "rocket1").setStage LIFTOFF).isRocket1Attached = false ∧
      ((ShuttlePhysics.new.detachComponent "rocket1").setStage LIFTOFF).srbDetached = false ∧
      ((((ShuttlePhysics.new.detachComponent "rocket1").setStage LIFTOFF).update refMath
        (1 / 60)).srbDetached = false) :=
  ⟨by simp, by simp [ShuttlePhysics.new],
    ((C30_detachment_gated_on_rocket1 refMath
      ((ShuttlePhysics.new.detachComponent "rocket1").setStage LIFTOFF) (by simp)
      (by simp [ShuttlePhysics.new])).2 (1 / 60)).1⟩

theorem C23_fuel_depletion_witness :
    (0 : ℚ) < 1 / 60 ∧ burnsFuel (ShuttlePhysics.new.setStage LIFTOFF).stage = true ∧
      (beforeStage refMath (ShuttlePhysics.new.setStage LIFTOFF) (1 / 60)).fuelPercentage =
        max 0 ((ShuttlePhysics.new.setStage LIFTOFF).fuelPercentage -
          100 * FUEL_CONSUMPTION_RATE * min (1 / 60) 0.0166 / FUEL_TANK_MASS) :=
  ⟨by norm_num, rfl,
    (C23_fuel_depletion refMath (ShuttlePhysics.new.setStage LIFTOFF) (1 / 60)
      (by norm_num)).1 rfl (by norm_num [ShuttlePhysics.new])
      (by norm_num [ShuttlePhysics.new])⟩

theorem C24_gravity_force_witness :
    1 ≤ (Vector3.mk 0 EARTH_RADIUS 0).length refMath ∧
      ShuttlePhysics.new.calculateGravityForce refMath ⟨0, EARTH_RADIUS, 0⟩ =
        ⟨-(GRAVITY_CONSTANT * EARTH_MASS * ShuttlePhysics.new.calculateTotalMass /
              ((Vector3.mk 0 EARTH_RADIUS 0).length refMath) ^ 2) *
            (0 / (Vector3.mk 0 EARTH_RADIUS 0).length refMath),
          -(GRAVITY_CONSTANT * EARTH_MASS * ShuttlePhysics.new.calculateTotalMass /
              ((Vector3.mk 0 EARTH_RADIUS 0).length refMath) ^ 2) *
            (EARTH_RADIUS / (Vector3.mk 0 EARTH_RADIUS 0).length refMath),
          -(GRAVITY_CONSTANT * EARTH_MASS * ShuttlePhysics.new.calculateTotalMass /
              ((Vector3.mk 0 EARTH_RADIUS 0).length refMath) ^ 2) *
            (0 / (Vector3.mk 0 EARTH_RADIUS 0).length refMath)⟩ :=
  ⟨by rw [surface_length]; norm_num [EARTH_RADIUS],
    ((C24_gravity_force refMath ShuttlePhysics.new ⟨0, EARTH_RADIUS, 0⟩).1
      (by rw [surface_length]; norm_num [EARTH_RADIUS])).1⟩

theorem C25_startup_thrust_holds_vehicle_witness :
    SqrtExact refMath ∧ (0 : ℚ) < 1 / 60 ∧
      0 ≤ ((ShuttlePhysics.new.setStage ENGINE_STARTUP).update refMath (1 / 60)).acceleration.y ∧
      0 ≤ ((ShuttlePhysics.new.setStage ENGINE_STARTUP).update refMath (1 / 60)).velocity.y ∧
      0 ≤ ((ShuttlePhysics.new.setStage ENGINE_STARTUP).update refMath (1 / 60)).altitude :=
  ⟨refMath_sqrtExact, by norm_num,
    (C25_startup_thrust_holds_vehicle refMath refMath_sqrtExact).2 (1 / 60) (by norm_num)⟩

theorem C26_orbital_stages_absorbing_witness :
    (ShuttlePhysics.new.setStage FREE_SPACE_MOTION).stage = FREE_SPACE_MOTION ∧
      ((ShuttlePhysics.new.setStage FREE_SPACE_MOTION).update refMath (1 / 60)).stage =
        FREE_SPACE_MOTION :=
  ⟨rfl,
    ((C26_orbital_stages_absorbing refMath (ShuttlePhysics.new.setStage FREE_SPACE_MOTION)
      (1 / 60)).1 rfl).1⟩

theorem C27_motion_along_y_witness :
    Reachable refMath ((ShuttlePhysics.new.setStage LIFTOFF).update refMath (1 / 60)) ∧
      ((ShuttlePhysics.new.setStage LIFTOFF).update refMath (1 / 60)).position.x = 0 ∧
      ((ShuttlePhysics.new.setStage LIFTOFF).update refMath (1 / 60)).velocity.x = 0 :=
  ⟨Reachable.update (1 / 60) (Reachable.setStage LIFTOFF Reachable.new),
    (C27_motion_along_y refMath _
      (Reachable.update (1 / 60) (Reachable.setStage LIFTOFF Reachable.new))).1.1,
    (C27_motion_along_y refMath _
      (Reachable.update (1 / 60) (Reachable.setStage LIFTOFF Reachable.new))).1.2.2.1⟩

theorem C28_latches_agree_with_flags_witness :
    Reachable refMath ((ShuttlePhysics.new.setStage LIFTOFF).update refMath (1 / 60)) ∧
      ((ShuttlePhysics.new.setStage LIFTOFF).update refMath (1 / 60)).isRocket1Attached =
        ((ShuttlePhysics.new.setStage LIFTOFF).update refMath (1 / 60)).isRocket2Attached :=
  ⟨Reachable.update (1 / 60) (Reachable.setStage LIFTOFF Reachable.new),
    (C28_latches_agree_with_flags refMath _
      (Reachable.update (1 / 60) (Reachable.setStage LIFTOFF Reachable.new))).2.1⟩

theorem C29_liftoff_on_update_181_witness :
    (180 : ℕ) ≤ 180 ∧
      (runUpdates refMath (ShuttlePhysics.new.setStage ENGINE_STARTUP)
          (List.replicate 180 (1 / 60))).stage = ENGINE_STARTUP :=
  ⟨le_refl _, (C29_liftoff_on_update_181 refMath).2.1 180 (le_refl _)⟩


end ShuttlePhysics

end Shuttle
